import Mathlib

set_option maxHeartbeats 1000000

/-
  Verification development for the EmberOS CASM toolchain
  (lexer, parser, printer, two-pass code generator, software VM).

  Shallow embedding conventions:
  - a C string is modelled as the list of its characters (up to the NUL
    terminator, which is not part of the list);
  - int64_t values are modelled as Int together with explicit two's-complement
    wrapping (i64) at every operation where the C code can wrap;
  - uint64_t / uint32_t / uint8_t values are modelled as Nat with explicit
    reductions mod 2^64 / 2^32 / 2^8 at the operations that can wrap;
  - fixed C arrays are modelled as Lists with the same capacity constants.
-/

namespace EmberCasm

/-- Two's-complement wrap of an integer into the signed 64-bit range
[-2^63, 2^63). -/
def i64 (v : Int) : Int := (v + 2 ^ 63).emod (2 ^ 64) - 2 ^ 63

/-- Two's-complement wrap into the signed 32-bit range (used for the
`static_cast to int` in the prtn opcode). -/
def i32 (v : Int) : Int := (v + 2 ^ 31).emod (2 ^ 32) - 2 ^ 31

/-- The unsigned 64-bit bit pattern of an int64 value (two's complement). -/
def u64 (v : Int) : Nat := (v.emod (2 ^ 64)).toNat

/-- C bitwise AND of an int64 value with a nonnegative mask
(two's-complement bits of the value). -/
def andMask (v : Int) (m : Nat) : Nat := u64 v &&& m

/-- C arithmetic right shift of an int64 value (sign-propagating), which is
floor division by a power of two. -/
def asr (v : Int) (k : Nat) : Int := Int.fdiv v (2 ^ k)

/-- to_lower, as defined in lexer.cpp / parser.cpp / codegen.cpp. -/
def toLowerC (c : Char) : Char :=
  if 'A' ≤ c ∧ c ≤ 'Z' then Char.ofNat (c.toNat + 32) else c

/-- Lexer::is_digit. -/
def isDigitC (c : Char) : Bool := decide ('0' ≤ c ∧ c ≤ '9')

/-- Lexer::is_alpha (letters and underscore). -/
def isAlphaC (c : Char) : Bool :=
  decide (('a' ≤ c ∧ c ≤ 'z') ∨ ('A' ≤ c ∧ c ≤ 'Z') ∨ c = '_')

/-- Lexer::is_alnum. -/
def isAlnumC (c : Char) : Bool := isAlphaC c || isDigitC c

/-- Lexer::is_hex_digit. -/
def isHexC (c : Char) : Bool :=
  isDigitC c || decide (('a' ≤ c ∧ c ≤ 'f') ∨ ('A' ≤ c ∧ c ≤ 'F'))

/-- Lexer::is_binary_digit. -/
def isBinC (c : Char) : Bool := decide (c = '0' ∨ c = '1')

/-- Whitespace skipped by Lexer::skip_whitespace (space, tab, CR; not LF). -/
def isWsC (c : Char) : Bool := decide (c = ' ' ∨ c = '\t' ∨ c = '\r')

/-- Lowercasing of a whole lexeme. -/
def lowerStr (s : List Char) : List Char := s.map toLowerC

/-- str_equal_nocase / str_equal_n: case-insensitive comparison, which also
compares lengths. -/
def strEqNoCase (a b : List Char) : Bool := lowerStr a == lowerStr b

/-- Case-insensitive comparison of a lexeme against a C string literal
(token_equals in parser.cpp and codegen.cpp). -/
def tokEq (s : List Char) (lit : String) : Bool := strEqNoCase s lit.toList

/- ===================== Lexer (src/casm/lexer.cpp) ===================== -/

/-- Tokens produced by the lexer.  Identifier and string tokens carry their
lexeme (a slice of the source); number tokens carry both the lexeme and the
value computed by parse_decimal / parse_hexadecimal / parse_binary.
End-of-file is represented by the end of the token list. -/
inductive Tok where
  | ident (s : List Char)
  | num (s : List Char) (v : Int)
  | str (s : List Char)
  | colon
  | comma
  | hash
  | lbracket
  | rbracket
  | exclaim
  | dot
  | plus
  | minus
  | newline
  | err
deriving DecidableEq, Repr

/-- One step of parse_decimal: value = value * 10 + digit, with int64 wrap. -/
def decAccum : List Char → Int → Int
  | [], acc => acc
  | c :: cs, acc => decAccum cs (i64 (acc * 10 + ((c.toNat : Int) - ('0'.toNat : Int))))

/-- parse_decimal: optional leading minus, then base-10 accumulation with
int64 wrapping (the final negation also wraps). -/
def parseDec (s : List Char) : Int :=
  match s with
  | '-' :: ds => i64 (- decAccum ds 0)
  | ds => decAccum ds 0

/-- Value of a single hexadecimal digit (parse_hexadecimal). -/
def hexVal (c : Char) : Nat :=
  if isDigitC c then c.toNat - '0'.toNat
  else if 'a' ≤ c ∧ c ≤ 'f' then c.toNat - 'a'.toNat + 10
  else if 'A' ≤ c ∧ c ≤ 'F' then c.toNat - 'A'.toNat + 10
  else 0

/-- parse_hexadecimal accumulation (stops at the first non-hex character). -/
def hexAccum : List Char → Int → Int
  | [], acc => acc
  | c :: cs, acc =>
    if isHexC c then hexAccum cs (i64 (acc * 16 + (hexVal c : Int))) else acc

/-- parse_binary accumulation. -/
def binAccum : List Char → Int → Int
  | [], acc => acc
  | c :: cs, acc => binAccum cs (i64 (acc * 2 + ((c.toNat : Int) - ('0'.toNat : Int))))

/-- make_number_token: dispatch on a 0x / 0b prefix of the lexeme, else
decimal. -/
def numValue (s : List Char) : Int :=
  match s with
  | '0' :: c :: rest =>
    if toLowerC c = 'x' then hexAccum rest 0
    else if toLowerC c = 'b' then binAccum rest 0
    else parseDec s
  | s => parseDec s

/-- make_string_token scanning, after the opening quote: returns the body
(with escape pairs kept verbatim) and the remaining input after the closing
quote, or none when the string is unterminated (end of input or a bare
newline). -/
def scanStr : List Char → Option (List Char × List Char)
  | [] => none
  | '"' :: cs => some ([], cs)
  | '\n' :: _ => none
  | '\\' :: c2 :: cs =>
    match scanStr cs with
    | some (b, r) => some ('\\' :: c2 :: b, r)
    | none => none
  | c :: cs =>
    match scanStr cs with
    | some (b, r) => some (c :: b, r)
    | none => none

/-- Identifier scanning after its first character c: consume alphanumerics;
when the token so far is exactly a single b / B and a dot follows, the dot
and the following alphabetic condition-code characters are fused into the
token (the b.cond special case). -/
def scanIdent (c : Char) (cs : List Char) : List Char × List Char :=
  let tl := cs.takeWhile isAlnumC
  let rest := cs.dropWhile isAlnumC
  if tl = [] ∧ toLowerC c = 'b' then
    match rest with
    | '.' :: cs2 => (c :: '.' :: cs2.takeWhile isAlphaC, cs2.dropWhile isAlphaC)
    | _ => (c :: tl, rest)
  else (c :: tl, rest)

/-- Lexer::next_token.  Returns none at end of input (the END_OF_FILE
token), otherwise the token and the remaining characters. -/
def nextToken (cs0 : List Char) : Option (Tok × List Char) :=
  let cs := cs0.dropWhile isWsC
  match cs with
  | [] => none
  | c :: rest =>
    if c = ';' then
      match rest.dropWhile (fun d => !(d = '\n')) with
      | [] => none
      | _ :: r2 => some (.newline, r2)
    else if c = '/' then
      match rest with
      | '/' :: rest2 =>
        match rest2.dropWhile (fun d => !(d = '\n')) with
        | [] => none
        | _ :: r2 => some (.newline, r2)
      | _ => some (.err, rest)
    else if c = '\n' then some (.newline, rest)
    else if c = ':' then some (.colon, rest)
    else if c = ',' then some (.comma, rest)
    else if c = '#' then some (.hash, rest)
    else if c = '[' then some (.lbracket, rest)
    else if c = ']' then some (.rbracket, rest)
    else if c = '!' then some (.exclaim, rest)
    else if c = '.' then some (.dot, rest)
    else if c = '+' then some (.plus, rest)
    else if c = '-' then
      match rest with
      | d :: _ =>
        if isDigitC d then
          let lexeme := '-' :: rest.takeWhile isDigitC
          some (.num lexeme (numValue lexeme), rest.dropWhile isDigitC)
        else some (.minus, rest)
      | [] => some (.minus, rest)
    else if isDigitC c then
      if c = '0' then
        match rest with
        | x :: rest2 =>
          if toLowerC x = 'x' then
            let lexeme := '0' :: x :: rest2.takeWhile isHexC
            some (.num lexeme (numValue lexeme), rest2.dropWhile isHexC)
          else if toLowerC x = 'b' then
            let lexeme := '0' :: x :: rest2.takeWhile isBinC
            some (.num lexeme (numValue lexeme), rest2.dropWhile isBinC)
          else
            let lexeme := '0' :: rest.takeWhile isDigitC
            some (.num lexeme (numValue lexeme), rest.dropWhile isDigitC)
        | [] => some (.num ['0'] (numValue ['0']), [])
      else
        let lexeme := c :: rest.takeWhile isDigitC
        some (.num lexeme (numValue lexeme), rest.dropWhile isDigitC)
    else if isAlphaC c then
      let p := scanIdent c rest
      some (.ident p.1, p.2)
    else if c = '"' then
      match scanStr rest with
      | none => some (.err, rest)
      | some (body, r) => some (.str ('"' :: body ++ ['"']), r)
    else some (.err, rest)

/-- Fuel-driven token stream: fuel cs.length + 1 always suffices because
every produced token consumes at least one character. -/
def lexGo : Nat → List Char → List Tok
  | 0, _ => []
  | fuel + 1, cs =>
    match nextToken cs with
    | none => []
    | some (t, rest) => t :: lexGo fuel rest

/-- The full token stream of a source text. -/
def lexAll (cs : List Char) : List Tok := lexGo (cs.length + 1) cs

/- ===================== Parser (src/casm/parser.cpp) ===================== -/

/-- Operand payloads of AST nodes.  Immediate operands keep both the parsed
value and the lexeme of the number token they were built from (the C node
stores the token; the lexeme is what .equ and .global read back).
A memory operand records base register and width, optional index register,
signed offset, and the pre/post-index flags, exactly as struct MemOperand. -/
inductive Operand where
  | reg (num : Nat) (is64 : Bool)
  | imm (v : Int) (lex : List Char)
  | lbl (s : List Char)
  | mem (base : Nat) (index : Option Nat) (offset : Int) (pre post is64 : Bool)
deriving DecidableEq, Repr

/-- Statements of a program: the three top-level AST node kinds, each with
its name lexeme and its (at most 4) operand children.  A parsed program is
the ordered list of its statements. -/
inductive Stmt where
  | label (name : List Char)
  | instr (mnemonic : List Char) (ops : List Operand)
  | directive (name : List Char) (args : List Operand)
deriving DecidableEq, Repr

/-- Parser::parse_register_number: sp, lr, xzr, wzr, or x0-x30 / w0-w30
(case-insensitive); returns the register number and the 64-bit flag. -/
def parseRegNum (s : List Char) : Option (Nat × Bool) :=
  match lowerStr s with
  | ['s', 'p'] => some (31, true)
  | ['l', 'r'] => some (30, true)
  | ['x', 'z', 'r'] => some (31, true)
  | ['w', 'z', 'r'] => some (31, false)
  | c :: ds =>
    if (c = 'x' ∨ c = 'w') ∧ ds ≠ [] ∧ ds.all isDigitC then
      let n := ds.foldl (fun a d => a * 10 + (d.toNat - '0'.toNat)) 0
      if n ≤ 30 then some (n, c = 'x') else none
    else none
  | [] => none

/-- MAX_AST_NODES. -/
def maxAstNodes : Nat := 512

/-- MAX_STATEMENTS. -/
def maxStatements : Nat := 256

/-- Parser::alloc_node: bump the node counter, failing when the pool of
MAX_AST_NODES nodes is exhausted. -/
def allocNode (nodes : Nat) : Option Nat :=
  if nodes ≥ maxAstNodes then none else some (nodes + 1)

/-- Results of one parsing step: the parsed value, the remaining tokens and
the new node count.  none represents the parser error flag being set
(the parser latches the first error and stops, so failures need no payload). -/
abbrev PRes (α : Type) := Option (α × List Tok × Nat)

/-- Parser::parse_immediate (caller has checked that the head token is the
hash).  A minus token may follow the hash; a number token yields an
immediate (negated with int64 wrap when the minus was present); an
identifier yields a symbol-reference operand (OPERAND_LABEL) with the minus
ignored; anything else is an error. -/
def parseImmediate (toks : List Tok) (nodes : Nat) : PRes Operand :=
  match toks with
  | .hash :: t1 =>
    let p : Bool × List Tok :=
      match t1 with
      | .minus :: r => (true, r)
      | _ => (false, t1)
    match allocNode nodes with
    | none => none
    | some n2 =>
      match p.2 with
      | .num lx v :: r => some (.imm (if p.1 then i64 (-v) else v) lx, r, n2)
      | .ident s :: r => some (.lbl s, r, n2)
      | _ => none
  | _ => none

/-- Parser::parse_memory_operand, translated branch by branch:
bracket, base register, optional inner comma part (hash-immediate, index
register, bare number, or minus-number; an unrecognized inner token is
simply skipped), closing bracket, optional exclamation mark (pre-index),
optional comma part after the bracket (post-index, whose offset overwrites
the inner offset when present). -/
def parseMemOperand (toks : List Tok) (nodes : Nat) : PRes Operand :=
  match toks with
  | .lbracket :: t1 =>
    match allocNode nodes with
    | none => none
    | some nd =>
      match t1 with
      | .ident s :: t2 =>
        match parseRegNum s with
        | none => none
        | some (base, is64) =>
          let inner : Option (Option Nat × Int × List Tok) :=
            match t2 with
            | .comma :: t3 =>
              match t3 with
              | .hash :: .minus :: .num _ v :: t4 => some (none, i64 (-v), t4)
              | .hash :: .num _ v :: t4 => some (none, v, t4)
              | .hash :: _ => none
              | .ident si :: t4 =>
                match parseRegNum si with
                | some (idx, _) => some (some idx, 0, t4)
                | none => none
              | .num _ v :: t4 => some (none, v, t4)
              | .minus :: .num _ v :: t4 => some (none, i64 (-v), t4)
              | .minus :: _ => none
              | _ => some (none, 0, t3)
            | _ => some (none, 0, t2)
          match inner with
          | none => none
          | some (idx, off, t5) =>
            match t5 with
            | .rbracket :: t6 =>
              let q : Bool × List Tok :=
                match t6 with
                | .exclaim :: r => (true, r)
                | _ => (false, t6)
              match q.2 with
              | .comma :: t8 =>
                match t8 with
                | .hash :: .minus :: .num _ v :: t9 =>
                  some (.mem base idx (i64 (-v)) q.1 true is64, t9, nd)
                | .hash :: .num _ v :: t9 => some (.mem base idx v q.1 true is64, t9, nd)
                | .hash :: _ => none
                | .num _ v :: t9 => some (.mem base idx v q.1 true is64, t9, nd)
                | .minus :: .num _ v :: t9 =>
                  some (.mem base idx (i64 (-v)) q.1 true is64, t9, nd)
                | .minus :: _ => none
                | _ => some (.mem base idx off q.1 true is64, t8, nd)
              | _ => some (.mem base idx off q.1 false is64, q.2, nd)
            | _ => none
      | _ => none
  | _ => none

/-- Parser::parse_operand: memory operand, hash immediate, register or
label reference, minus-then-number, or bare number. -/
def parseOperand (toks : List Tok) (nodes : Nat) : PRes Operand :=
  match toks with
  | .lbracket :: _ => parseMemOperand toks nodes
  | .hash :: _ => parseImmediate toks nodes
  | .ident s :: r =>
    match parseRegNum s with
    | some (n, is64) =>
      match allocNode nodes with
      | none => none
      | some nd => some (.reg n is64, r, nd)
    | none =>
      match allocNode nodes with
      | none => none
      | some nd => some (.lbl s, r, nd)
  | .minus :: .num lx v :: r2 =>
    match allocNode nodes with
    | none => none
    | some nd => some (.imm (i64 (-v)) lx, r2, nd)
  | .num lx v :: r =>
    match allocNode nodes with
    | none => none
    | some nd => some (.imm v lx, r, nd)
  | _ => none

/-- The operand loop of Parser::parse_instruction_with_token.  The counter k
is the remaining room among the MAX_AST_CHILDREN = 4 children: a fifth
operand parses and then triggers the too-many-operands error.  The loop
stops at a newline or end of file, and after an operand not followed by a
comma. -/
def parseOpsLoop : Nat → List Tok → Nat → List Operand → PRes (List Operand)
  | k, toks, nodes, acc =>
    match toks with
    | [] => some (acc.reverse, [], nodes)
    | .newline :: _ => some (acc.reverse, toks, nodes)
    | _ =>
      match parseOperand toks nodes with
      | none => none
      | some (op, t2, n2) =>
        match k with
        | 0 => none
        | k + 1 =>
          match t2 with
          | .comma :: t3 => parseOpsLoop k t3 n2 (op :: acc)
          | _ => some ((op :: acc).reverse, t2, n2)

/-- The argument loop of Parser::parse_directive.  Every recognized argument
allocates a node; it is appended only while there is room among the 4
children (excess arguments are parsed and silently dropped).  The
hash-immediate case is parse_immediate inlined (same token shapes, same
results).  An unrecognized head token ends the loop without error. -/
def parseDirArgs : List Tok → Nat → List Operand → PRes (List Operand)
  | toks, nodes, acc =>
    match toks with
    | .ident s :: rest =>
      match allocNode nodes with
      | none => none
      | some n2 =>
        let acc2 := if acc.length < 4 then acc ++ [Operand.lbl s] else acc
        match rest with
        | .comma :: t3 => parseDirArgs t3 n2 acc2
        | _ => some (acc2, rest, n2)
    | .num lx v :: rest =>
      match allocNode nodes with
      | none => none
      | some n2 =>
        let acc2 := if acc.length < 4 then acc ++ [Operand.imm v lx] else acc
        match rest with
        | .comma :: t3 => parseDirArgs t3 n2 acc2
        | _ => some (acc2, rest, n2)
    | .str s :: rest =>
      match allocNode nodes with
      | none => none
      | some n2 =>
        let acc2 := if acc.length < 4 then acc ++ [Operand.lbl s] else acc
        match rest with
        | .comma :: t3 => parseDirArgs t3 n2 acc2
        | _ => some (acc2, rest, n2)
    | .hash :: .minus :: .num lx v :: rest =>
      match allocNode nodes with
      | none => none
      | some n2 =>
        let acc2 := if acc.length < 4 then acc ++ [Operand.imm (i64 (-v)) lx] else acc
        match rest with
        | .comma :: t3 => parseDirArgs t3 n2 acc2
        | _ => some (acc2, rest, n2)
    | .hash :: .minus :: .ident s :: rest =>
      match allocNode nodes with
      | none => none
      | some n2 =>
        let acc2 := if acc.length < 4 then acc ++ [Operand.lbl s] else acc
        match rest with
        | .comma :: t3 => parseDirArgs t3 n2 acc2
        | _ => some (acc2, rest, n2)
    | .hash :: .num lx v :: rest =>
      match allocNode nodes with
      | none => none
      | some n2 =>
        let acc2 := if acc.length < 4 then acc ++ [Operand.imm v lx] else acc
        match rest with
        | .comma :: t3 => parseDirArgs t3 n2 acc2
        | _ => some (acc2, rest, n2)
    | .hash :: .ident s :: rest =>
      match allocNode nodes with
      | none => none
      | some n2 =>
        let acc2 := if acc.length < 4 then acc ++ [Operand.lbl s] else acc
        match rest with
        | .comma :: t3 => parseDirArgs t3 n2 acc2
        | _ => some (acc2, rest, n2)
    | .hash :: _ => none
    | _ => some (acc, toks, nodes)

/-- Parser::parse_statement: a directive after a dot; an identifier
followed by a colon is a label; any other identifier starts an instruction
whose operands follow. -/
def parseStmt (toks : List Tok) (nodes : Nat) : PRes Stmt :=
  match toks with
  | .dot :: .ident name :: t2 =>
    match allocNode nodes with
    | none => none
    | some n2 =>
      match parseDirArgs t2 n2 [] with
      | none => none
      | some (args, t3, n3) => some (.directive name args, t3, n3)
  | .dot :: _ => none
  | .ident s :: .colon :: t2 =>
    match allocNode nodes with
    | none => none
    | some n2 => some (.label s, t2, n2)
  | .ident s :: t1 =>
    match allocNode nodes with
    | none => none
    | some n2 =>
      match parseOpsLoop 4 t1 n2 [] with
      | none => none
      | some (ops, t2, n3) => some (.instr s ops, t2, n3)
  | _ => none

/-- Recognizer for the newline token (skip_newlines). -/
def Tok.isNewline : Tok → Bool
  | .newline => true
  | _ => false

/-- The statement loop of Parser::parse_program: skip newlines, stop at end
of file, parse a statement (subject to the MAX_STATEMENTS bound), require a
newline or end of file after it.  Fuel toks.length + 1 always suffices
because every statement consumes at least one token. -/
def parseProgLoop : Nat → List Tok → Nat → Nat → List Stmt → Option (List Stmt × Nat)
  | 0, _, _, _, _ => none
  | fuel + 1, toks, nodes, stmtCount, acc =>
    let toks2 := toks.dropWhile Tok.isNewline
    match toks2 with
    | [] => some (acc, nodes)
    | _ =>
      match parseStmt toks2 nodes with
      | none => none
      | some (s, t2, n2) =>
        if stmtCount < maxStatements then
          match t2 with
          | [] => some (acc ++ [s], n2)
          | .newline :: _ => parseProgLoop fuel t2 n2 (stmtCount + 1) (acc ++ [s])
          | _ => none
        else none

/-- Parser::parse: returns the program's statements, or none when the
parser's error flag would be set.  The node counter starts at 1 because the
PROGRAM node itself is allocated first. -/
def parseProg (toks : List Tok) : Option (List Stmt) :=
  match parseProgLoop (toks.length + 1) toks 1 0 [] with
  | none => none
  | some (stmts, _) => some stmts

/- ===================== Printer (src/casm/printer.cpp) ===================== -/

/-- Decimal digit characters of n, most significant first, by repeated
division by 10 exactly as Printer::write_number does (empty for n = 0; the
fuel n bounds the digit count).  itself -/
def digitsGo : Nat → Nat → List Char
  | 0, _ => []
  | _, 0 => []
  | fuel + 1, n => Char.ofNat (n % 10 + '0'.toNat) :: digitsGo fuel (n / 10)

/-- Digits of n most significant first. -/
def digitsOf (n : Nat) : List Char := (digitsGo n n).reverse

/-- Printer::write_number: minus sign for negatives (the magnitude is read
back through the uint64 cast, so -2^63 prints as -9223372036854775808),
the single digit 0 for zero, decimal digits otherwise. -/
def printNumber (v : Int) : List Char :=
  if v < 0 then '-' :: digitsOf (-v).toNat
  else if v = 0 then ['0']
  else digitsOf v.toNat

/-- Printer::write_register_name: register 31 prints as sp (64-bit) or wzr
(32-bit); everything else as the x / w prefix and the register number (the
source has a redundant dedicated branch for x30, kept here). -/
def regName (n : Nat) (is64 : Bool) : List Char :=
  if n = 31 then (if is64 then ['s', 'p'] else ['w', 'z', 'r'])
  else if n = 30 ∧ is64 then 'x' :: printNumber 30
  else (if is64 then 'x' else 'w') :: printNumber (n : Int)

/-- Printer::print_operand (registers, immediates, label references, memory
operands).  Memory operands follow print_memory_operand: the post-index
branch prints only base and offset; otherwise the index register or a
nonzero offset is printed inside the brackets and pre-index appends the
exclamation mark. -/
def printOperandL : Operand → List Char
  | .reg n is64 => regName n is64
  | .imm v _ => '#' :: printNumber v
  | .lbl s => s
  | .mem base idx off pre post is64 =>
    '[' :: regName base is64 ++
      (if post then
        [']', ',', ' ', '#'] ++ printNumber off
      else
        (match idx with
         | some i => [',', ' '] ++ regName i is64
         | none => if off ≠ 0 then [',', ' ', '#'] ++ printNumber off else []) ++
        [']'] ++ (if pre then ['!'] else []))

/-- Comma-and-space separated operand list. -/
def printOperands : List Operand → List Char
  | [] => []
  | [o] => printOperandL o
  | o :: rest => printOperandL o ++ [',', ' '] ++ printOperands rest

/-- Printer::print_node for one statement: labels print their lexeme and a
colon; instructions print the lowercased mnemonic and the operands;
directives print a dot, the lowercased name and the arguments. -/
def printStmtL : Stmt → List Char
  | .label n => n ++ [':']
  | .instr m ops => lowerStr m ++ (if ops.isEmpty then [] else ' ' :: printOperands ops)
  | .directive n args =>
    '.' :: lowerStr n ++ (if args.isEmpty then [] else ' ' :: printOperands args)

/-- Printer::print on a program node: each statement followed by a
newline.  The claim supplies a sufficiently large buffer, so the overflow
flag of the printer never fires and is not modelled. -/
def printProg : List Stmt → List Char
  | [] => []
  | s :: rest => printStmtL s ++ '\n' :: printProg rest

/- ================ Code generator (src/casm/codegen.cpp) ================ -/

/-- Symbol table entry (struct Symbol): stored name (truncated to 31
characters by str_copy_n), address, defined and global flags. -/
structure Sym where
  name : List Char
  address : Nat
  defined : Bool
  isGlobal : Bool
deriving DecidableEq, Repr

/-- Section tag (enum class Section); recorded but not used for layout. -/
inductive Sect where
  | text
  | data
  | bss
deriving DecidableEq, Repr

/-- Code generator state: output offset, symbol table, current section,
latched error flag with its first message, pass flag, and the 4 KiB code
buffer. -/
structure CG where
  codeOffset : Nat
  symbols : List Sym
  sect : Sect
  hasError : Bool
  errorMsg : String
  isFirstPass : Bool
  code : List Nat
deriving DecidableEq, Repr

/-- MAX_CODE_SIZE. -/
def maxCodeSize : Nat := 4096

/-- MAX_SYMBOLS. -/
def maxSymbols : Nat := 64

/-- State after the constructor / reset: everything cleared, first pass. -/
def cgInit : CG :=
  { codeOffset := 0, symbols := [], sect := .text, hasError := false,
    errorMsg := "", isFirstPass := true, code := List.replicate maxCodeSize 0 }

/-- CodeGenerator::error: latch the first error message. -/
def cgError (σ : CG) (msg : String) : CG :=
  if σ.hasError then σ else { σ with hasError := true, errorMsg := msg }

/-- str_copy_n into a Symbol's 32-byte name field keeps at most 31
characters. -/
def storeName (s : List Char) : List Char := s.take 31

/-- Name comparison used by find_symbol / lookup_symbol (str_equal_n is
case-insensitive and length-sensitive). -/
def symMatch (q : List Char) (s : Sym) : Bool := strEqNoCase q s.name

/-- Index of the first matching symbol. -/
def findSymIdx (syms : List Sym) (q : List Char) : Option Nat :=
  syms.findIdx? (symMatch q)

/-- lookup_symbol: the first matching symbol, if any. -/
def findSymR (syms : List Sym) (q : List Char) : Option Sym :=
  syms.find? (symMatch q)

/-- CodeGenerator::define_symbol: redefinition of a defined symbol is an
error; an existing undefined symbol gets its address; otherwise a new
symbol is added (add_symbol may fail with a full table). -/
def defineSym (σ : CG) (q : List Char) (addr : Nat) : CG :=
  match findSymIdx σ.symbols q with
  | some i =>
    let sym := σ.symbols.getD i ⟨[], 0, false, false⟩
    if sym.defined then cgError σ "Symbol already defined"
    else { σ with symbols := σ.symbols.set i { sym with address := addr, defined := true } }
  | none =>
    if σ.symbols.length ≥ maxSymbols then cgError σ "Symbol table full"
    else { σ with symbols := σ.symbols ++ [⟨storeName q, addr, true, false⟩] }

/-- The .global / .globl handler's find-or-add followed by setting the
global flag. -/
def markGlobal (σ : CG) (q : List Char) : CG :=
  match findSymIdx σ.symbols q with
  | some i =>
    let sym := σ.symbols.getD i ⟨[], 0, false, false⟩
    { σ with symbols := σ.symbols.set i { sym with isGlobal := true } }
  | none =>
    if σ.symbols.length ≥ maxSymbols then cgError σ "Symbol table full"
    else { σ with symbols := σ.symbols ++ [⟨storeName q, 0, false, true⟩] }

/-- CodeGenerator::emit_byte: the first (sizing) pass only advances the
offset; the second pass checks for overflow of the 4 KiB buffer and writes
the byte.  Note that the overflow branch does not advance the offset. -/
def emitByte (σ : CG) (b : Nat) : CG :=
  if σ.isFirstPass then { σ with codeOffset := σ.codeOffset + 1 }
  else if σ.codeOffset ≥ maxCodeSize then cgError σ "Code buffer overflow"
  else { σ with code := σ.code.set σ.codeOffset (b % 256),
                codeOffset := σ.codeOffset + 1 }

/-- emit_half (little-endian). -/
def emitHalf (σ : CG) (h : Nat) : CG :=
  emitByte (emitByte σ (h &&& 0xFF)) ((h >>> 8) &&& 0xFF)

/-- emit_word (little-endian). -/
def emitWord (σ : CG) (w : Nat) : CG :=
  emitByte (emitByte (emitByte (emitByte σ (w &&& 0xFF)) ((w >>> 8) &&& 0xFF))
    ((w >>> 16) &&& 0xFF)) ((w >>> 24) &&& 0xFF)

/-- emit_quad (little-endian). -/
def emitQuad (σ : CG) (q : Nat) : CG :=
  emitWord (emitWord σ (q &&& 0xFFFFFFFF)) ((q >>> 32) &&& 0xFFFFFFFF)

/-- The loop of CodeGenerator::align_to, padding with zero bytes until the
offset is a multiple of the alignment.  The fuel a bounds the number of
pad bytes needed.  When an emit fails to advance the offset (second-pass
buffer overflow, which latches an error) the source would loop forever;
the model stops with the error latched. -/
def alignGo (a : Nat) : Nat → CG → CG
  | 0, σ => σ
  | k + 1, σ =>
    if σ.codeOffset % a ≠ 0 then
      let σ2 := emitByte σ 0
      if σ2.codeOffset = σ.codeOffset then σ2 else alignGo a k σ2
    else σ

/-- CodeGenerator::align_to. -/
def alignTo (σ : CG) (a : Nat) : CG := alignGo a a σ

/-- CodeGenerator::resolve_label: an unknown or not-yet-defined symbol is
an error only in the second pass (the first pass silently yields 0);
otherwise the address is returned through the int64 conversion. -/
def resolveLabel (σ : CG) (s : List Char) : CG × Int :=
  match findSymR σ.symbols s with
  | none => (if σ.isFirstPass then σ else cgError σ "Undefined symbol", 0)
  | some sym =>
    if ¬sym.defined ∧ ¬σ.isFirstPass then (cgError σ "Undefined symbol", 0)
    else (σ, i64 (sym.address : Int))

/-- CodeGenerator::get_register. -/
def getReg : Operand → Option (Nat × Bool)
  | .reg n is64 => some (n, is64)
  | _ => none

/-- CodeGenerator::get_immediate: immediates yield their value, label
operands are resolved, anything else yields 0. -/
def getImm (σ : CG) (op : Operand) : CG × Int :=
  match op with
  | .imm v _ => (σ, v)
  | .lbl s => resolveLabel σ s
  | _ => (σ, 0)

/-- Value read from a directive argument's imm_value field (label and other
nodes were allocated with that field zeroed). -/
def argImmVal : Operand → Int
  | .imm v _ => v
  | _ => 0

/-- Token lexeme of a directive argument (used by .global, .equ, .ascii). -/
def argLex : Operand → List Char
  | .lbl s => s
  | .imm _ lx => lx
  | _ => []

/-- The escape-character mapping of the .ascii / .asciz handlers. -/
def escChar (c : Char) : Nat :=
  match c with
  | 'n' => 10
  | 'r' => 13
  | 't' => 9
  | '0' => 0
  | '\\' => 92
  | '"' => 34
  | c => c.toNat

/-- Bytes emitted for a string body by the .ascii / .asciz loops: a
backslash consumes the following character as an escape, except when the
backslash is the last character of the body (the i + 1 < len - 1 guard),
in which case it is emitted verbatim. -/
def strBytes : List Char → List Nat
  | [] => []
  | ['\\'] => ['\\'.toNat]
  | '\\' :: c :: rest => escChar c :: strBytes rest
  | c :: rest => c.toNat :: strBytes rest

/-- The body of a string token as the directive handlers slice it
(characters 1 .. length-2, skipping the quotes). -/
def bodyOf (s : List Char) : List Char := (s.drop 1).dropLast

/-- Repeated emission of a fill byte (.space / .skip). -/
def emitRep : Nat → Nat → CG → CG
  | 0, _, σ => σ
  | n + 1, fill, σ => emitRep n fill (emitByte σ fill)

/-- CodeGenerator::process_directive, translated case by case in source
order; an unknown directive is silently ignored. -/
def processDirective (σ : CG) (name : List Char) (args : List Operand) : CG :=
  if tokEq name "text" then { σ with sect := .text }
  else if tokEq name "data" then { σ with sect := .data }
  else if tokEq name "bss" then { σ with sect := .bss }
  else if tokEq name "global" ∨ tokEq name "globl" then
    match args with
    | a0 :: _ => markGlobal σ (argLex a0)
    | [] => σ
  else if tokEq name "align" ∨ tokEq name "p2align" then
    match args with
    | a0 :: _ =>
      let power := argImmVal a0
      if 0 ≤ power ∧ power ≤ 12 then alignTo σ (2 ^ power.toNat) else σ
    | [] => σ
  else if tokEq name "balign" then
    match args with
    | a0 :: _ =>
      let al := argImmVal a0
      if 0 < al then alignTo σ al.toNat else σ
    | [] => σ
  else if tokEq name "byte" then
    args.foldl (fun σ2 a => emitByte σ2 (andMask (argImmVal a) 0xFF)) σ
  else if tokEq name "hword" then
    args.foldl (fun σ2 a => emitHalf σ2 (andMask (argImmVal a) 0xFFFF)) σ
  else if tokEq name "word" then
    args.foldl (fun σ2 a => emitWord σ2 (andMask (argImmVal a) 0xFFFFFFFF)) σ
  else if tokEq name "quad" then
    args.foldl (fun σ2 a => emitQuad σ2 (u64 (argImmVal a))) σ
  else if tokEq name "space" ∨ tokEq name "skip" then
    match args with
    | a0 :: rest =>
      let fill : Nat :=
        match rest with
        | a1 :: _ => andMask (argImmVal a1) 0xFF
        | [] => 0
      emitRep (argImmVal a0).toNat fill σ
    | [] => σ
  else if tokEq name "ascii" then
    match args with
    | a0 :: _ => (strBytes (bodyOf (argLex a0))).foldl emitByte σ
    | [] => σ
  else if tokEq name "asciz" ∨ tokEq name "string" then
    match args with
    | a0 :: _ => emitByte ((strBytes (bodyOf (argLex a0))).foldl emitByte σ) 0
    | [] => σ
  else if tokEq name "equ" ∨ tokEq name "set" then
    if σ.isFirstPass then
      match args with
      | a0 :: a1 :: _ => defineSym σ (argLex a0) (u64 (argImmVal a1))
      | _ => σ
    else σ
  else σ

/-- CodeGenerator::get_condition_code. -/
def getCondCode (s : List Char) : Option Nat :=
  if s.length < 2 then none
  else if tokEq s "eq" then some 0
  else if tokEq s "ne" then some 1
  else if tokEq s "cs" ∨ tokEq s "hs" then some 2
  else if tokEq s "cc" ∨ tokEq s "lo" then some 3
  else if tokEq s "mi" then some 4
  else if tokEq s "pl" then some 5
  else if tokEq s "vs" then some 6
  else if tokEq s "vc" then some 7
  else if tokEq s "hi" then some 8
  else if tokEq s "ls" then some 9
  else if tokEq s "ge" then some 10
  else if tokEq s "lt" then some 11
  else if tokEq s "gt" then some 12
  else if tokEq s "le" then some 13
  else if tokEq s "al" then some 14
  else none

/-- The dispatch guard and condition extraction for the conditional-branch
mnemonic forms: a mnemonic longer than two characters whose first character
is a lowercase b (the source checks this case-sensitively), whose second
character is a dot (b.cc form) or not an l / r (bcc form); a failed
condition lookup falls through to the rest of the mnemonic chain. -/
def condBranchHit (m : List Char) : Option Nat :=
  match m with
  | c0 :: c1 :: rest =>
    if rest ≠ [] ∧ c0 = 'b' ∧
        (c1 = '.' ∨ (toLowerC c1 ≠ 'l' ∧ toLowerC c1 ≠ 'r')) then
      if c1 = '.' then getCondCode rest else getCondCode (c1 :: rest)
    else none
  | _ => none

/-- CodeGenerator::encode_branch (b / bl): resolve the target, form the
byte offset from the current output offset, enforce the signed-28-bit
range and word alignment, and build the imm26 encoding. -/
def encodeBranch (σ : CG) (m : List Char) (ops : List Operand) : CG × Nat :=
  match ops with
  | [] => (cgError σ "Branch requires target operand", 0)
  | op :: _ =>
    match op with
    | .lbl _ | .imm _ _ =>
      let r : CG × Int :=
        match op with
        | .lbl s => resolveLabel σ s
        | .imm v _ => (σ, v)
        | _ => (σ, 0)
      let offset := i64 (r.2 - (r.1.codeOffset : Int))
      if offset < -134217728 ∨ offset > 134217724 then
        (cgError r.1 "Branch target out of range", 0)
      else if andMask offset 3 ≠ 0 then (cgError r.1 "Branch target not aligned", 0)
      else
        let imm26 := andMask (asr offset 2) 0x3FFFFFF
        let opBit : Nat := if tokEq m "bl" then 1 else 0
        (r.1, (opBit <<< 31) ||| (0x05 <<< 26) ||| imm26)
    | _ => (cgError σ "Invalid branch target", 0)

/-- CodeGenerator::encode_branch_cond. -/
def encodeBranchCond (σ : CG) (ops : List Operand) (cond : Nat) : CG × Nat :=
  match ops with
  | [] => (cgError σ "Conditional branch requires target operand", 0)
  | op :: _ =>
    match op with
    | .lbl _ | .imm _ _ =>
      let r : CG × Int :=
        match op with
        | .lbl s => resolveLabel σ s
        | .imm v _ => (σ, v)
        | _ => (σ, 0)
      let offset := i64 (r.2 - (r.1.codeOffset : Int))
      if offset < -1048576 ∨ offset > 1048572 then
        (cgError r.1 "Conditional branch target out of range", 0)
      else if andMask offset 3 ≠ 0 then (cgError r.1 "Branch target not aligned", 0)
      else
        let imm19 := andMask (asr offset 2) 0x7FFFF
        (r.1, (0x54 <<< 24) ||| (imm19 <<< 5) ||| cond)
    | _ => (cgError σ "Invalid branch target", 0)

/-- CodeGenerator::encode_cbz_cbnz. -/
def encodeCbz (σ : CG) (ops : List Operand) (isCbnz : Bool) : CG × Nat :=
  match ops with
  | o0 :: o1 :: _ =>
    match getReg o0 with
    | none => (cgError σ "Invalid register for CBZ/CBNZ", 0)
    | some (rt, is64) =>
      match o1 with
      | .lbl _ | .imm _ _ =>
        let r : CG × Int :=
          match o1 with
          | .lbl s => resolveLabel σ s
          | .imm v _ => (σ, v)
          | _ => (σ, 0)
        let offset := i64 (r.2 - (r.1.codeOffset : Int))
        if offset < -1048576 ∨ offset > 1048572 then
          (cgError r.1 "CBZ/CBNZ target out of range", 0)
        else if andMask offset 3 ≠ 0 then (cgError r.1 "Branch target not aligned", 0)
        else
          let imm19 := andMask (asr offset 2) 0x7FFFF
          let sf : Nat := if is64 then 1 else 0
          let opBit : Nat := if isCbnz then 1 else 0
          (r.1, (sf <<< 31) ||| (0x34 <<< 24) ||| (opBit <<< 24) ||| (imm19 <<< 5) ||| rt)
      | _ => (cgError σ "Invalid branch target", 0)
  | _ => (cgError σ "CBZ/CBNZ requires register and target operand", 0)

/-- CodeGenerator::encode_mov (mov / movz / movn / movk): a register source
becomes ORR with the zero register; a mov immediate in [0, 0xFFFF] or an
explicit movz goes through the MOVZ shift selection; a negative mov
immediate or movn through MOVN; movk always encodes shift 0. -/
def encodeMov (σ : CG) (m : List Char) (ops : List Operand) : CG × Nat :=
  match ops with
  | o0 :: o1 :: _ =>
    match getReg o0 with
    | none => (cgError σ "Invalid destination register for MOV", 0)
    | some (rd, is64) =>
      let sf : Nat := if is64 then 1 else 0
      match o1 with
      | .reg rm _ =>
        (σ, (sf <<< 31) ||| (0x2A <<< 24) ||| (rm <<< 16) ||| (0x1F <<< 5) ||| rd)
      | _ =>
        let r := getImm σ o1
        let σ2 := r.1
        let imm := r.2
        if tokEq m "movz" ∨ (tokEq m "mov" ∧ 0 ≤ imm ∧ imm ≤ 0xFFFF) then
          if imm > 0xFFFF then
            if andMask imm 0xFFFF = 0 ∧ asr imm 16 ≤ 0xFFFF then
              (σ2, (sf <<< 31) ||| (0xA5 <<< 23) ||| (1 <<< 21) |||
                (andMask (asr imm 16) 0xFFFF <<< 5) ||| rd)
            else if andMask imm 0xFFFFFFFF = 0 ∧ asr imm 32 ≤ 0xFFFF then
              (σ2, (sf <<< 31) ||| (0xA5 <<< 23) ||| (2 <<< 21) |||
                (andMask (asr imm 32) 0xFFFF <<< 5) ||| rd)
            else if andMask imm 0xFFFFFFFFFFFF = 0 then
              (σ2, (sf <<< 31) ||| (0xA5 <<< 23) ||| (3 <<< 21) |||
                (andMask (asr imm 48) 0xFFFF <<< 5) ||| rd)
            else (cgError σ2 "Immediate value cannot be encoded in MOVZ", 0)
          else (σ2, (sf <<< 31) ||| (0xA5 <<< 23) ||| (andMask imm 0xFFFF <<< 5) ||| rd)
        else if tokEq m "movn" ∨ (tokEq m "mov" ∧ imm < 0) then
          let notImm : Nat := (2 ^ 64 - 1) - u64 imm
          if notImm > 0xFFFF then
            if notImm &&& 0xFFFF = 0 ∧ notImm >>> 16 ≤ 0xFFFF then
              (σ2, (sf <<< 31) ||| (0x25 <<< 23) ||| (1 <<< 21) |||
                (((notImm >>> 16) &&& 0xFFFF) <<< 5) ||| rd)
            else (cgError σ2 "Immediate value cannot be encoded in MOVN", 0)
          else (σ2, (sf <<< 31) ||| (0x25 <<< 23) ||| ((notImm &&& 0xFFFF) <<< 5) ||| rd)
        else if tokEq m "movk" then
          (σ2, (sf <<< 31) ||| (0xE5 <<< 23) ||| (andMask imm 0xFFFF <<< 5) ||| rd)
        else (cgError σ2 "Cannot encode MOV instruction", 0)
  | _ => (cgError σ "MOV requires destination and source operand", 0)

/-- The register-form encodings at the end of encode_data_proc, selected by
mnemonic. -/
def dpRegWord (σ : CG) (m : List Char) (sf rd rn rm : Nat) : CG × Nat :=
  if tokEq m "add" then
    (σ, (sf <<< 31) ||| (0x0B <<< 24) ||| (rm <<< 16) ||| (rn <<< 5) ||| rd)
  else if tokEq m "adds" then
    (σ, (sf <<< 31) ||| (0x2B <<< 24) ||| (rm <<< 16) ||| (rn <<< 5) ||| rd)
  else if tokEq m "sub" ∨ tokEq m "neg" then
    (σ, (sf <<< 31) ||| (0x4B <<< 24) ||| (rm <<< 16) ||| (rn <<< 5) ||| rd)
  else if tokEq m "subs" ∨ tokEq m "cmp" then
    (σ, (sf <<< 31) ||| (0x6B <<< 24) ||| (rm <<< 16) ||| (rn <<< 5) ||| rd)
  else if tokEq m "and" then
    (σ, (sf <<< 31) ||| (0x0A <<< 24) ||| (rm <<< 16) ||| (rn <<< 5) ||| rd)
  else if tokEq m "ands" ∨ tokEq m "tst" then
    (σ, (sf <<< 31) ||| (0x6A <<< 24) ||| (rm <<< 16) ||| (rn <<< 5) ||| rd)
  else if tokEq m "orr" ∨ tokEq m "mov" then
    (σ, (sf <<< 31) ||| (0x2A <<< 24) ||| (rm <<< 16) ||| (rn <<< 5) ||| rd)
  else if tokEq m "eor" then
    (σ, (sf <<< 31) ||| (0x4A <<< 24) ||| (rm <<< 16) ||| (rn <<< 5) ||| rd)
  else if tokEq m "bic" then
    (σ, (sf <<< 31) ||| (0x0A <<< 24) ||| (1 <<< 21) ||| (rm <<< 16) ||| (rn <<< 5) ||| rd)
  else if tokEq m "orn" ∨ tokEq m "mvn" then
    (σ, (sf <<< 31) ||| (0x2A <<< 24) ||| (1 <<< 21) ||| (rm <<< 16) ||| (rn <<< 5) ||| rd)
  else if tokEq m "mul" then
    (σ, (sf <<< 31) ||| (0x1B <<< 24) ||| (rm <<< 16) ||| (0x1F <<< 10) ||| (rn <<< 5) ||| rd)
  else if tokEq m "udiv" then
    (σ, (sf <<< 31) ||| (0x1AC <<< 21) ||| (rm <<< 16) ||| (0x02 <<< 10) ||| (rn <<< 5) ||| rd)
  else if tokEq m "sdiv" then
    (σ, (sf <<< 31) ||| (0x1AC <<< 21) ||| (rm <<< 16) ||| (0x03 <<< 10) ||| (rn <<< 5) ||| rd)
  else if tokEq m "lsl" then
    (σ, (sf <<< 31) ||| (0x1AC <<< 21) ||| (rm <<< 16) ||| (0x08 <<< 10) ||| (rn <<< 5) ||| rd)
  else if tokEq m "lsr" then
    (σ, (sf <<< 31) ||| (0x1AC <<< 21) ||| (rm <<< 16) ||| (0x09 <<< 10) ||| (rn <<< 5) ||| rd)
  else if tokEq m "asr" then
    (σ, (sf <<< 31) ||| (0x1AC <<< 21) ||| (rm <<< 16) ||| (0x0A <<< 10) ||| (rn <<< 5) ||| rd)
  else if tokEq m "ror" then
    (σ, (sf <<< 31) ||| (0x1AC <<< 21) ||| (rm <<< 16) ||| (0x0B <<< 10) ||| (rn <<< 5) ||| rd)
  else (cgError σ "Unsupported data processing instruction", 0)

/-- CodeGenerator::encode_data_proc_imm: extract destination, source and
immediate (the 2-operand aliases imply their canonical operands), check the
unsigned 12-bit field with the shifted-by-12 retry, and build the word. -/
def encodeDataProcImm (σ : CG) (m : List Char) (ops : List Operand) : CG × Nat :=
  match ops with
  | o0 :: o1 :: rest =>
    let rdOpt := getReg o0
    let is64 : Bool :=
      match rdOpt with
      | some (_, b) => b
      | none => true
    let sf : Nat := if is64 then 1 else 0
    let t : Option Nat × Option Nat × (CG × Int) :=
      if tokEq m "cmp" ∨ tokEq m "cmn" then
        (some 31, rdOpt.map (·.1), getImm σ o1)
      else
        match rest with
        | o2 :: _ => (rdOpt.map (·.1), (getReg o1).map (·.1), getImm σ o2)
        | [] => (rdOpt.map (·.1), rdOpt.map (·.1), getImm σ o1)
    let σ2 := t.2.2.1
    let imm := t.2.2.2
    match t.1, t.2.1 with
    | some rd, some rn =>
      if imm < 0 ∨ imm > 4095 then
        if andMask imm 0xFFF = 0 ∧ asr imm 12 ≤ 4095 then
          let imm2 := asr imm 12
          if tokEq m "add" then
            (σ2, (sf <<< 31) ||| (0x11 <<< 24) ||| (1 <<< 22) |||
              (andMask imm2 0xFFF <<< 10) ||| (rn <<< 5) ||| rd)
          else if tokEq m "sub" ∨ tokEq m "cmp" then
            (σ2, (sf <<< 31) ||| (0x51 <<< 24) ||| (1 <<< 22) |||
              (andMask imm2 0xFFF <<< 10) ||| (rn <<< 5) ||| rd)
          else (cgError σ2 "Immediate value out of range", 0)
        else (cgError σ2 "Immediate value out of range", 0)
      else if tokEq m "add" then
        (σ2, (sf <<< 31) ||| (0x11 <<< 24) ||| (andMask imm 0xFFF <<< 10) ||| (rn <<< 5) ||| rd)
      else if tokEq m "adds" ∨ tokEq m "cmn" then
        (σ2, (sf <<< 31) ||| (0x31 <<< 24) ||| (andMask imm 0xFFF <<< 10) ||| (rn <<< 5) ||| rd)
      else if tokEq m "sub" then
        (σ2, (sf <<< 31) ||| (0x51 <<< 24) ||| (andMask imm 0xFFF <<< 10) ||| (rn <<< 5) ||| rd)
      else if tokEq m "subs" ∨ tokEq m "cmp" then
        (σ2, (sf <<< 31) ||| (0x71 <<< 24) ||| (andMask imm 0xFFF <<< 10) ||| (rn <<< 5) ||| rd)
      else (cgError σ2 "Instruction does not support immediate form", 0)
    | _, _ => (cgError σ2 "Invalid register in immediate instruction", 0)
  | _ => (cgError σ "Data processing instruction requires at least 2 operands", 0)

/-- CodeGenerator::encode_data_proc: classify the operand shapes (cmp / cmn
/ tst with implicit destination, neg / mvn with implicit first source,
2-operand and 3-operand forms), dispatching immediates to the immediate
encoder and everything else to the register-form table. -/
def encodeDataProc (σ : CG) (m : List Char) (ops : List Operand) : CG × Nat :=
  match ops with
  | o0 :: o1 :: rest =>
    match getReg o0 with
    | none => (cgError σ "Invalid destination register", 0)
    | some (rd0, is64) =>
      let sf : Nat := if is64 then 1 else 0
      if tokEq m "cmp" ∨ tokEq m "cmn" ∨ tokEq m "tst" then
        match o1 with
        | .imm _ _ | .lbl _ =>
          let r := getImm σ o1
          encodeDataProcImm r.1 m ops
        | _ =>
          match getReg o1 with
          | none => (cgError σ "Invalid second operand", 0)
          | some (rm, _) => dpRegWord σ m sf 31 rd0 rm
      else if tokEq m "neg" ∨ tokEq m "mvn" then
        match getReg o1 with
        | none => (cgError σ "Invalid source register", 0)
        | some (rm, _) => dpRegWord σ m sf rd0 31 rm
      else
        match rest with
        | [] =>
          match o1 with
          | .imm _ _ | .lbl _ =>
            let r := getImm σ o1
            encodeDataProcImm r.1 m ops
          | _ =>
            match getReg o1 with
            | none => (cgError σ "Invalid source register", 0)
            | some (rm, _) => dpRegWord σ m sf rd0 rd0 rm
        | o2 :: _ =>
          match getReg o1 with
          | none => (cgError σ "Invalid first source register", 0)
          | some (rn, _) =>
            match o2 with
            | .imm _ _ | .lbl _ =>
              let r := getImm σ o2
              encodeDataProcImm r.1 m ops
            | _ =>
              match getReg o2 with
              | none => (cgError σ "Invalid second source register", 0)
              | some (rm, _) => dpRegWord σ m sf rd0 rn rm
  | _ => (cgError σ "Data processing instruction requires at least 2 operands", 0)

/-- CodeGenerator::encode_load_store: PC-relative literal form for label
operands (signed 21-bit, word aligned); otherwise a memory operand in
pre/post-indexed form (signed 9-bit byte offset) or unsigned scaled-offset
form (12-bit field, offset must be a multiple of the access size). -/
def encodeLoadStore (σ : CG) (m : List Char) (ops : List Operand) : CG × Nat :=
  match ops with
  | o0 :: o1 :: _ =>
    match getReg o0 with
    | none => (cgError σ "Invalid register for load/store", 0)
    | some (rt, is64) =>
      match o1 with
      | .lbl s =>
        let r := resolveLabel σ s
        let offset := i64 (r.2 - (r.1.codeOffset : Int))
        if offset < -1048576 ∨ offset > 1048572 ∨ andMask offset 3 ≠ 0 then
          (cgError r.1 "PC-relative offset out of range", 0)
        else
          let imm19 := andMask (asr offset 2) 0x7FFFF
          let opc : Nat := if is64 then 1 else 0
          (r.1, (opc <<< 30) ||| (0x18 <<< 24) ||| (imm19 <<< 5) ||| rt)
      | .mem base _ offset pre post _ =>
        let szop : Nat × Nat × Bool :=
          if tokEq m "ldr" then (if is64 then 3 else 2, 1, false)
          else if tokEq m "str" then (if is64 then 3 else 2, 0, false)
          else if tokEq m "ldrb" then (0, 1, false)
          else if tokEq m "strb" then (0, 0, false)
          else if tokEq m "ldrh" then (1, 1, false)
          else if tokEq m "strh" then (1, 0, false)
          else if tokEq m "ldrsb" then (0, if is64 then 2 else 3, true)
          else if tokEq m "ldrsh" then (1, if is64 then 2 else 3, true)
          else if tokEq m "ldrsw" then (2, 2, true)
          else (3, 1, false)
        let size := szop.1
        let opc := szop.2.1
        let isSigned := szop.2.2
        if pre ∨ post then
          if offset < -256 ∨ offset > 255 then
            (cgError σ "Pre/post-index offset out of range (-256 to 255)", 0)
          else
            let imm9 := andMask offset 0x1FF
            let idx : Nat := if pre then 3 else 1
            (σ, (size <<< 30) ||| (0x38 <<< 24) ||| (opc <<< 22) ||| (imm9 <<< 12) |||
              (idx <<< 10) ||| (base <<< 5) ||| rt)
        else
          let scale : Nat := if isSigned ∧ size < 2 then (if is64 then 3 else 2) else size
          let scaled := asr offset scale
          if andMask offset ((1 <<< scale) - 1) ≠ 0 then
            (cgError σ "Offset not aligned to access size", 0)
          else if scaled < 0 ∨ scaled > 4095 then
            (cgError σ "Unsigned offset out of range", 0)
          else
            (σ, (size <<< 30) ||| (0x39 <<< 24) ||| (opc <<< 22) ||| (scaled.toNat <<< 10) |||
              (base <<< 5) ||| rt)
      | _ => (cgError σ "Expected memory operand", 0)
  | _ => (cgError σ "Load/store instruction requires register and memory operand", 0)

/-- The memory-operand arm of encode_load_store, abstracted over the size,
opc and signedness selectors that the mnemonic chain computes: pre/post
indexed form with a signed 9-bit byte offset, otherwise the unsigned scaled
12-bit offset form.  (Stated separately so the frame lemma below can treat
the mnemonic selectors as opaque.) -/
def ldstMem (σ : CG) (rt base : Nat) (offset : Int) (pre post is64 isSigned : Bool)
    (size opc : Nat) : CG × Nat :=
  if pre ∨ post then
    if offset < -256 ∨ offset > 255 then
      (cgError σ "Pre/post-index offset out of range (-256 to 255)", 0)
    else
      let imm9 := andMask offset 0x1FF
      let idx : Nat := if pre then 3 else 1
      (σ, (size <<< 30) ||| (0x38 <<< 24) ||| (opc <<< 22) ||| (imm9 <<< 12) |||
        (idx <<< 10) ||| (base <<< 5) ||| rt)
  else
    let scale : Nat := if isSigned ∧ size < 2 then (if is64 then 3 else 2) else size
    let scaled := asr offset scale
    if andMask offset ((1 <<< scale) - 1) ≠ 0 then
      (cgError σ "Offset not aligned to access size", 0)
    else if scaled < 0 ∨ scaled > 4095 then
      (cgError σ "Unsigned offset out of range", 0)
    else
      (σ, (size <<< 30) ||| (0x39 <<< 24) ||| (opc <<< 22) ||| (scaled.toNat <<< 10) |||
        (base <<< 5) ||| rt)

/-- CodeGenerator::encode_load_store_pair (ldp / stp): signed 7-bit offset
scaled by the register width, in post-index, pre-index or signed-offset
form (post-index is checked first, as in the source). -/
def encodeLoadStorePair (σ : CG) (m : List Char) (ops : List Operand) : CG × Nat :=
  match ops with
  | o0 :: o1 :: o2 :: _ =>
    match getReg o0, getReg o1 with
    | some (rt1, is64), some (rt2, _) =>
      match o2 with
      | .mem base _ offset pre post _ =>
        let scale : Nat := if is64 then 3 else 2
        let scaled := asr offset scale
        if andMask offset ((1 <<< scale) - 1) ≠ 0 then
          (cgError σ "Offset not aligned to register size", 0)
        else if scaled < -64 ∨ scaled > 63 then
          (cgError σ "Pair offset out of range", 0)
        else
          let opc : Nat := if is64 then 2 else 0
          let l : Nat := if tokEq m "ldp" then 1 else 0
          let imm7 := andMask scaled 0x7F
          if post then
            (σ, (opc <<< 30) ||| (0x28 <<< 23) ||| (l <<< 22) ||| (imm7 <<< 15) |||
              (rt2 <<< 10) ||| (base <<< 5) ||| rt1)
          else if pre then
            (σ, (opc <<< 30) ||| (0x29 <<< 23) ||| (1 <<< 24) ||| (l <<< 22) ||| (imm7 <<< 15) |||
              (rt2 <<< 10) ||| (base <<< 5) ||| rt1)
          else
            (σ, (opc <<< 30) ||| (0x29 <<< 23) ||| (l <<< 22) ||| (imm7 <<< 15) |||
              (rt2 <<< 10) ||| (base <<< 5) ||| rt1)
      | _ => (cgError σ "Expected memory operand", 0)
    | _, _ => (cgError σ "Invalid registers for load/store pair", 0)
  | _ => (cgError σ "Load/store pair requires two registers and memory operand", 0)

/-- CodeGenerator::encode_system (wfi / wfe / sev / sevl, barriers with
their optional 4-bit option immediate defaulting to 0xHex F, and svc / hvc /
smc with a 16-bit immediate defaulting to 0). -/
def encodeSystem (σ : CG) (m : List Char) (ops : List Operand) : CG × Nat :=
  if tokEq m "wfi" then (σ, 0xD503207F)
  else if tokEq m "wfe" then (σ, 0xD503205F)
  else if tokEq m "sev" then (σ, 0xD503209F)
  else if tokEq m "sevl" then (σ, 0xD50320BF)
  else if tokEq m "dmb" then
    let opt : Nat :=
      match ops with
      | .imm v _ :: _ => andMask v 0xF
      | _ => 0xF
    (σ, 0xD50330BF ||| (opt <<< 8))
  else if tokEq m "dsb" then
    let opt : Nat :=
      match ops with
      | .imm v _ :: _ => andMask v 0xF
      | _ => 0xF
    (σ, 0xD503309F ||| (opt <<< 8))
  else if tokEq m "isb" then
    let opt : Nat :=
      match ops with
      | .imm v _ :: _ => andMask v 0xF
      | _ => 0xF
    (σ, 0xD50330DF ||| (opt <<< 8))
  else if tokEq m "svc" then
    let r : CG × Nat :=
      match ops with
      | op :: _ =>
        let g := getImm σ op
        (g.1, andMask g.2 0xFFFF)
      | [] => (σ, 0)
    (r.1, 0xD4000001 ||| (r.2 <<< 5))
  else if tokEq m "hvc" then
    let r : CG × Nat :=
      match ops with
      | op :: _ =>
        let g := getImm σ op
        (g.1, andMask g.2 0xFFFF)
      | [] => (σ, 0)
    (r.1, 0xD4000002 ||| (r.2 <<< 5))
  else if tokEq m "smc" then
    let r : CG × Nat :=
      match ops with
      | op :: _ =>
        let g := getImm σ op
        (g.1, andMask g.2 0xFFFF)
      | [] => (σ, 0)
    (r.1, 0xD4000003 ||| (r.2 <<< 5))
  else (cgError σ "Unknown system instruction", 0)

/-- CodeGenerator::encode_instruction: the full dispatch chain, in source
order, ending in the extended pseudo-opcode constants and the
unknown-instruction error. -/
def encodeInstr (σ : CG) (m : List Char) (ops : List Operand) : CG × Nat :=
  if tokEq m "nop" then (σ, 0xD503201F)
  else if tokEq m "ret" then
    let reg : Nat :=
      match ops with
      | op :: _ =>
        match getReg op with
        | some (r, _) => r
        | none => 30
      | [] => 30
    (σ, 0xD65F0000 ||| (reg <<< 5))
  else if tokEq m "br" then
    match ops with
    | op :: _ =>
      match getReg op with
      | some (r, _) => (σ, 0xD61F0000 ||| (r <<< 5))
      | none => (cgError σ "Invalid register for BR", 0)
    | [] => (cgError σ "BR requires register operand", 0)
  else if tokEq m "blr" then
    match ops with
    | op :: _ =>
      match getReg op with
      | some (r, _) => (σ, 0xD63F0000 ||| (r <<< 5))
      | none => (cgError σ "Invalid register for BLR", 0)
    | [] => (cgError σ "BLR requires register operand", 0)
  else if tokEq m "b" then encodeBranch σ m ops
  else if tokEq m "bl" then encodeBranch σ m ops
  else
    match condBranchHit m with
    | some cond => encodeBranchCond σ ops cond
    | none =>
      if tokEq m "cbz" then encodeCbz σ ops false
      else if tokEq m "cbnz" then encodeCbz σ ops true
      else if tokEq m "mov" ∨ tokEq m "movz" ∨ tokEq m "movn" ∨ tokEq m "movk" then
        encodeMov σ m ops
      else if tokEq m "add" ∨ tokEq m "adds" ∨ tokEq m "sub" ∨ tokEq m "subs" ∨
          tokEq m "and" ∨ tokEq m "ands" ∨ tokEq m "orr" ∨ tokEq m "eor" ∨
          tokEq m "bic" ∨ tokEq m "orn" ∨ tokEq m "mvn" ∨ tokEq m "neg" ∨
          tokEq m "cmp" ∨ tokEq m "cmn" ∨ tokEq m "tst" ∨
          tokEq m "asr" ∨ tokEq m "lsl" ∨ tokEq m "lsr" ∨ tokEq m "ror" ∨
          tokEq m "mul" ∨ tokEq m "udiv" ∨ tokEq m "sdiv" then
        encodeDataProc σ m ops
      else if tokEq m "ldr" ∨ tokEq m "ldrb" ∨ tokEq m "ldrh" ∨ tokEq m "ldrsb" ∨
          tokEq m "ldrsh" ∨ tokEq m "ldrsw" ∨ tokEq m "str" ∨ tokEq m "strb" ∨
          tokEq m "strh" then
        encodeLoadStore σ m ops
      else if tokEq m "ldp" ∨ tokEq m "stp" then encodeLoadStorePair σ m ops
      else if tokEq m "wfi" ∨ tokEq m "wfe" ∨ tokEq m "sev" ∨ tokEq m "sevl" ∨
          tokEq m "dmb" ∨ tokEq m "dsb" ∨ tokEq m "isb" ∨ tokEq m "svc" ∨
          tokEq m "hvc" ∨ tokEq m "smc" then
        encodeSystem σ m ops
      else if tokEq m "prt" then (σ, 0xD4002001)
      else if tokEq m "prtc" then (σ, 0xD4002021)
      else if tokEq m "prtn" then (σ, 0xD4002041)
      else if tokEq m "inp" then (σ, 0xD4002061)
      else if tokEq m "cls" then (σ, 0xD4002201)
      else if tokEq m "setc" then (σ, 0xD4002221)
      else if tokEq m "plot" then (σ, 0xD4002241)
      else if tokEq m "line" then (σ, 0xD4002261)
      else if tokEq m "box" then (σ, 0xD4002281)
      else if tokEq m "reset" then (σ, 0xD40022A1)
      else if tokEq m "canvas" then (σ, 0xD40022C1)
      else if tokEq m "sleep" then (σ, 0xD4003E01)
      else if tokEq m "rnd" then (σ, 0xD4003E21)
      else if tokEq m "tick" then (σ, 0xD4003E41)
      else if tokEq m "halt" then (σ, 0xD4003FE1)
      else if tokEq m "inps" then (σ, 0xD4002081)
      else if tokEq m "prtx" then (σ, 0xD40020A1)
      else if tokEq m "strlen" then (σ, 0xD4002601)
      else if tokEq m "memcpy" then (σ, 0xD4002621)
      else if tokEq m "memset" then (σ, 0xD4002641)
      else if tokEq m "abs" then (σ, 0xD4002661)
      else if tokEq m "fcreat" then (σ, 0xD4002401)
      else if tokEq m "fwrite" then (σ, 0xD4002421)
      else if tokEq m "fread" then (σ, 0xD4002441)
      else if tokEq m "fdel" then (σ, 0xD4002461)
      else if tokEq m "fcopy" then (σ, 0xD4002481)
      else if tokEq m "fmove" then (σ, 0xD40024A1)
      else if tokEq m "fexist" then (σ, 0xD40024C1)
      else (cgError σ "Unknown instruction", 0)

/-- CodeGenerator::process_node on one statement (the has_error guard at
its entry included): labels define their symbol in the first pass only;
instructions encode and, when no error has been latched, emit one word;
directives go through the directive handler. -/
def processStmt (σ : CG) (s : Stmt) : CG :=
  if σ.hasError then σ
  else
    match s with
    | .label n => if σ.isFirstPass then defineSym σ n σ.codeOffset else σ
    | .instr m ops =>
      let r := encodeInstr σ m ops
      if ¬r.1.hasError then emitWord r.1 r.2 else r.1
    | .directive n args => processDirective σ n args

/-- State at the start of the second pass: offset reset to zero, pass flag
cleared, symbol table and code buffer carried over. -/
def pass2Start (σ : CG) : CG := { σ with isFirstPass := false, codeOffset := 0 }

/-- CodeGenerator::generate: run the first pass from the reset state; on
success reset the offset and run the second pass; succeed only when
neither pass latched an error.  Returns the final state and the boolean
result. -/
def generate (stmts : List Stmt) : CG × Bool :=
  let σ1 := stmts.foldl processStmt cgInit
  if σ1.hasError then (σ1, false)
  else
    let σ2 := stmts.foldl processStmt (pass2Start σ1)
    (σ2, ¬σ2.hasError)

/- ====== Software interpreter (cmd_casm_run in src/shell/commands.cpp) ====== -/

/-- Output events sent to the console collaborator: single characters
(uart::putc), the signed-decimal and hex printf forms of prtn / prtx, and
diagnostic messages. -/
inductive OutEv where
  | ch (b : Nat)
  | decSigned (v : Int)
  | hexOut (v : Nat)
  | note (s : String)
deriving DecidableEq, Repr

/-- The interpreter state of cmd_casm_run: 32 register slots, the NZCV
flags, program counter, running flag, retired-instruction counter, the
loaded code size, the 5 KiB combined code/data buffer, and the external
collaborators modelled as streams: console output events, console input
bytes, the PRNG seed (a process-wide static in the source), the monotonic
clock reading, an oracle stream for file-store results, and the virtual
framebuffer. -/
structure VM where
  regs : List Nat
  flagN : Bool
  flagZ : Bool
  flagC : Bool
  flagV : Bool
  pc : Nat
  running : Bool
  count : Nat
  codeSize : Nat
  mem : List Nat
  out : List OutEv
  input : List Nat
  seed : Nat
  time : Nat
  ext : List Nat
  fbActive : Bool
  fbW : Nat
  fbH : Nat
  fbFg : Nat
  fbBg : Nat
  fbChars : List Nat
  fbColors : List Nat
deriving DecidableEq, Repr

/-- sizeof(code_buffer): the VM's combined code + data memory. -/
def memSize : Nat := 5120

/-- Register read (regs[i]). -/
def rg (s : VM) (i : Nat) : Nat := s.regs.getD i 0

/-- Fetch of a little-endian 32-bit word at the program counter. -/
def fetchWord (s : VM) : Nat :=
  s.mem.getD s.pc 0 ||| (s.mem.getD (s.pc + 1) 0 <<< 8) |||
    (s.mem.getD (s.pc + 2) 0 <<< 16) ||| (s.mem.getD (s.pc + 3) 0 <<< 24)

/-- uint64 program-counter arithmetic with a signed displacement. -/
def addOff64 (pc : Nat) (d : Int) : Nat := (((pc : Int) + d).emod (2 ^ 64)).toNat

/-- uint64 subtraction (wrapping). -/
def sub64 (a b : Nat) : Nat := (((a : Int) - b).emod (2 ^ 64)).toNat

/-- uint32 subtraction (wrapping). -/
def sub32 (a b : Nat) : Nat := (((a : Int) - b).emod (2 ^ 32)).toNat

/-- Little-endian load of n bytes. -/
def loadLE (mem : List Nat) (addr : Nat) : Nat → Nat
  | 0 => 0
  | n + 1 => mem.getD addr 0 ||| (loadLE mem (addr + 1) n <<< 8)

/-- Little-endian store of n bytes. -/
def storeLE (mem : List Nat) (addr v : Nat) : Nat → List Nat
  | 0 => mem
  | n + 1 => storeLE (mem.set addr (v &&& 0xFF)) (addr + 1) (v >>> 8) n

/-- fb_clear: fills the 25 x 80 character grid with spaces and the color
grid with white-on-black. -/
def fbClear (s : VM) : VM :=
  { s with fbChars := List.replicate 2000 32, fbColors := List.replicate 2000 0x70 }

/-- fb_plot: bounds-checked against the current canvas size; a zero
character plots a space; colors come from the current foreground and
background. -/
def fbPlot (s : VM) (x y : Int) (ch : Nat) : VM :=
  if 0 ≤ x ∧ x < (s.fbW : Int) ∧ 0 ≤ y ∧ y < (s.fbH : Int) then
    let idx := y.toNat * 80 + x.toNat
    { s with fbChars := s.fbChars.set idx (if ch ≠ 0 then ch else 32),
             fbColors := s.fbColors.set idx ((s.fbFg &&& 7) ||| ((s.fbBg &&& 7) <<< 4)) }
  else s

/-- The framebuffer auto-initialization done by the graphics opcodes when
no canvas is active (40 x 12, optionally clearing). -/
def fbAutoInit (s : VM) (clear : Bool) : VM :=
  if s.fbActive then s
  else
    let s1 := { s with fbActive := true, fbW := 40, fbH := 12 }
    if clear then fbClear s1 else s1

/-- A run of fb_plot calls along one axis (the line opcode's loops). -/
def plotRun (s : VM) (horiz : Bool) (fixed lo : Int) (n ch : Nat) : VM :=
  (List.range n).foldl
    (fun st k =>
      if horiz then fbPlot st (lo + k) fixed ch else fbPlot st fixed (lo + k) ch) s

/-- The box opcode's drawing, translated loop by loop. -/
def boxDraw (s : VM) (x y w h : Int) : VM :=
  let top :=
    fbPlot ((plotRun (fbPlot s x y 43) true y (x + 1) (w - 2).toNat 45)) (x + w - 1) y 43
  let mid :=
    (List.range (h - 2).toNat).foldl
      (fun st k =>
        let yi := y + 1 + k
        fbPlot (plotRun (fbPlot st x yi 124) true yi (x + 1) (w - 2).toNat 32)
          (x + w - 1) yi 124) top
  fbPlot (plotRun (fbPlot mid x (y + h - 1) 43) true (y + h - 1) (x + 1) (w - 2).toNat 45)
    (x + w - 1) (y + h - 1) 43

/-- Blocking console read (uart::getc), modelled by the input stream with
a zero byte once the stream is exhausted. -/
def getcV (s : VM) : Nat × VM := (s.input.headD 0, { s with input := s.input.tail })

/-- One result popped from the external-collaborator oracle stream (file
store results). -/
def popExt (s : VM) : Nat × VM := (s.ext.headD 0, { s with ext := s.ext.tail })

/-- The prt loop: write bytes from memory until a NUL or the end of the
buffer.  Fuel memSize + 1 suffices: the loop address increases and must
stay below memSize. -/
def prtGo : Nat → VM → Nat → VM
  | 0, s, _ => s
  | k + 1, s, addr =>
    if addr < memSize ∧ s.mem.getD addr 0 ≠ 0 then
      prtGo k { s with out := s.out ++ [.ch (s.mem.getD addr 0)] } (addr + 1)
    else s

/-- The strlen loop (uint64 index arithmetic; fuel as for prt). -/
def strlenGo : Nat → VM → Nat → Nat → Nat
  | 0, _, _, len => len
  | k + 1, s, addr, len =>
    if (addr + len) % 2 ^ 64 < memSize ∧ s.mem.getD ((addr + len) % 2 ^ 64) 0 ≠ 0 then
      strlenGo k s addr (len + 1)
    else len

/-- The memcpy loop: stops at the length or at the first index that leaves
the buffer (uint64 index arithmetic).  Both windows must hold at every
step, so at most memSize iterations run and the fuel suffices. -/
def memcpyGo : Nat → VM → Nat → Nat → Nat → Nat → VM
  | 0, s, _, _, _, _ => s
  | k + 1, s, dst, src, len, i =>
    if i < len ∧ (dst + i) % 2 ^ 64 < memSize ∧ (src + i) % 2 ^ 64 < memSize then
      memcpyGo k
        { s with mem := s.mem.set ((dst + i) % 2 ^ 64) (s.mem.getD ((src + i) % 2 ^ 64) 0) }
        dst src len (i + 1)
    else s

/-- The memset loop. -/
def memsetGo : Nat → VM → Nat → Nat → Nat → Nat → VM
  | 0, s, _, _, _, _ => s
  | k + 1, s, addr, val, len, i =>
    if i < len ∧ (addr + i) % 2 ^ 64 < memSize then
      memsetGo k { s with mem := s.mem.set ((addr + i) % 2 ^ 64) val } addr val len (i + 1)
    else s

/-- The inps line-read loop: echoing reads with backspace handling, ended
by CR / LF or by the buffer bound; returns the final state and the length.
Fuel input.length + maxLen + 2 suffices: every iteration either consumes
input or (once the stream yields zeros) increases the index. -/
def inpsGo : Nat → VM → Nat → Nat → Nat → VM × Nat
  | 0, s, _, _, i => (s, i)
  | k + 1, s, buf, maxLen, i =>
    if i < maxLen - 1 then
      let c := s.input.headD 0
      let s1 := { s with input := s.input.tail }
      if c = 13 ∨ c = 10 then ({ s1 with out := s1.out ++ [.ch 10] }, i)
      else if c = 127 ∨ c = 8 then
        if i > 0 then inpsGo k { s1 with out := s1.out ++ [.ch 8, .ch 32, .ch 8] } buf maxLen (i - 1)
        else inpsGo k s1 buf maxLen i
      else
        let s2 := { s1 with out := s1.out ++ [.ch c] }
        let s3 :=
          if (buf + i) % 2 ^ 64 < memSize then
            { s2 with mem := s2.mem.set ((buf + i) % 2 ^ 64) c }
          else s2
        inpsGo k s3 buf maxLen (i + 1)
    else (s, i)

/-- Fill of the fread destination region with collaborator-provided bytes
(the file contents are external to the core). -/
def extFill : Nat → VM → Nat → VM
  | 0, s, _ => s
  | k + 1, s, addr =>
    let p := popExt s
    extFill k { p.2 with mem := p.2.mem.set addr (p.1 % 256) } (addr + 1)

/-- The extended-opcode (SVC) dispatch table of the software interpreter,
translated case by case.  The filename bytes passed to the file opcodes go
to the external collaborator and have no effect on the interpreter state,
so only the collaborator's results (the oracle stream) appear here. -/
def svcStep (s : VM) (imm16 : Nat) : VM :=
  if imm16 = 0x100 then prtGo (memSize + 1) s (rg s 0)
  else if imm16 = 0x101 then { s with out := s.out ++ [.ch (rg s 0 &&& 0xFF)] }
  else if imm16 = 0x102 then { s with out := s.out ++ [.decSigned (i32 (rg s 0 : Int))] }
  else if imm16 = 0x103 then
    let p := getcV s
    { p.2 with regs := p.2.regs.set 0 p.1 }
  else if imm16 = 0x110 then fbClear (fbAutoInit s false)
  else if imm16 = 0x111 then
    let s1 := fbAutoInit s true
    { s1 with fbFg := rg s1 0 &&& 7, fbBg := rg s1 1 &&& 7 }
  else if imm16 = 0x112 then
    let s1 := fbAutoInit s true
    fbPlot s1 ((rg s1 0 &&& 0xFF : Nat) : Int) ((rg s1 1 &&& 0xFF : Nat) : Int) (rg s1 2 &&& 0xFF)
  else if imm16 = 0x113 then
    let s1 := fbAutoInit s true
    let x1 : Int := (rg s1 0 &&& 0xFF : Nat)
    let y1 : Int := (rg s1 1 &&& 0xFF : Nat)
    let x2 : Int := (rg s1 2 &&& 0xFF : Nat)
    let y2 : Int := (rg s1 3 &&& 0xFF : Nat)
    let ch : Nat := if rg s1 4 &&& 0xFF ≠ 0 then rg s1 4 &&& 0xFF else 42
    if y1 = y2 then
      plotRun s1 true y1 (min x1 x2) ((max x1 x2 - min x1 x2 + 1).toNat) ch
    else if x1 = x2 then
      plotRun s1 false x1 (min y1 y2) ((max y1 y2 - min y1 y2 + 1).toNat) ch
    else s1
  else if imm16 = 0x114 then
    let s1 := fbAutoInit s true
    boxDraw s1 ((rg s1 0 &&& 0xFF : Nat) : Int) ((rg s1 1 &&& 0xFF : Nat) : Int)
      ((rg s1 2 &&& 0xFF : Nat) : Int) ((rg s1 3 &&& 0xFF : Nat) : Int)
  else if imm16 = 0x115 then { s with fbFg := 7, fbBg := 0 }
  else if imm16 = 0x116 then
    let w0 := rg s 0 &&& 0xFF
    let h0 := rg s 1 &&& 0xFF
    let w1 := if w0 < 1 then 40 else w0
    let h1 := if h0 < 1 then 10 else h0
    let w2 := if w1 > 80 then 80 else w1
    let h2 := if h1 > 24 then 24 else h1
    fbClear { s with fbW := w2, fbH := h2, fbActive := true }
  else if imm16 = 0x1F0 then s
  else if imm16 = 0x1F1 then
    -- seed = seed * 1103515245 + 12345 (uint32); max = regs[0] ? regs[0] : 1
    -- truncated to uint32.  A zero truncated divisor is a division by zero
    -- in the source (undefined); it is excluded by the theorems below.
    let seed2 := (s.seed * 1103515245 + 12345) % 2 ^ 32
    let mx := if rg s 0 ≠ 0 then rg s 0 % 2 ^ 32 else 1
    { s with seed := seed2, regs := s.regs.set 0 ((seed2 >>> 16) % mx) }
  else if imm16 = 0x1F2 then { s with regs := s.regs.set 0 s.time }
  else if imm16 = 0x104 then
    let m0 := rg s 1
    let m1 := if m0 = 0 then 64 else m0
    let maxLen := if m1 > 256 then 256 else m1
    let buf := rg s 0
    let p := inpsGo (s.input.length + maxLen + 2) s buf maxLen 0
    let s2 := p.1
    let i := p.2
    let s3 :=
      if (buf + i) % 2 ^ 64 < memSize then { s2 with mem := s2.mem.set ((buf + i) % 2 ^ 64) 0 }
      else s2
    { s3 with regs := s3.regs.set 0 i }
  else if imm16 = 0x120 then
    let p := popExt s
    { p.2 with regs := p.2.regs.set 0 (if p.1 ≠ 0 then 1 else 0) }
  else if imm16 = 0x121 then
    let dataAddr := rg s 1
    let len := rg s 2
    let p := popExt s
    { p.2 with regs := p.2.regs.set 0 (if p.1 ≠ 0 ∧ (dataAddr + len) % 2 ^ 64 ≤ memSize then len else 0) }
  else if imm16 = 0x122 then
    let buf := rg s 1
    let maxLen := rg s 2
    let p := popExt s
    if p.1 ≠ 0 ∧ (buf + maxLen) % 2 ^ 64 ≤ memSize then
      let q := popExt p.2
      let n := min q.1 maxLen
      let s2 := extFill n q.2 buf
      { s2 with regs := s2.regs.set 0 n }
    else { p.2 with regs := p.2.regs.set 0 0 }
  else if imm16 = 0x123 then
    let p := popExt s
    { p.2 with regs := p.2.regs.set 0 (if p.1 ≠ 0 then 1 else 0) }
  else if imm16 = 0x124 then
    let p := popExt s
    if p.1 ≠ 0 then
      let q := popExt p.2
      { q.2 with regs := q.2.regs.set 0 (if q.1 ≠ 0 then 1 else 0) }
    else { p.2 with regs := p.2.regs.set 0 0 }
  else if imm16 = 0x125 then
    let p := popExt s
    if p.1 ≠ 0 then
      let q := popExt p.2
      { q.2 with regs := q.2.regs.set 0 (if q.1 ≠ 0 then 1 else 0) }
    else { p.2 with regs := p.2.regs.set 0 0 }
  else if imm16 = 0x126 then
    let p := popExt s
    { p.2 with regs := p.2.regs.set 0 (if p.1 ≠ 0 then 1 else 0) }
  else if imm16 = 0x105 then { s with out := s.out ++ [.hexOut (rg s 0 % 2 ^ 32)] }
  else if imm16 = 0x130 then { s with regs := s.regs.set 0 (strlenGo (memSize + 1) s (rg s 0) 0) }
  else if imm16 = 0x131 then memcpyGo (memSize + 1) s (rg s 0) (rg s 1) (rg s 2) 0
  else if imm16 = 0x132 then memsetGo (memSize + 1) s (rg s 0) (rg s 1 &&& 0xFF) (rg s 2) 0
  else if imm16 = 0x133 then
    let v := i64 (rg s 0 : Int)
    { s with regs := s.regs.set 0 (u64 (if v < 0 then i64 (-v) else v)) }
  else if imm16 = 0x1FF then { s with running := false }
  else { s with out := s.out ++ [.note "Unknown SVC"], running := false }

/-- Decoded instruction forms of the software interpreter, one per branch
of its if-else dispatch chain, carrying the bit fields exactly as that
branch extracts them. -/
inductive Decoded where
  | svc (imm16 : Nat)
  | nop
  | ret
  | movz64 (rd imm16 hw : Nat)
  | movz32 (rd imm16 hw : Nat)
  | movn64 (rd imm16 hw : Nat)
  | addi64 (rd rn imm12 sh : Nat)
  | addi32 (rd rn imm12 sh : Nat)
  | subi64 (rd rn imm12 sh : Nat)
  | subi32 (rd rn imm12 sh : Nat)
  | br26 (imm26 : Nat)
  | bl26 (imm26 : Nat)
  | orr64 (rd rn rm : Nat)
  | orr32 (rd rn rm : Nat)
  | addr64 (rd rn rm : Nat)
  | addr32 (rd rn rm : Nat)
  | subr64 (rd rn rm : Nat)
  | subr32 (rd rn rm : Nat)
  | subsr64 (rd rn rm : Nat)
  | subsr32 (rd rn rm : Nat)
  | subsi64 (rd rn imm12 sh : Nat)
  | subsi32 (rd rn imm12 sh : Nat)
  | bcond (cond imm19 : Nat)
  | ldr64 (rt rn imm12 : Nat)
  | ldr32 (rt rn imm12 : Nat)
  | ldrb8 (rt rn imm12 : Nat)
  | str64 (rt rn imm12 : Nat)
  | strb8 (rt rn imm12 : Nat)
  | mul64 (rd rn rm : Nat)
  | mul32 (rd rn rm : Nat)
  | unknown
deriving DecidableEq, Repr

/-- The decode side of the interpreter loop: the same mask tests, in the
same order, as the if-else chain of cmd_casm_run, with the bit fields each
branch extracts. -/
def decode (instr : Nat) : Decoded :=
  if instr &&& 0xFFE0001F = 0xD4000001 then .svc ((instr >>> 5) &&& 0xFFFF)
  else if instr = 0xD503201F then .nop
  else if instr &&& 0xFFFFFC1F = 0xD65F0000 then .ret
  else if instr &&& 0xFF800000 = 0xD2800000 then
    .movz64 (instr &&& 0x1F) ((instr >>> 5) &&& 0xFFFF) ((instr >>> 21) &&& 0x3)
  else if instr &&& 0xFF800000 = 0x52800000 then
    .movz32 (instr &&& 0x1F) ((instr >>> 5) &&& 0xFFFF) ((instr >>> 21) &&& 0x3)
  else if instr &&& 0xFF800000 = 0x92800000 then
    .movn64 (instr &&& 0x1F) ((instr >>> 5) &&& 0xFFFF) ((instr >>> 21) &&& 0x3)
  else if instr &&& 0xFF000000 = 0x91000000 then
    .addi64 (instr &&& 0x1F) ((instr >>> 5) &&& 0x1F) ((instr >>> 10) &&& 0xFFF) ((instr >>> 22) &&& 1)
  else if instr &&& 0xFF000000 = 0x11000000 then
    .addi32 (instr &&& 0x1F) ((instr >>> 5) &&& 0x1F) ((instr >>> 10) &&& 0xFFF) ((instr >>> 22) &&& 1)
  else if instr &&& 0xFF000000 = 0xD1000000 then
    .subi64 (instr &&& 0x1F) ((instr >>> 5) &&& 0x1F) ((instr >>> 10) &&& 0xFFF) ((instr >>> 22) &&& 1)
  else if instr &&& 0xFF000000 = 0x51000000 then
    .subi32 (instr &&& 0x1F) ((instr >>> 5) &&& 0x1F) ((instr >>> 10) &&& 0xFFF) ((instr >>> 22) &&& 1)
  else if instr &&& 0xFC000000 = 0x14000000 then .br26 (instr &&& 0x3FFFFFF)
  else if instr &&& 0xFC000000 = 0x94000000 then .bl26 (instr &&& 0x3FFFFFF)
  else if instr &&& 0xFF200000 = 0xAA000000 then
    .orr64 (instr &&& 0x1F) ((instr >>> 5) &&& 0x1F) ((instr >>> 16) &&& 0x1F)
  else if instr &&& 0xFF200000 = 0x2A000000 then
    .orr32 (instr &&& 0x1F) ((instr >>> 5) &&& 0x1F) ((instr >>> 16) &&& 0x1F)
  else if instr &&& 0xFF200000 = 0x8B000000 then
    .addr64 (instr &&& 0x1F) ((instr >>> 5) &&& 0x1F) ((instr >>> 16) &&& 0x1F)
  else if instr &&& 0xFF200000 = 0x0B000000 then
    .addr32 (instr &&& 0x1F) ((instr >>> 5) &&& 0x1F) ((instr >>> 16) &&& 0x1F)
  else if instr &&& 0xFF200000 = 0xCB000000 then
    .subr64 (instr &&& 0x1F) ((instr >>> 5) &&& 0x1F) ((instr >>> 16) &&& 0x1F)
  else if instr &&& 0xFF200000 = 0x4B000000 then
    .subr32 (instr &&& 0x1F) ((instr >>> 5) &&& 0x1F) ((instr >>> 16) &&& 0x1F)
  else if instr &&& 0xFF200000 = 0xEB000000 then
    .subsr64 (instr &&& 0x1F) ((instr >>> 5) &&& 0x1F) ((instr >>> 16) &&& 0x1F)
  else if instr &&& 0xFF200000 = 0x6B000000 then
    .subsr32 (instr &&& 0x1F) ((instr >>> 5) &&& 0x1F) ((instr >>> 16) &&& 0x1F)
  else if instr &&& 0xFF000000 = 0xF1000000 then
    .subsi64 (instr &&& 0x1F) ((instr >>> 5) &&& 0x1F) ((instr >>> 10) &&& 0xFFF) ((instr >>> 22) &&& 1)
  else if instr &&& 0xFF000000 = 0x71000000 then
    .subsi32 (instr &&& 0x1F) ((instr >>> 5) &&& 0x1F) ((instr >>> 10) &&& 0xFFF) ((instr >>> 22) &&& 1)
  else if instr &&& 0xFF000010 = 0x54000000 then
    .bcond (instr &&& 0xF) ((instr >>> 5) &&& 0x7FFFF)
  else if instr &&& 0xFFC00000 = 0xF9400000 then
    .ldr64 (instr &&& 0x1F) ((instr >>> 5) &&& 0x1F) ((instr >>> 10) &&& 0xFFF)
  else if instr &&& 0xFFC00000 = 0xB9400000 then
    .ldr32 (instr &&& 0x1F) ((instr >>> 5) &&& 0x1F) ((instr >>> 10) &&& 0xFFF)
  else if instr &&& 0xFFC00000 = 0x39400000 then
    .ldrb8 (instr &&& 0x1F) ((instr >>> 5) &&& 0x1F) ((instr >>> 10) &&& 0xFFF)
  else if instr &&& 0xFFC00000 = 0xF9000000 then
    .str64 (instr &&& 0x1F) ((instr >>> 5) &&& 0x1F) ((instr >>> 10) &&& 0xFFF)
  else if instr &&& 0xFFC00000 = 0x39000000 then
    .strb8 (instr &&& 0x1F) ((instr >>> 5) &&& 0x1F) ((instr >>> 10) &&& 0xFFF)
  else if instr &&& 0xFFE0FC00 = 0x9B007C00 then
    .mul64 (instr &&& 0x1F) ((instr >>> 5) &&& 0x1F) ((instr >>> 16) &&& 0x1F)
  else if instr &&& 0xFFE0FC00 = 0x1B007C00 then
    .mul32 (instr &&& 0x1F) ((instr >>> 5) &&& 0x1F) ((instr >>> 16) &&& 0x1F)
  else .unknown

/-- Sign extension of the imm26 branch field (the explicit or-in of the
source). -/
def sext26 (imm26 : Nat) : Int :=
  if imm26 &&& 0x2000000 ≠ 0 then (imm26 : Int) - 0x4000000 else imm26

/-- Sign extension of the imm19 conditional-branch field. -/
def sext19 (imm19 : Nat) : Int :=
  if imm19 &&& 0x40000 ≠ 0 then (imm19 : Int) - 0x80000 else imm19

/-- The execute side of the interpreter loop: the effect of each decoded
branch on the state, translated statement by statement (register writes
discarded for slot 31, pc advanced or replaced exactly where the source
does it). -/
def execDecoded (s : VM) : Decoded → VM
  | .svc imm16 =>
    let s2 := svcStep s imm16
    { s2 with pc := (s2.pc + 4) % 2 ^ 64 }
  | .nop => { s with pc := (s.pc + 4) % 2 ^ 64 }
  | .ret => { s with running := false }
  | .movz64 rd imm16 hw =>
    let v := imm16 <<< (hw * 16)
    { s with regs := if rd ≠ 31 then s.regs.set rd v else s.regs,
             pc := (s.pc + 4) % 2 ^ 64 }
  | .movz32 rd imm16 hw =>
    let v := (imm16 <<< (hw * 16)) &&& 0xFFFFFFFF
    { s with regs := if rd ≠ 31 then s.regs.set rd v else s.regs,
             pc := (s.pc + 4) % 2 ^ 64 }
  | .movn64 rd imm16 hw =>
    let v := (2 ^ 64 - 1) - (imm16 <<< (hw * 16))
    { s with regs := if rd ≠ 31 then s.regs.set rd v else s.regs,
             pc := (s.pc + 4) % 2 ^ 64 }
  | .addi64 rd rn imm12 sh =>
    let operand := if sh = 1 then imm12 <<< 12 else imm12
    let result := (rg s rn + operand) % 2 ^ 64
    { s with regs := if rd ≠ 31 then s.regs.set rd result else s.regs,
             pc := (s.pc + 4) % 2 ^ 64 }
  | .addi32 rd rn imm12 sh =>
    let operand := if sh = 1 then imm12 <<< 12 else imm12
    let result := (rg s rn + operand) &&& 0xFFFFFFFF
    { s with regs := if rd ≠ 31 then s.regs.set rd result else s.regs,
             pc := (s.pc + 4) % 2 ^ 64 }
  | .subi64 rd rn imm12 sh =>
    let operand := if sh = 1 then imm12 <<< 12 else imm12
    let result := sub64 (rg s rn) operand
    { s with regs := if rd ≠ 31 then s.regs.set rd result else s.regs,
             pc := (s.pc + 4) % 2 ^ 64 }
  | .subi32 rd rn imm12 sh =>
    let operand := if sh = 1 then imm12 <<< 12 else imm12
    let result := sub64 (rg s rn) operand &&& 0xFFFFFFFF
    { s with regs := if rd ≠ 31 then s.regs.set rd result else s.regs,
             pc := (s.pc + 4) % 2 ^ 64 }
  | .br26 imm26 => { s with pc := addOff64 s.pc (sext26 imm26 * 4) }
  | .bl26 imm26 =>
    { s with regs := s.regs.set 30 ((s.pc + 4) % 2 ^ 64),
             pc := addOff64 s.pc (sext26 imm26 * 4) }
  | .orr64 rd rn rm =>
    let result := rg s rn ||| rg s rm
    { s with regs := if rd ≠ 31 then s.regs.set rd result else s.regs,
             pc := (s.pc + 4) % 2 ^ 64 }
  | .orr32 rd rn rm =>
    let result := (rg s rn ||| rg s rm) &&& 0xFFFFFFFF
    { s with regs := if rd ≠ 31 then s.regs.set rd result else s.regs,
             pc := (s.pc + 4) % 2 ^ 64 }
  | .addr64 rd rn rm =>
    let result := (rg s rn + rg s rm) % 2 ^ 64
    { s with regs := if rd ≠ 31 then s.regs.set rd result else s.regs,
             pc := (s.pc + 4) % 2 ^ 64 }
  | .addr32 rd rn rm =>
    let result := (rg s rn + rg s rm) &&& 0xFFFFFFFF
    { s with regs := if rd ≠ 31 then s.regs.set rd result else s.regs,
             pc := (s.pc + 4) % 2 ^ 64 }
  | .subr64 rd rn rm =>
    let result := sub64 (rg s rn) (rg s rm)
    { s with regs := if rd ≠ 31 then s.regs.set rd result else s.regs,
             pc := (s.pc + 4) % 2 ^ 64 }
  | .subr32 rd rn rm =>
    let result := sub64 (rg s rn) (rg s rm) &&& 0xFFFFFFFF
    { s with regs := if rd ≠ 31 then s.regs.set rd result else s.regs,
             pc := (s.pc + 4) % 2 ^ 64 }
  | .subsr64 rd rn rm =>
    let op1 := rg s rn
    let op2 := rg s rm
    let result := sub64 op1 op2
    { s with
      flagN := (result >>> 63) &&& 1 ≠ 0,
      flagZ := result = 0,
      flagC := op1 ≥ op2,
      flagV := ((op1 ^^^ op2) &&& (op1 ^^^ result)) >>> 63 ≠ 0,
      regs := if rd ≠ 31 then s.regs.set rd result else s.regs,
      pc := (s.pc + 4) % 2 ^ 64 }
  | .subsr32 rd rn rm =>
    let op1 := rg s rn &&& 0xFFFFFFFF
    let op2 := rg s rm &&& 0xFFFFFFFF
    let result := sub32 op1 op2
    { s with
      flagN := (result >>> 31) &&& 1 ≠ 0,
      flagZ := result = 0,
      flagC := op1 ≥ op2,
      flagV := ((op1 ^^^ op2) &&& (op1 ^^^ result)) >>> 31 ≠ 0,
      regs := if rd ≠ 31 then s.regs.set rd result else s.regs,
      pc := (s.pc + 4) % 2 ^ 64 }
  | .subsi64 rd rn imm12 sh =>
    let op1 := rg s rn
    let op2 := if sh = 1 then imm12 <<< 12 else imm12
    let result := sub64 op1 op2
    { s with
      flagN := (result >>> 63) &&& 1 ≠ 0,
      flagZ := result = 0,
      flagC := op1 ≥ op2,
      flagV := ((op1 ^^^ op2) &&& (op1 ^^^ result)) >>> 63 ≠ 0,
      regs := if rd ≠ 31 then s.regs.set rd result else s.regs,
      pc := (s.pc + 4) % 2 ^ 64 }
  | .subsi32 rd rn imm12 sh =>
    let op1 := rg s rn &&& 0xFFFFFFFF
    let op2 := if sh = 1 then imm12 <<< 12 else imm12
    let result := sub32 op1 op2
    { s with
      flagN := (result >>> 31) &&& 1 ≠ 0,
      flagZ := result = 0,
      flagC := op1 ≥ op2,
      flagV := ((op1 ^^^ op2) &&& (op1 ^^^ result)) >>> 31 ≠ 0,
      regs := if rd ≠ 31 then s.regs.set rd result else s.regs,
      pc := (s.pc + 4) % 2 ^ 64 }
  | .bcond cond imm19 =>
    let take : Bool :=
      if cond = 0 then s.flagZ
      else if cond = 1 then !s.flagZ
      else if cond = 2 then s.flagC
      else if cond = 3 then !s.flagC
      else if cond = 4 then s.flagN
      else if cond = 5 then !s.flagN
      else if cond = 6 then s.flagV
      else if cond = 7 then !s.flagV
      else if cond = 8 then s.flagC && !s.flagZ
      else if cond = 9 then !s.flagC || s.flagZ
      else if cond = 10 then s.flagN == s.flagV
      else if cond = 11 then s.flagN != s.flagV
      else if cond = 12 then !s.flagZ && (s.flagN == s.flagV)
      else if cond = 13 then s.flagZ || (s.flagN != s.flagV)
      else true
    if take then { s with pc := addOff64 s.pc (sext19 imm19 * 4) }
    else { s with pc := (s.pc + 4) % 2 ^ 64 }
  | .ldr64 rt rn imm12 =>
    let addr := (rg s rn + (imm12 <<< 3)) % 2 ^ 64
    let s2 :=
      if (addr + 7) % 2 ^ 64 < memSize then
        { s with regs := if rt ≠ 31 then s.regs.set rt (loadLE s.mem addr 8) else s.regs }
      else s
    { s2 with pc := (s2.pc + 4) % 2 ^ 64 }
  | .ldr32 rt rn imm12 =>
    let addr := (rg s rn + (imm12 <<< 2)) % 2 ^ 64
    let s2 :=
      if (addr + 3) % 2 ^ 64 < memSize then
        { s with regs := if rt ≠ 31 then s.regs.set rt (loadLE s.mem addr 4) else s.regs }
      else s
    { s2 with pc := (s2.pc + 4) % 2 ^ 64 }
  | .ldrb8 rt rn imm12 =>
    let addr := (rg s rn + imm12) % 2 ^ 64
    let s2 :=
      if addr < memSize then
        { s with regs := if rt ≠ 31 then s.regs.set rt (s.mem.getD addr 0) else s.regs }
      else s
    { s2 with pc := (s2.pc + 4) % 2 ^ 64 }
  | .str64 rt rn imm12 =>
    let addr := (rg s rn + (imm12 <<< 3)) % 2 ^ 64
    let s2 :=
      if (addr + 7) % 2 ^ 64 < memSize then { s with mem := storeLE s.mem addr (rg s rt) 8 }
      else s
    { s2 with pc := (s2.pc + 4) % 2 ^ 64 }
  | .strb8 rt rn imm12 =>
    let addr := (rg s rn + imm12) % 2 ^ 64
    let s2 :=
      if addr < memSize then { s with mem := s.mem.set addr (rg s rt &&& 0xFF) }
      else s
    { s2 with pc := (s2.pc + 4) % 2 ^ 64 }
  | .mul64 rd rn rm =>
    let result := (rg s rn * rg s rm) % 2 ^ 64
    { s with regs := if rd ≠ 31 then s.regs.set rd result else s.regs,
             pc := (s.pc + 4) % 2 ^ 64 }
  | .mul32 rd rn rm =>
    let result := (rg s rn * rg s rm) &&& 0xFFFFFFFF
    { s with regs := if rd ≠ 31 then s.regs.set rd result else s.regs,
             pc := (s.pc + 4) % 2 ^ 64 }
  | .unknown => { s with out := s.out ++ [.note "Unknown instruction"], running := false }

/-- One decode / dispatch of a fetched 32-bit word. -/
def execInstr (s : VM) (instr : Nat) : VM := execDecoded s (decode instr)

/-- Budget of the run loop (max_instructions). -/
def maxInstr : Nat := 10000

/-- One iteration body: count the instruction, then decode and execute the
fetched word. -/
def vmStep (s : VM) : VM := execInstr { s with count := s.count + 1 } (fetchWord s)

/-- The run loop: while running, the pc is inside the loaded code bytes,
and the budget is not exhausted.  The structural fuel dominates the budget,
so vmRun below realizes the source loop exactly. -/
def vmLoop : Nat → VM → VM
  | 0, s => s
  | k + 1, s =>
    if s.running ∧ s.pc < s.codeSize ∧ s.count < maxInstr then vmLoop k (vmStep s)
    else s

/-- The whole interpreter run from a state with a fresh instruction
counter. -/
def vmRun (s : VM) : VM := vmLoop maxInstr s

/-- The runaway-execution report at the end of cmd_casm_run
(instr_count >= max_instructions). -/
def runawayReported (s : VM) : Bool := decide (maxInstr ≤ (vmRun s).count)

/-- The fresh interpreter state cmd_casm_run builds before its loop: the
buffer is zeroed and the file bytes are loaded at its start, the registers
and flags are cleared, the pc starts at zero, and the framebuffer state is
reset.  The console input, file-store oracle, clock value and PRNG seed
parameterize the external collaborators (the seed static is 12345 on a
fresh boot). -/
def vmInit (codeBytes input ext : List Nat) (seed time : Nat) : VM :=
  { regs := List.replicate 32 0,
    flagN := false, flagZ := false, flagC := false, flagV := false,
    pc := 0, running := true, count := 0,
    codeSize := min codeBytes.length memSize,
    mem := ((codeBytes.map (· % 256)) ++ List.replicate (memSize - codeBytes.length) 0).take memSize,
    out := [], input := input, seed := seed, time := time, ext := ext,
    fbActive := false, fbW := 0, fbH := 0, fbFg := 7, fbBg := 0,
    fbChars := List.replicate 2000 32, fbColors := List.replicate 2000 0x70 }

/- ================= Definitions used by the claim statements ================= -/

/-- Shape of the identifier lexemes the lexer can produce: an alphabetic
head followed by alphanumerics, or the fused b.cond form (a b, a dot, and
alphabetic condition characters). -/
def identShape (s : List Char) : Bool :=
  match s with
  | [] => false
  | c :: rest =>
    isAlphaC c &&
      (rest.all isAlnumC ||
        (toLowerC c == 'b' &&
          match rest with
          | '.' :: cond => cond.all isAlphaC
          | _ => false))

/-- Shape of the string lexemes the lexer can produce: an opening quote and
a body that the string scanner consumes up to a closing quote at the very
end of the lexeme. -/
def strShape (s : List Char) : Bool :=
  match s with
  | '"' :: rest =>
    match scanStr rest with
    | some (_, r) => r.isEmpty
    | none => false
  | _ => false

/-- The int64 range of immediate payloads. -/
def inI64 (v : Int) : Bool := decide (-(2 ^ 63 : Int) ≤ v ∧ v < 2 ^ 63)

/-- Invariants of instruction operands produced by the parser. -/
def wfOperandI : Operand → Bool
  | .reg n _ => n ≤ 31
  | .imm v _ => inI64 v
  | .lbl s => identShape s
  | .mem base idx off _ post _ =>
    base ≤ 31 &&
      (match idx with
       | some i => i ≤ 31
       | none => true) &&
      inI64 off && (idx.isNone || off == 0 || post)

/-- Invariants of directive arguments produced by the parser (only
immediates and label / string references occur). -/
def wfOperandD : Operand → Bool
  | .imm v _ => inI64 v
  | .lbl s => identShape s || strShape s
  | _ => false

/-- Invariants of a parsed statement. -/
def wfStmt : Stmt → Bool
  | .label n => identShape n
  | .instr m ops => identShape m && ops.length ≤ 4 && ops.all wfOperandI
  | .directive n args => identShape n && args.length ≤ 4 && args.all wfOperandD

/-- Invariants of a parsed program. -/
def wfProg (l : List Stmt) : Bool := l.all wfStmt

/-- The operands whose printed form parses back to the same payload: an
instruction symbol reference must not spell a register name (a hash
immediate may reference one, but it then reparses as a register), and a
memory operand must not combine post-indexing with an index register or
with pre-indexing (printing loses the extra component). -/
def cleanOperand : Operand → Bool
  | .lbl s => (parseRegNum s).isNone
  | .mem _ idx _ pre post _ => !(post && (pre || idx.isSome))
  | _ => true

/-- Statements whose printed form parses back equivalently. -/
def cleanStmt : Stmt → Bool
  | .instr _ ops => ops.all cleanOperand
  | _ => true

/-- Programs whose printed form parses back equivalently. -/
def cleanProg (l : List Stmt) : Bool := l.all cleanStmt

/-- Structural equivalence of operands as the round-trip property states
it: same operand kind and same payload values (register number and width,
immediate value, label spelling, memory base / index / offset / flags);
the source token of an immediate is not part of the payload. -/
def opEquiv : Operand → Operand → Bool
  | .reg n b, .reg n2 b2 => n == n2 && b == b2
  | .imm v _, .imm v2 _ => v == v2
  | .lbl s, .lbl s2 => s == s2
  | .mem b i o p q w, .mem b2 i2 o2 p2 q2 w2 =>
    b == b2 && i == i2 && o == o2 && p == p2 && q == q2 && w == w2
  | _, _ => false

/-- Pointwise operand-list equivalence (same order, same length). -/
def opsEquiv : List Operand → List Operand → Bool
  | [], [] => true
  | a :: as, b :: bs => opEquiv a b && opsEquiv as bs
  | _, _ => false

/-- Structural equivalence of statements: same node kind, same mnemonic or
directive identity (the printer lowercases names, and all name lookups are
case-insensitive), same ordered operands. -/
def stmtEquiv : Stmt → Stmt → Bool
  | .label a, .label b => a == b
  | .instr m1 o1, .instr m2 o2 => lowerStr m1 == lowerStr m2 && opsEquiv o1 o2
  | .directive n1 a1, .directive n2 a2 => lowerStr n1 == lowerStr n2 && opsEquiv a1 a2
  | _, _ => false

/-- Structural equivalence of programs: same statement sequence up to
statement equivalence. -/
def progEquiv : List Stmt → List Stmt → Bool
  | [], [] => true
  | a :: as, b :: bs => stmtEquiv a b && progEquiv as bs
  | _, _ => false

/-- What reparsing the printed text produces from one operand: immediates
get the printed decimal lexeme as their token, everything else is
unchanged. -/
def normOp : Operand → Operand
  | .imm v _ => .imm v (printNumber v)
  | o => o

/-- What reparsing the printed text produces from one statement: names
lowercased, operands normalized. -/
def normStmt : Stmt → Stmt
  | .label n => .label n
  | .instr m ops => .instr (lowerStr m) (ops.map normOp)
  | .directive n args => .directive (lowerStr n) (args.map normOp)

/-- The token list the lexer produces for one printed operand. -/
def opToks : Operand → List Tok
  | .reg n b => [.ident (regName n b)]
  | .imm v _ => [.hash, .num (printNumber v) v]
  | .lbl s => if s.head? = some '"' then [.str s] else [.ident s]
  | .mem base idx off pre post is64 =>
    if post then
      [.lbracket, .ident (regName base is64), .rbracket, .comma, .hash,
        .num (printNumber off) off]
    else
      [.lbracket, .ident (regName base is64)] ++
        (match idx with
         | some i => [.comma, .ident (regName i is64)]
         | none => if off ≠ 0 then [.comma, .hash, .num (printNumber off) off] else []) ++
        [.rbracket] ++ (if pre then [.exclaim] else [])

/-- Tokens of a printed operand list (comma separated). -/
def opsToks : List Operand → List Tok
  | [] => []
  | [o] => opToks o
  | o :: rest => opToks o ++ [.comma] ++ opsToks rest

/-- Tokens of one printed statement line (without the trailing newline). -/
def stmtToks : Stmt → List Tok
  | .label n => [.ident n, .colon]
  | .instr m ops => .ident (lowerStr m) :: opsToks ops
  | .directive n args => .dot :: .ident (lowerStr n) :: opsToks args

/-- Tokens of the whole printed program. -/
def progToks : List Stmt → List Tok
  | [] => []
  | s :: rest => stmtToks s ++ .newline :: progToks rest

/-- AST nodes a statement needs when its printed form is reparsed (one per
statement plus one per operand). -/
def stmtNodes : Stmt → Nat
  | .label _ => 1
  | .instr _ ops => 1 + ops.length
  | .directive _ args => 1 + args.length

/-- The extended pseudo-opcode table of spec section 6 (mnemonic and its
reserved SVC immediate). -/
def extOpcTable : List (String × Nat) :=
  [("prt", 0x100), ("prtc", 0x101), ("prtn", 0x102), ("inp", 0x103),
   ("inps", 0x104), ("prtx", 0x105), ("cls", 0x110), ("setc", 0x111),
   ("plot", 0x112), ("line", 0x113), ("box", 0x114), ("reset", 0x115),
   ("canvas", 0x116), ("fcreat", 0x120), ("fwrite", 0x121), ("fread", 0x122),
   ("fdel", 0x123), ("fcopy", 0x124), ("fmove", 0x125), ("fexist", 0x126),
   ("strlen", 0x130), ("memcpy", 0x131), ("memset", 0x132), ("abs", 0x133),
   ("sleep", 0x1F0), ("rnd", 0x1F1), ("tick", 0x1F2), ("halt", 0x1FF)]

/-- The four subs / cmp instruction forms the interpreter implements, with
their bit fields. -/
inductive SubsForm where
  | reg64 (rd rn rm : Nat)
  | reg32 (rd rn rm : Nat)
  | imm64 (rd rn imm12 sh : Nat)
  | imm32 (rd rn imm12 sh : Nat)
deriving DecidableEq, Repr

/-- The 32-bit word encoding each subs form (exactly the words the
assembler emits for subs / cmp). -/
def subsWord : SubsForm → Nat
  | .reg64 rd rn rm => 0xEB000000 ||| (rm <<< 16) ||| (rn <<< 5) ||| rd
  | .reg32 rd rn rm => 0x6B000000 ||| (rm <<< 16) ||| (rn <<< 5) ||| rd
  | .imm64 rd rn imm12 sh => 0xF1000000 ||| (sh <<< 22) ||| (imm12 <<< 10) ||| (rn <<< 5) ||| rd
  | .imm32 rd rn imm12 sh => 0x71000000 ||| (sh <<< 22) ||| (imm12 <<< 10) ||| (rn <<< 5) ||| rd

/-- Field bounds of a well-formed subs word. -/
def SubsForm.valid : SubsForm → Prop
  | .reg64 rd rn rm => rd < 32 ∧ rn < 32 ∧ rm < 32
  | .reg32 rd rn rm => rd < 32 ∧ rn < 32 ∧ rm < 32
  | .imm64 rd rn imm12 sh => rd < 32 ∧ rn < 32 ∧ imm12 < 4096 ∧ sh < 2
  | .imm32 rd rn imm12 sh => rd < 32 ∧ rn < 32 ∧ imm12 < 4096 ∧ sh < 2

/-- Operation width of a subs form. -/
def SubsForm.w : SubsForm → Nat
  | .reg64 _ _ _ => 64
  | .imm64 _ _ _ _ => 64
  | .reg32 _ _ _ => 32
  | .imm32 _ _ _ _ => 32

/-- The two operands of a subs form in a given state, at the operation
width, as the interpreter reads them. -/
def subsOps (s : VM) : SubsForm → Nat × Nat
  | .reg64 _ rn rm => (rg s rn, rg s rm)
  | .reg32 _ rn rm => (rg s rn &&& 0xFFFFFFFF, rg s rm &&& 0xFFFFFFFF)
  | .imm64 _ rn imm12 sh => (rg s rn, if sh = 1 then imm12 <<< 12 else imm12)
  | .imm32 _ rn imm12 sh => (rg s rn &&& 0xFFFFFFFF, if sh = 1 then imm12 <<< 12 else imm12)

/-- First-pass state after the first i statements. -/
def pass1At (stmts : List Stmt) (i : Nat) : CG := (stmts.take i).foldl processStmt cgInit

/-- Final first-pass state. -/
def pass1Final (stmts : List Stmt) : CG := stmts.foldl processStmt cgInit

/-- Second-pass state after the first i statements. -/
def pass2At (stmts : List Stmt) (i : Nat) : CG :=
  (stmts.take i).foldl processStmt (pass2Start (pass1Final stmts))

/-- Byte count a directive or statement advances the output offset by when
it is processed without error from a given offset (the sizing function both
passes share). -/
def padTo (a off : Nat) : Nat := (a - off % a) % a

/-- The per-statement offset advance, as a function of the statement and
the offset it starts at. -/
def stmtDelta (s : Stmt) (off : Nat) : Nat :=
  match s with
  | .label _ => 0
  | .instr _ _ => 4
  | .directive n args =>
    if tokEq n "text" || tokEq n "data" || tokEq n "bss" then 0
    else if tokEq n "global" || tokEq n "globl" then 0
    else if tokEq n "align" || tokEq n "p2align" then
      match args with
      | a0 :: _ =>
        if 0 ≤ argImmVal a0 ∧ argImmVal a0 ≤ 12 then padTo (2 ^ (argImmVal a0).toNat) off else 0
      | [] => 0
    else if tokEq n "balign" then
      match args with
      | a0 :: _ => if 0 < argImmVal a0 then padTo (argImmVal a0).toNat off else 0
      | [] => 0
    else if tokEq n "byte" then args.length
    else if tokEq n "hword" then 2 * args.length
    else if tokEq n "word" then 4 * args.length
    else if tokEq n "quad" then 8 * args.length
    else if tokEq n "space" || tokEq n "skip" then
      match args with
      | a0 :: _ => (argImmVal a0).toNat
      | [] => 0
    else if tokEq n "ascii" then
      match args with
      | a0 :: _ => (strBytes (bodyOf (argLex a0))).length
      | [] => 0
    else if tokEq n "asciz" || tokEq n "string" then
      match args with
      | a0 :: _ => (strBytes (bodyOf (argLex a0))).length + 1
      | [] => 0
    else 0

/-- Whether processing a statement can define (or reuse the table slot
matched by) the query name: label definitions and first-pass .equ / .set
with at least two arguments, compared through the stored (31-character
truncated, case-insensitive) name. -/
def mayDefine (s : Stmt) (q : List Char) : Bool :=
  match s with
  | .label n => strEqNoCase q (storeName n)
  | .directive n args =>
    (tokEq n "equ" || tokEq n "set") &&
      (match args with
       | a0 :: _ :: _ => strEqNoCase q (storeName (argLex a0))
       | _ => false)
  | _ => false

/-- The wrapped subtraction result of a subs form at its operation width,
as the interpreter computes it (sub64 / sub32). -/
def subsRes (s : VM) (f : SubsForm) : Nat :=
  ((((subsOps s f).1 : Int) - ((subsOps s f).2 : Int)).emod (2 ^ f.w)).toNat

/- ============================== Theorems ============================== -/

/-- C3: every extended pseudo-opcode mnemonic of the section 6 table
encodes, regardless of the operands on the node and of the generator
state, to exactly the fixed SVC word 0xD4000001 with the mnemonic's
reserved 16-bit immediate in bits 5..20, and without touching the state
(in particular without error). -/
theorem c3_extended_opcode_encoding (name : String) (code : Nat)
    (h : (name, code) ∈ extOpcTable) (σ : CG) (ops : List Operand) :
    encodeInstr σ name.toList ops = (σ, 0xD4000001 ||| (code <<< 5)) := by
  fin_cases h <;> rfl

/-- Witness for C3 at a concrete table entry, state and operand list. -/
theorem c3_extended_opcode_encoding_witness :
    encodeInstr cgInit ['h', 'a', 'l', 't'] [Operand.reg 5 true] = (cgInit, 0xD4003FE1) := by
  have := c3_extended_opcode_encoding "halt" 0x1FF (by decide) cgInit [Operand.reg 5 true]
  simpa using this

/-- The low-two-bits test of the branch encoders agrees with divisibility
by 4 of the signed offset. -/
theorem andMask_three_eq_zero (v : Int) : andMask v 3 = 0 ↔ v % 4 = 0 := by
  unfold andMask u64
  rw [show (3 : Nat) = 2 ^ 2 - 1 by norm_num, Nat.and_pow_two_sub_one_eq_mod,
    show (2 : Nat) ^ 2 = 4 by norm_num]
  have h2 : 0 ≤ v.emod (2 ^ 64) := Int.emod_nonneg v (by norm_num)
  have h3 : v.emod (2 ^ 64) % 4 = v % 4 := Int.emod_emod_of_dvd v (by norm_num)
  rw [← h3, ← Int.toNat_of_nonneg h2]
  simp only [Int.toNat_natCast]
  omega

/-- An error-free cgError result is impossible: cgError always reports. -/
theorem cgError_hasError (σ : CG) (hσ : σ.hasError = false) (msg : String) :
    (cgError σ msg).hasError = true := by
  unfold cgError
  simp [hσ]

/-- C5: encoding an unconditional branch (b or bl) to an immediate target
succeeds exactly when the wrapped byte offset from the current output
offset lies in [-134217728, 134217724] and is a multiple of 4; outside
that the generator reports an error.  (In particular offset 134217728 is
rejected and 134217724 is accepted, which the witness instantiates.) -/
theorem c5_branch_range (σ : CG) (hσ : σ.hasError = false) (m : List Char)
    (hm : m = ['b'] ∨ m = ['b', 'l']) (t : Int) (lx : List Char) (rest : List Operand) :
    ((encodeInstr σ m (.imm t lx :: rest)).1.hasError = false ↔
      (-134217728 ≤ i64 (t - (σ.codeOffset : Int)) ∧
        i64 (t - (σ.codeOffset : Int)) ≤ 134217724 ∧
        i64 (t - (σ.codeOffset : Int)) % 4 = 0)) := by
  have hb : encodeInstr σ m (.imm t lx :: rest) = encodeBranch σ m (.imm t lx :: rest) := by
    rcases hm with rfl | rfl <;> rfl
  rw [hb]
  show ((if i64 (t - (σ.codeOffset : Int)) < -134217728 ∨ i64 (t - (σ.codeOffset : Int)) > 134217724 then
      (cgError σ "Branch target out of range", 0)
    else if andMask (i64 (t - (σ.codeOffset : Int))) 3 ≠ 0 then
      (cgError σ "Branch target not aligned", 0)
    else
      (σ, ((if tokEq m "bl" then 1 else 0) <<< 31) ||| (0x05 <<< 26) |||
        andMask (asr (i64 (t - (σ.codeOffset : Int))) 2) 0x3FFFFFF)).1.hasError = false ↔ _)
  set δ := i64 (t - (σ.codeOffset : Int)) with hδ
  by_cases h1 : δ < -134217728 ∨ δ > 134217724
  · simp only [if_pos h1]
    simp [cgError_hasError σ hσ]
    omega
  · simp only [if_neg h1]
    by_cases h2 : andMask δ 3 ≠ 0
    · simp only [if_pos h2]
      have h3 : ¬ (δ % 4 = 0) := fun hc => h2 ((andMask_three_eq_zero δ).mpr hc)
      simp [cgError_hasError σ hσ]
      omega
    · simp only [if_neg h2]
      have h3 : δ % 4 = 0 := (andMask_three_eq_zero δ).mp (not_not.mp h2)
      simp [hσ]
      omega

/-- Witness for C5: from output offset 0, target 134217724 is accepted and
target 134217728 is rejected. -/
theorem c5_branch_range_witness :
    (encodeInstr cgInit ['b'] [.imm 134217724 ['1'], .reg 0 true]).1.hasError = false ∧
    (encodeInstr cgInit ['b'] [.imm 134217728 ['1']]).1.hasError = true := by
  constructor
  · exact (c5_branch_range cgInit rfl ['b'] (Or.inl rfl) 134217724 ['1'] [.reg 0 true]).mpr
      (by decide)
  · have h := c5_branch_range cgInit rfl ['b'] (Or.inl rfl) 134217728 ['1'] []
    by_contra hc
    have := h.mp (by simpa using hc)
    revert this
    decide

/-- C6: counterexample to the claimed shift handling for plain mov.  The
immediate 0x10000 = 65536 has all its nonzero bits inside the 16-bit field
aligned at bit 16, and spelling the instruction movz does encode it as MOVZ
with hw = 1 (word 0xD2A00020); but the mnemonic mov rejects it with an
error, because the mov-as-MOVZ alias is gated on the immediate already
lying in [0, 0xFFFF] before the shift logic is ever consulted. -/
theorem c6_mov_movz_counterexample :
    (encodeInstr cgInit ['m', 'o', 'v']
        [.reg 0 true, .imm 65536 ['6', '5', '5', '3', '6']]).1.hasError = true ∧
    (encodeInstr cgInit ['m', 'o', 'v']
        [.reg 0 true, .imm 65536 ['6', '5', '5', '3', '6']]).1.errorMsg =
      "Cannot encode MOV instruction" ∧
    encodeInstr cgInit ['m', 'o', 'v', 'z']
        [.reg 0 true, .imm 65536 ['6', '5', '5', '3', '6']] =
      (cgInit, 0xD2A00020) := ⟨rfl, rfl, rfl⟩

/-- C6 (amended): for a mov instruction with a register destination and a
non-negative immediate source, the generator emits MOVZ with shift 0 when
the immediate is in [0, 0xFFFF], and otherwise reports "Cannot encode MOV
instruction": the 16/32/48-bit shift positions are attempted only when the
mnemonic is literally movz, never for mov. -/
theorem c6_mov_immediate (σ : CG) (rd : Nat) (is64 : Bool)
    (v : Int) (hv : 0 ≤ v) (lex : List Char) (rest : List Operand) :
    encodeInstr σ ['m', 'o', 'v'] (.reg rd is64 :: .imm v lex :: rest) =
      (if v ≤ 0xFFFF then
        (σ, ((if is64 then 1 else 0) <<< 31) ||| (0xA5 <<< 23) |||
          (andMask v 0xFFFF <<< 5) ||| rd)
      else (cgError σ "Cannot encode MOV instruction", 0)) := by
  have hb : encodeInstr σ ['m', 'o', 'v'] (.reg rd is64 :: .imm v lex :: rest) =
      encodeMov σ ['m', 'o', 'v'] (.reg rd is64 :: .imm v lex :: rest) := rfl
  rw [hb]
  unfold encodeMov
  simp only [getReg, getImm]
  have e1 : tokEq ['m', 'o', 'v'] "movz" = false := by decide
  have e2 : tokEq ['m', 'o', 'v'] "mov" = true := by decide
  have e3 : tokEq ['m', 'o', 'v'] "movn" = false := by decide
  have e4 : tokEq ['m', 'o', 'v'] "movk" = false := by decide
  simp only [e1, e2, e3, e4]
  split_ifs with h1 h2 h3 h4 h5 <;> first
    | rfl
    | (exfalso; simp_all; try omega)

/-- Witness for C6: mov x0, #5 assembles to MOVZ x0, #5 (0xD28000A0). -/
theorem c6_mov_immediate_witness :
    encodeInstr cgInit ['m', 'o', 'v'] [.reg 0 true, .imm 5 ['5']] =
      (cgInit, 0xD28000A0) := by
  have h := c6_mov_immediate cgInit 0 true 5 (by decide) ['5'] []
  rw [h]
  rfl

/-- C9: counterexample to the claimed range for every value including
v = 0.  Dispatching rnd (svc #0x1F1, word 0xD4003E21) with register 0
holding 0 substitutes divisor 1 and writes 0 to register 0; the claimed
interval [0, 0) is empty, so the written value is not inside it. -/
theorem c9_rnd_counterexample :
    rg (execInstr (vmInit [] [] [] 12345 0) 0xD4003E21) 0 = 0 ∧
    ¬ rg (execInstr (vmInit [] [] [] 12345 0) 0xD4003E21) 0 <
      rg (vmInit [] [] [] 12345 0) 0 := by
  decide

/-- C9 (amended): when register 0 holds a value v that is nonzero after
truncation to 32 bits (the source truncates the divisor to uint32; v = 0
substitutes divisor 1 and yields 0, and a nonzero multiple of 2^32 is a
division by zero in the source), the rnd opcode leaves register 0 holding
a value strictly below v (and trivially nonnegative). -/
theorem c9_rnd_range (s : VM) (h : rg s 0 % 2 ^ 32 ≠ 0) :
    rg (execInstr s 0xD4003E21) 0 < rg s 0 := by
  have h0 : rg s 0 ≠ 0 := fun hz => h (by rw [hz]; rfl)
  obtain ⟨a, t, ht⟩ : ∃ a t, s.regs = a :: t := by
    cases hr : s.regs with
    | nil => exact absurd (by unfold rg; rw [hr]; rfl) h0
    | cons a t => exact ⟨a, t, rfl⟩
  have hs : execInstr s 0xD4003E21 =
      (let seed2 := (s.seed * 1103515245 + 12345) % 2 ^ 32
       let mx := if rg s 0 ≠ 0 then rg s 0 % 2 ^ 32 else 1
       let s2 : VM := { s with seed := seed2,
                               regs := s.regs.set 0 ((seed2 >>> 16) % mx) }
       { s2 with pc := (s2.pc + 4) % 2 ^ 64 }) := rfl
  have hrg : rg s 0 = a := by unfold rg; rw [ht]; rfl
  have ha : a ≠ 0 := hrg ▸ h0
  have ha2 : a % 2 ^ 32 ≠ 0 := hrg ▸ h
  rw [hs]
  simp only [rg, ht, List.getD_cons_zero, if_pos ha, List.set_cons_zero]
  exact lt_of_lt_of_le (Nat.mod_lt _ (Nat.pos_of_ne_zero ha2)) (Nat.mod_le _ _)

/-- Witness for C9 (amended): with register 0 holding 10, the rnd opcode
leaves register 0 strictly below 10. -/
theorem c9_rnd_range_witness :
    rg (execInstr { vmInit [] [] [] 12345 0 with
      regs := 10 :: List.replicate 31 0 } 0xD4003E21) 0 < 10 := by
  have h := c9_rnd_range { vmInit [] [] [] 12345 0 with
    regs := 10 :: List.replicate 31 0 } (by decide)
  have h2 : rg { vmInit [] [] [] 12345 0 with
    regs := 10 :: List.replicate 31 0 } 0 = 10 := rfl
  rw [h2] at h
  exact h

/- ====== Frame lemmas: the interpreter helpers leave the instruction
counter untouched, and no helper or instruction writes register slot 31. -/

/-- A list write at one index leaves reads at another index unchanged. -/
theorem getD_set_ne (l : List Nat) (i j v : Nat) (h : i ≠ j) :
    (l.set i v).getD j 0 = l.getD j 0 := by
  simp [List.getD_eq_getElem?_getD, List.getElem?_set_ne h]

/-- A write guarded by rd ≠ 31 never changes the slot-31 read. -/
@[simp] theorem getD31_write (regs : List Nat) (rd v : Nat) :
    (if rd ≠ 31 then regs.set rd v else regs).getD 31 0 = regs.getD 31 0 := by
  split
  · next h => exact getD_set_ne _ _ _ _ h
  · rfl

/-- Writing slot 0 leaves slot 31 unchanged. -/
@[simp] theorem getD31_set0 (l : List Nat) (v : Nat) :
    (l.set 0 v).getD 31 0 = l.getD 31 0 := getD_set_ne _ _ _ _ (by omega)

/-- Writing slot 30 (the link register) leaves slot 31 unchanged. -/
@[simp] theorem getD31_set30 (l : List Nat) (v : Nat) :
    (l.set 30 v).getD 31 0 = l.getD 31 0 := getD_set_ne _ _ _ _ (by omega)

@[simp] theorem fbClear_count (s : VM) : (fbClear s).count = s.count := rfl

@[simp] theorem fbClear_regs (s : VM) : (fbClear s).regs = s.regs := rfl

@[simp] theorem fbPlot_count (s : VM) (x y : Int) (c : Nat) :
    (fbPlot s x y c).count = s.count := by
  unfold fbPlot; split <;> rfl

@[simp] theorem fbPlot_regs (s : VM) (x y : Int) (c : Nat) :
    (fbPlot s x y c).regs = s.regs := by
  unfold fbPlot; split <;> rfl

@[simp] theorem fbAutoInit_count (s : VM) (b : Bool) :
    (fbAutoInit s b).count = s.count := by
  unfold fbAutoInit; split_ifs <;> rfl

@[simp] theorem fbAutoInit_regs (s : VM) (b : Bool) :
    (fbAutoInit s b).regs = s.regs := by
  unfold fbAutoInit; split_ifs <;> rfl

/-- Folding a count-preserving body preserves the count. -/
theorem foldl_count {α : Type} (f : VM → α → VM) (l : List α) (s : VM)
    (h : ∀ st a, (f st a).count = st.count) : (l.foldl f s).count = s.count := by
  induction l generalizing s with
  | nil => rfl
  | cons a t ih => rw [List.foldl_cons, ih, h]

/-- Folding a register-preserving body preserves the registers. -/
theorem foldl_regs {α : Type} (f : VM → α → VM) (l : List α) (s : VM)
    (h : ∀ st a, (f st a).regs = st.regs) : (l.foldl f s).regs = s.regs := by
  induction l generalizing s with
  | nil => rfl
  | cons a t ih => rw [List.foldl_cons, ih, h]

@[simp] theorem plotRun_count (s : VM) (hz : Bool) (f lo : Int) (n c : Nat) :
    (plotRun s hz f lo n c).count = s.count := by
  unfold plotRun
  apply foldl_count
  intro st a
  cases hz <;> simp

@[simp] theorem plotRun_regs (s : VM) (hz : Bool) (f lo : Int) (n c : Nat) :
    (plotRun s hz f lo n c).regs = s.regs := by
  unfold plotRun
  apply foldl_regs
  intro st a
  cases hz <;> simp

@[simp] theorem boxDraw_count (s : VM) (x y w h : Int) :
    (boxDraw s x y w h).count = s.count := by
  unfold boxDraw
  rw [fbPlot_count, plotRun_count, fbPlot_count, foldl_count]
  · rw [fbPlot_count, plotRun_count, fbPlot_count]
  · intro st a
    rw [fbPlot_count, plotRun_count, fbPlot_count]

@[simp] theorem boxDraw_regs (s : VM) (x y w h : Int) :
    (boxDraw s x y w h).regs = s.regs := by
  unfold boxDraw
  rw [fbPlot_regs, plotRun_regs, fbPlot_regs, foldl_regs]
  · rw [fbPlot_regs, plotRun_regs, fbPlot_regs]
  · intro st a
    rw [fbPlot_regs, plotRun_regs, fbPlot_regs]

@[simp] theorem prtGo_count (k : Nat) : ∀ (s : VM) (a : Nat),
    (prtGo k s a).count = s.count := by
  induction k with
  | zero => intro s a; rfl
  | succ k ih =>
    intro s a
    unfold prtGo
    split
    · rw [ih]
    · rfl

@[simp] theorem prtGo_regs (k : Nat) : ∀ (s : VM) (a : Nat),
    (prtGo k s a).regs = s.regs := by
  induction k with
  | zero => intro s a; rfl
  | succ k ih =>
    intro s a
    unfold prtGo
    split
    · rw [ih]
    · rfl

@[simp] theorem memcpyGo_count (k : Nat) : ∀ (s : VM) (d sr ln i : Nat),
    (memcpyGo k s d sr ln i).count = s.count := by
  induction k with
  | zero => intro s d sr ln i; rfl
  | succ k ih =>
    intro s d sr ln i
    unfold memcpyGo
    split
    · rw [ih]
    · rfl

@[simp] theorem memcpyGo_regs (k : Nat) : ∀ (s : VM) (d sr ln i : Nat),
    (memcpyGo k s d sr ln i).regs = s.regs := by
  induction k with
  | zero => intro s d sr ln i; rfl
  | succ k ih =>
    intro s d sr ln i
    unfold memcpyGo
    split
    · rw [ih]
    · rfl

@[simp] theorem memsetGo_count (k : Nat) : ∀ (s : VM) (a v ln i : Nat),
    (memsetGo k s a v ln i).count = s.count := by
  induction k with
  | zero => intro s a v ln i; rfl
  | succ k ih =>
    intro s a v ln i
    unfold memsetGo
    split
    · rw [ih]
    · rfl

@[simp] theorem memsetGo_regs (k : Nat) : ∀ (s : VM) (a v ln i : Nat),
    (memsetGo k s a v ln i).regs = s.regs := by
  induction k with
  | zero => intro s a v ln i; rfl
  | succ k ih =>
    intro s a v ln i
    unfold memsetGo
    split
    · rw [ih]
    · rfl

@[simp] theorem extFill_count (k : Nat) : ∀ (s : VM) (a : Nat),
    (extFill k s a).count = s.count := by
  induction k with
  | zero => intro s a; rfl
  | succ k ih =>
    intro s a
    unfold extFill
    rw [ih]
    rfl

@[simp] theorem extFill_regs (k : Nat) : ∀ (s : VM) (a : Nat),
    (extFill k s a).regs = s.regs := by
  induction k with
  | zero => intro s a; rfl
  | succ k ih =>
    intro s a
    unfold extFill
    rw [ih]
    rfl

@[simp] theorem inpsGo_count (k : Nat) : ∀ (s : VM) (b m i : Nat),
    (inpsGo k s b m i).1.count = s.count := by
  induction k with
  | zero => intro s b m i; rfl
  | succ k ih =>
    intro s b m i
    unfold inpsGo
    dsimp only []
    split_ifs <;> first | rfl | (rw [ih])

@[simp] theorem inpsGo_regs (k : Nat) : ∀ (s : VM) (b m i : Nat),
    (inpsGo k s b m i).1.regs = s.regs := by
  induction k with
  | zero => intro s b m i; rfl
  | succ k ih =>
    intro s b m i
    unfold inpsGo
    dsimp only []
    split_ifs <;> first | rfl | (rw [ih])

/-- Slot-31 reads agree between states with equal register files. -/
theorem rg31_of_regs {t u : VM} (h : t.regs = u.regs) : rg t 31 = rg u 31 := by
  unfold rg
  rw [h]

/-- A slot-0 write on a register file equal to a state's leaves that
state's slot-31 read unchanged. -/
theorem rg31_write0 {l : List Nat} {u : VM} (v : Nat) (h : l = u.regs) :
    (l.set 0 v).getD 31 0 = rg u 31 := by
  rw [getD31_set0, h]
  rfl

/-- The SVC dispatch table never touches the instruction counter. -/
theorem svcStep_count (s : VM) (i : Nat) : (svcStep s i).count = s.count := by
  unfold svcStep
  by_cases h1 : i = 0x100
  · subst h1
    exact prtGo_count _ _ _
  by_cases h2 : i = 0x101
  · subst h2
    rfl
  by_cases h3 : i = 0x102
  · subst h3
    rfl
  by_cases h4 : i = 0x103
  · subst h4
    rfl
  by_cases h5 : i = 0x110
  · subst h5
    exact (fbClear_count _).trans (fbAutoInit_count s false)
  by_cases h6 : i = 0x111
  · subst h6
    exact fbAutoInit_count s true
  by_cases h7 : i = 0x112
  · subst h7
    exact (fbPlot_count _ _ _ _).trans (fbAutoInit_count s true)
  by_cases h8 : i = 0x113
  · subst h8
    show (let s1 := fbAutoInit s true
          let x1 : Int := (rg s1 0 &&& 0xFF : Nat)
          let y1 : Int := (rg s1 1 &&& 0xFF : Nat)
          let x2 : Int := (rg s1 2 &&& 0xFF : Nat)
          let y2 : Int := (rg s1 3 &&& 0xFF : Nat)
          let ch : Nat := if rg s1 4 &&& 0xFF ≠ 0 then rg s1 4 &&& 0xFF else 42
          if y1 = y2 then
            plotRun s1 true y1 (min x1 x2) ((max x1 x2 - min x1 x2 + 1).toNat) ch
          else if x1 = x2 then
            plotRun s1 false x1 (min y1 y2) ((max y1 y2 - min y1 y2 + 1).toNat) ch
          else s1).count = s.count
    dsimp only []
    split_ifs <;> first
      | exact (plotRun_count _ _ _ _ _ _).trans (fbAutoInit_count s true)
      | exact fbAutoInit_count s true
  by_cases h9 : i = 0x114
  · subst h9
    exact (boxDraw_count _ _ _ _ _).trans (fbAutoInit_count s true)
  by_cases h10 : i = 0x115
  · subst h10
    rfl
  by_cases h11 : i = 0x116
  · subst h11
    exact fbClear_count _
  by_cases h12 : i = 0x1F0
  · subst h12
    rfl
  by_cases h13 : i = 0x1F1
  · subst h13
    rfl
  by_cases h14 : i = 0x1F2
  · subst h14
    rfl
  by_cases h15 : i = 0x104
  · subst h15
    show (let m0 := rg s 1
          let m1 := if m0 = 0 then 64 else m0
          let maxLen := if m1 > 256 then 256 else m1
          let buf := rg s 0
          let p := inpsGo (s.input.length + maxLen + 2) s buf maxLen 0
          let s2 := p.1
          let i := p.2
          let s3 :=
            if (buf + i) % 2 ^ 64 < memSize then
              { s2 with mem := s2.mem.set ((buf + i) % 2 ^ 64) 0 }
            else s2
          { s3 with regs := s3.regs.set 0 i }).count = s.count
    dsimp only []
    split_ifs <;> exact inpsGo_count _ _ _ _ _
  by_cases h16 : i = 0x120
  · subst h16
    rfl
  by_cases h17 : i = 0x121
  · subst h17
    rfl
  by_cases h18 : i = 0x122
  · subst h18
    show (let buf := rg s 1
          let maxLen := rg s 2
          let p := popExt s
          if p.1 ≠ 0 ∧ (buf + maxLen) % 2 ^ 64 ≤ memSize then
            let q := popExt p.2
            let n := min q.1 maxLen
            let s2 := extFill n q.2 buf
            { s2 with regs := s2.regs.set 0 n }
          else { p.2 with regs := p.2.regs.set 0 0 }).count = s.count
    dsimp only []
    split <;> first | exact extFill_count _ _ _ | rfl
  by_cases h19 : i = 0x123
  · subst h19
    rfl
  by_cases h20 : i = 0x124
  · subst h20
    show (let p := popExt s
          if p.1 ≠ 0 then
            let q := popExt p.2
            { q.2 with regs := q.2.regs.set 0 (if q.1 ≠ 0 then 1 else 0) }
          else { p.2 with regs := p.2.regs.set 0 0 }).count = s.count
    dsimp only []
    split <;> rfl
  by_cases h21 : i = 0x125
  · subst h21
    show (let p := popExt s
          if p.1 ≠ 0 then
            let q := popExt p.2
            { q.2 with regs := q.2.regs.set 0 (if q.1 ≠ 0 then 1 else 0) }
          else { p.2 with regs := p.2.regs.set 0 0 }).count = s.count
    dsimp only []
    split <;> rfl
  by_cases h22 : i = 0x126
  · subst h22
    rfl
  by_cases h23 : i = 0x105
  · subst h23
    rfl
  by_cases h24 : i = 0x130
  · subst h24
    rfl
  by_cases h25 : i = 0x131
  · subst h25
    exact memcpyGo_count _ _ _ _ _ _
  by_cases h26 : i = 0x132
  · subst h26
    exact memsetGo_count _ _ _ _ _ _
  by_cases h27 : i = 0x133
  · subst h27
    rfl
  by_cases h28 : i = 0x1FF
  · subst h28
    rfl
  rw [if_neg h1, if_neg h2, if_neg h3, if_neg h4, if_neg h5, if_neg h6, if_neg h7, if_neg h8, if_neg h9, if_neg h10, if_neg h11, if_neg h12, if_neg h13, if_neg h14, if_neg h15, if_neg h16, if_neg h17, if_neg h18, if_neg h19, if_neg h20, if_neg h21, if_neg h22, if_neg h23, if_neg h24, if_neg h25, if_neg h26, if_neg h27, if_neg h28]

/-- The SVC dispatch table never writes register slot 31 (its register
writes target slot 0 only). -/
theorem svcStep_rg31 (s : VM) (i : Nat) : rg (svcStep s i) 31 = rg s 31 := by
  unfold svcStep
  by_cases h1 : i = 0x100
  · subst h1
    exact rg31_of_regs (prtGo_regs _ _ _)
  by_cases h2 : i = 0x101
  · subst h2
    rfl
  by_cases h3 : i = 0x102
  · subst h3
    rfl
  by_cases h4 : i = 0x103
  · subst h4
    exact rg31_write0 _ rfl
  by_cases h5 : i = 0x110
  · subst h5
    exact rg31_of_regs ((fbClear_regs _).trans (fbAutoInit_regs s false))
  by_cases h6 : i = 0x111
  · subst h6
    exact rg31_of_regs (fbAutoInit_regs s true)
  by_cases h7 : i = 0x112
  · subst h7
    exact rg31_of_regs ((fbPlot_regs _ _ _ _).trans (fbAutoInit_regs s true))
  by_cases h8 : i = 0x113
  · subst h8
    show rg (let s1 := fbAutoInit s true
          let x1 : Int := (rg s1 0 &&& 0xFF : Nat)
          let y1 : Int := (rg s1 1 &&& 0xFF : Nat)
          let x2 : Int := (rg s1 2 &&& 0xFF : Nat)
          let y2 : Int := (rg s1 3 &&& 0xFF : Nat)
          let ch : Nat := if rg s1 4 &&& 0xFF ≠ 0 then rg s1 4 &&& 0xFF else 42
          if y1 = y2 then
            plotRun s1 true y1 (min x1 x2) ((max x1 x2 - min x1 x2 + 1).toNat) ch
          else if x1 = x2 then
            plotRun s1 false x1 (min y1 y2) ((max y1 y2 - min y1 y2 + 1).toNat) ch
          else s1) 31 = rg s 31
    dsimp only []
    split_ifs <;> first
      | exact rg31_of_regs ((plotRun_regs _ _ _ _ _ _).trans (fbAutoInit_regs s true))
      | exact rg31_of_regs (fbAutoInit_regs s true)
  by_cases h9 : i = 0x114
  · subst h9
    exact rg31_of_regs ((boxDraw_regs _ _ _ _ _).trans (fbAutoInit_regs s true))
  by_cases h10 : i = 0x115
  · subst h10
    rfl
  by_cases h11 : i = 0x116
  · subst h11
    exact rg31_of_regs (fbClear_regs _)
  by_cases h12 : i = 0x1F0
  · subst h12
    rfl
  by_cases h13 : i = 0x1F1
  · subst h13
    exact rg31_write0 _ rfl
  by_cases h14 : i = 0x1F2
  · subst h14
    exact rg31_write0 _ rfl
  by_cases h15 : i = 0x104
  · subst h15
    show rg (let m0 := rg s 1
          let m1 := if m0 = 0 then 64 else m0
          let maxLen := if m1 > 256 then 256 else m1
          let buf := rg s 0
          let p := inpsGo (s.input.length + maxLen + 2) s buf maxLen 0
          let s2 := p.1
          let i := p.2
          let s3 :=
            if (buf + i) % 2 ^ 64 < memSize then
              { s2 with mem := s2.mem.set ((buf + i) % 2 ^ 64) 0 }
            else s2
          { s3 with regs := s3.regs.set 0 i }) 31 = rg s 31
    dsimp only []
    split_ifs <;> exact rg31_write0 _ (inpsGo_regs _ _ _ _ _)
  by_cases h16 : i = 0x120
  · subst h16
    exact rg31_write0 _ rfl
  by_cases h17 : i = 0x121
  · subst h17
    exact rg31_write0 _ rfl
  by_cases h18 : i = 0x122
  · subst h18
    show rg (let buf := rg s 1
          let maxLen := rg s 2
          let p := popExt s
          if p.1 ≠ 0 ∧ (buf + maxLen) % 2 ^ 64 ≤ memSize then
            let q := popExt p.2
            let n := min q.1 maxLen
            let s2 := extFill n q.2 buf
            { s2 with regs := s2.regs.set 0 n }
          else { p.2 with regs := p.2.regs.set 0 0 }) 31 = rg s 31
    dsimp only []
    split <;> first
      | exact rg31_write0 _ (extFill_regs _ _ _)
      | exact rg31_write0 _ rfl
  by_cases h19 : i = 0x123
  · subst h19
    exact rg31_write0 _ rfl
  by_cases h20 : i = 0x124
  · subst h20
    show rg (let p := popExt s
          if p.1 ≠ 0 then
            let q := popExt p.2
            { q.2 with regs := q.2.regs.set 0 (if q.1 ≠ 0 then 1 else 0) }
          else { p.2 with regs := p.2.regs.set 0 0 }) 31 = rg s 31
    dsimp only []
    split <;> exact rg31_write0 _ rfl
  by_cases h21 : i = 0x125
  · subst h21
    show rg (let p := popExt s
          if p.1 ≠ 0 then
            let q := popExt p.2
            { q.2 with regs := q.2.regs.set 0 (if q.1 ≠ 0 then 1 else 0) }
          else { p.2 with regs := p.2.regs.set 0 0 }) 31 = rg s 31
    dsimp only []
    split <;> exact rg31_write0 _ rfl
  by_cases h22 : i = 0x126
  · subst h22
    exact rg31_write0 _ rfl
  by_cases h23 : i = 0x105
  · subst h23
    rfl
  by_cases h24 : i = 0x130
  · subst h24
    exact rg31_write0 _ rfl
  by_cases h25 : i = 0x131
  · subst h25
    exact rg31_of_regs (memcpyGo_regs _ _ _ _ _ _)
  by_cases h26 : i = 0x132
  · subst h26
    exact rg31_of_regs (memsetGo_regs _ _ _ _ _ _)
  by_cases h27 : i = 0x133
  · subst h27
    exact rg31_write0 _ rfl
  by_cases h28 : i = 0x1FF
  · subst h28
    rfl
  rw [if_neg h1, if_neg h2, if_neg h3, if_neg h4, if_neg h5, if_neg h6, if_neg h7, if_neg h8, if_neg h9, if_neg h10, if_neg h11, if_neg h12, if_neg h13, if_neg h14, if_neg h15, if_neg h16, if_neg h17, if_neg h18, if_neg h19, if_neg h20, if_neg h21, if_neg h22, if_neg h23, if_neg h24, if_neg h25, if_neg h26, if_neg h27, if_neg h28]
  rfl

/-- No instruction dispatch changes the retired-instruction counter. -/
theorem execDecoded_count (s : VM) (d : Decoded) : (execDecoded s d).count = s.count := by
  cases d <;> first
    | rfl
    | exact svcStep_count s _
    | exact (apply_ite VM.count _ _ _).trans (ite_self _)

/-- No instruction dispatch writes register slot 31: every destination or
load-target write is guarded by rd ≠ 31, the link-register write targets
slot 30, and the SVC opcodes write slot 0 only. -/
theorem execDecoded_rg31 (s : VM) (d : Decoded) : rg (execDecoded s d) 31 = rg s 31 := by
  cases d <;> first
    | rfl
    | exact svcStep_rg31 s _
    | exact getD31_write s.regs _ _
    | exact getD31_set30 s.regs _
    | exact (apply_ite (fun t => rg t 31) _ _ _).trans (ite_self _)
    | (refine Eq.trans (apply_ite (fun t => rg t 31) _ _ _) ?_
       split <;> first
         | rfl
         | exact getD31_write s.regs _ _)

/-- Each loop iteration retires exactly one instruction. -/
theorem vmStep_count (s : VM) : (vmStep s).count = s.count + 1 := by
  unfold vmStep execInstr
  rw [execDecoded_count]

/-- Each loop iteration leaves register slot 31 unchanged. -/
theorem vmStep_rg31 (s : VM) : rg (vmStep s) 31 = rg s 31 :=
  execDecoded_rg31 { s with count := s.count + 1 } (decode (fetchWord s))

/-- The loop retires at most as many instructions as it has fuel. -/
theorem vmLoop_count_le (k : Nat) : ∀ s : VM, (vmLoop k s).count ≤ s.count + k := by
  induction k with
  | zero => intro s; exact Nat.le_refl _
  | succ k ih =>
    intro s
    unfold vmLoop
    split
    · calc (vmLoop k (vmStep s)).count ≤ (vmStep s).count + k := ih _
        _ = s.count + 1 + k := by rw [vmStep_count]
        _ ≤ s.count + (k + 1) := by omega
    · omega

/-- With fuel at least the remaining budget, the loop runs to completion:
its guard is false at the final state. -/
theorem vmLoop_guard_false (k : Nat) : ∀ s : VM, maxInstr ≤ s.count + k →
    ¬ ((vmLoop k s).running = true ∧ (vmLoop k s).pc < (vmLoop k s).codeSize ∧
       (vmLoop k s).count < maxInstr) := by
  induction k with
  | zero =>
    intro s h hc
    have h2 : (vmLoop 0 s).count < maxInstr := hc.2.2
    have h3 : s.count < maxInstr := h2
    omega
  | succ k ih =>
    intro s h
    unfold vmLoop
    split
    · next hg => exact ih (vmStep s) (by rw [vmStep_count]; omega)
    · next hg => exact hg

/-- The counter never exceeds the budget: the guard stops the loop as soon
as the budget is reached. -/
theorem vmLoop_count_cap (k : Nat) : ∀ s : VM, s.count ≤ maxInstr →
    (vmLoop k s).count ≤ maxInstr := by
  induction k with
  | zero => intro s h; exact h
  | succ k ih =>
    intro s h
    unfold vmLoop
    split
    · next hg => exact ih (vmStep s) (by rw [vmStep_count]; have := hg.2.2; omega)
    · exact h

/-- C8: started with a fresh instruction counter, the interpreter's run
loop terminates within the 10,000-instruction budget: the final count is
at most 10,000, the loop guard is false at the final state (the fuel of
the embedding never cuts the loop short), and if the final state is still
running with the pc inside the loaded code then the budget was exhausted
and the runaway-execution condition is reported.  Moreover each of the
other stop conditions halts the loop: the halt opcode (svc #0x1FF), a ret
instruction, and an unrecognized 32-bit word each clear the running flag,
and a pc outside the loaded code bytes falsifies the guard directly. -/
theorem c8_run_loop_termination (s : VM) (h : s.count = 0) :
    (vmRun s).count ≤ maxInstr ∧
    ¬ ((vmRun s).running = true ∧ (vmRun s).pc < (vmRun s).codeSize ∧
       (vmRun s).count < maxInstr) ∧
    ((vmRun s).running = true → (vmRun s).pc < (vmRun s).codeSize →
      runawayReported s = true) ∧
    (∀ t : VM, (execInstr t 0xD4003FE1).running = false) ∧
    (∀ t : VM, (execInstr t 0xD65F03C0).running = false) ∧
    (∀ (t : VM) (w : Nat), decode w = .unknown → (execInstr t w).running = false) := by
  refine ⟨vmLoop_count_cap maxInstr s (by omega),
    vmLoop_guard_false maxInstr s (by omega), ?_, ?_, ?_, ?_⟩
  · intro hr hpc
    have hg := vmLoop_guard_false maxInstr s (by omega)
    have hnlt : ¬ (vmRun s).count < maxInstr := fun hlt => hg ⟨hr, hpc, hlt⟩
    unfold runawayReported
    exact decide_eq_true (Nat.le_of_not_lt hnlt)
  · intro t; rfl
  · intro t; rfl
  · intro t w hw
    show (execDecoded t (decode w)).running = false
    rw [hw]
    rfl

/-- Witness for C8: on the empty program the loop exits at once with its
guard false. -/
theorem c8_run_loop_termination_witness :
    ¬ ((vmRun (vmInit [] [] [] 12345 0)).running = true ∧
       (vmRun (vmInit [] [] [] 12345 0)).pc <
         (vmRun (vmInit [] [] [] 12345 0)).codeSize ∧
       (vmRun (vmInit [] [] [] 12345 0)).count < maxInstr) :=
  (c8_run_loop_termination (vmInit [] [] [] 12345 0) rfl).2.1

/-- C10: register slot 31 reads as zero in every reachable state of a run:
the register file starts all zero, and after any number of loop iterations
from the initial state the slot-31 read is still zero, because every
register write of every implemented instruction either is guarded by
rd ≠ 31 or targets slot 0 or 30. -/
theorem c10_reg31_zero (code input ext : List Nat) (seed time : Nat) (j : Nat) :
    rg (vmLoop j (vmInit code input ext seed time)) 31 = 0 := by
  have hstep : ∀ t : VM, rg t 31 = 0 → rg (vmStep t) 31 = 0 := by
    intro t ht
    calc rg (vmStep t) 31 = rg t 31 := vmStep_rg31 t
      _ = 0 := ht
  have hinit : rg (vmInit code input ext seed time) 31 = 0 := rfl
  suffices h : ∀ (j : Nat) (t : VM), rg t 31 = 0 → rg (vmLoop j t) 31 = 0 from
    h j _ hinit
  intro j
  induction j with
  | zero => intro t ht; exact ht
  | succ k ih =>
    intro t ht
    unfold vmLoop
    split
    · exact ih _ (hstep t ht)
    · exact ht

theorem shiftRight_land (a b k : Nat) : (a &&& b) >>> k = (a >>> k) &&& (b >>> k) := by
  apply Nat.eq_of_testBit_eq
  intro i
  simp [Nat.testBit_shiftRight, Nat.testBit_and]

theorem or_add_disjoint (a b k : Nat) (ha : a % 2 ^ k = 0) (hb : b < 2 ^ k) :
    a ||| b = a + b := by
  have h2 : 2 ^ k * (a / 2 ^ k) = a := Nat.mul_div_cancel' (Nat.dvd_of_mod_eq_zero ha)
  rw [← h2, ← Nat.mul_add_lt_is_or hb]

theorem and_mask_block (x k m : Nat) :
    x &&& ((2 ^ m - 1) <<< k) = x / 2 ^ k % 2 ^ m * 2 ^ k := by
  apply Nat.eq_of_testBit_eq
  intro i
  rw [Nat.testBit_and, Nat.testBit_shiftLeft, Nat.testBit_two_pow_sub_one,
    ← Nat.shiftLeft_eq, Nat.testBit_shiftLeft, Nat.testBit_mod_two_pow,
    ← Nat.shiftRight_eq_div_pow, Nat.testBit_shiftRight]
  rcases Nat.lt_or_ge i k with hik | hik
  · simp [Nat.not_le.mpr hik]
  · simp [hik, Nat.sub_add_cancel hik, Bool.and_comm, Bool.and_left_comm, Bool.and_assoc]

theorem mask_ne_of_top (x M C T : Nat) (hx : x >>> 24 = T)
    (hne : ¬ T &&& (M >>> 24) = C >>> 24) : ¬ x &&& M = C := by
  intro h
  apply hne
  rw [← hx, ← shiftRight_land, h]

theorem ne_of_top (x C T : Nat) (hx : x >>> 24 = T) (hne : ¬ T = C >>> 24) :
    ¬ x = C := by
  intro h
  apply hne
  rw [← hx, h]

theorem decode_subs_imm64 (rd rn imm12 sh : Nat)
    (h1 : rd < 32) (h2 : rn < 32) (h3 : imm12 < 4096) (h4 : sh < 2) :
    decode (subsWord (.imm64 rd rn imm12 sh)) = .subsi64 rd rn imm12 sh := by
  have hN : subsWord (.imm64 rd rn imm12 sh) =
      0xF1000000 + sh * 2 ^ 22 + imm12 * 2 ^ 10 + rn * 2 ^ 5 + rd := by
    show 0xF1000000 ||| (sh <<< 22) ||| (imm12 <<< 10) ||| (rn <<< 5) ||| rd = _
    rw [Nat.shiftLeft_eq, Nat.shiftLeft_eq, Nat.shiftLeft_eq,
      or_add_disjoint 0xF1000000 (sh * 2 ^ 22) 23 (by norm_num) (by omega),
      or_add_disjoint _ (imm12 * 2 ^ 10) 22 (by omega) (by omega),
      or_add_disjoint _ (rn * 2 ^ 5) 10 (by omega) (by omega),
      or_add_disjoint _ rd 5 (by omega) (by omega)]
  rw [hN]
  set N := 0xF1000000 + sh * 2 ^ 22 + imm12 * 2 ^ 10 + rn * 2 ^ 5 + rd with hNdef
  have htop : N >>> 24 = 0xF1 := by
    rw [Nat.shiftRight_eq_div_pow]
    omega
  have f1 : N &&& 0x1F = rd := by
    rw [(by decide : (0x1F : Nat) = 2 ^ 5 - 1), Nat.and_pow_two_sub_one_eq_mod]
    omega
  have f2 : N >>> 5 &&& 0x1F = rn := by
    rw [Nat.shiftRight_eq_div_pow, (by decide : (0x1F : Nat) = 2 ^ 5 - 1),
      Nat.and_pow_two_sub_one_eq_mod]
    omega
  have f3 : N >>> 10 &&& 0xFFF = imm12 := by
    rw [Nat.shiftRight_eq_div_pow, (by decide : (0xFFF : Nat) = 2 ^ 12 - 1),
      Nat.and_pow_two_sub_one_eq_mod]
    omega
  have f4 : N >>> 22 &&& 1 = sh := by
    rw [Nat.shiftRight_eq_div_pow, (by decide : (1 : Nat) = 2 ^ 1 - 1),
      Nat.and_pow_two_sub_one_eq_mod]
    omega
  have hpos : N &&& 0xFF000000 = 0xF1000000 := by
    rw [(by decide : (0xFF000000 : Nat) = (2 ^ 8 - 1) <<< 24), and_mask_block]
    omega
  unfold decode
  rw [if_neg (mask_ne_of_top N 0xFFE0001F 0xD4000001 0xF1 htop (by decide)),
    if_neg (ne_of_top N 0xD503201F 0xF1 htop (by decide)),
    if_neg (mask_ne_of_top N 0xFFFFFC1F 0xD65F0000 0xF1 htop (by decide)),
    if_neg (mask_ne_of_top N 0xFF800000 0xD2800000 0xF1 htop (by decide)),
    if_neg (mask_ne_of_top N 0xFF800000 0x52800000 0xF1 htop (by decide)),
    if_neg (mask_ne_of_top N 0xFF800000 0x92800000 0xF1 htop (by decide)),
    if_neg (mask_ne_of_top N 0xFF000000 0x91000000 0xF1 htop (by decide)),
    if_neg (mask_ne_of_top N 0xFF000000 0x11000000 0xF1 htop (by decide)),
    if_neg (mask_ne_of_top N 0xFF000000 0xD1000000 0xF1 htop (by decide)),
    if_neg (mask_ne_of_top N 0xFF000000 0x51000000 0xF1 htop (by decide)),
    if_neg (mask_ne_of_top N 0xFC000000 0x14000000 0xF1 htop (by decide)),
    if_neg (mask_ne_of_top N 0xFC000000 0x94000000 0xF1 htop (by decide)),
    if_neg (mask_ne_of_top N 0xFF200000 0xAA000000 0xF1 htop (by decide)),
    if_neg (mask_ne_of_top N 0xFF200000 0x2A000000 0xF1 htop (by decide)),
    if_neg (mask_ne_of_top N 0xFF200000 0x8B000000 0xF1 htop (by decide)),
    if_neg (mask_ne_of_top N 0xFF200000 0x0B000000 0xF1 htop (by decide)),
    if_neg (mask_ne_of_top N 0xFF200000 0xCB000000 0xF1 htop (by decide)),
    if_neg (mask_ne_of_top N 0xFF200000 0x4B000000 0xF1 htop (by decide)),
    if_neg (mask_ne_of_top N 0xFF200000 0xEB000000 0xF1 htop (by decide)),
    if_neg (mask_ne_of_top N 0xFF200000 0x6B000000 0xF1 htop (by decide)),
    if_pos hpos, f1, f2, f3, f4]

theorem decode_subs_reg64 (rd rn rm : Nat)
    (h1 : rd < 32) (h2 : rn < 32) (h3 : rm < 32) :
    decode (subsWord (.reg64 rd rn rm)) = .subsr64 rd rn rm := by
  have hN : subsWord (.reg64 rd rn rm) =
      0xEB000000 + rm * 2 ^ 16 + rn * 2 ^ 5 + rd := by
    show 0xEB000000 ||| (rm <<< 16) ||| (rn <<< 5) ||| rd = _
    rw [Nat.shiftLeft_eq, Nat.shiftLeft_eq,
      or_add_disjoint 0xEB000000 (rm * 2 ^ 16) 21 (by norm_num) (by omega),
      or_add_disjoint _ (rn * 2 ^ 5) 10 (by omega) (by omega),
      or_add_disjoint _ rd 5 (by omega) (by omega)]
  rw [hN]
  set N := 0xEB000000 + rm * 2 ^ 16 + rn * 2 ^ 5 + rd with hNdef
  have htop : N >>> 24 = 0xEB := by
    rw [Nat.shiftRight_eq_div_pow]
    omega
  have f1 : N &&& 0x1F = rd := by
    rw [(by decide : (0x1F : Nat) = 2 ^ 5 - 1), Nat.and_pow_two_sub_one_eq_mod]
    omega
  have f2 : N >>> 5 &&& 0x1F = rn := by
    rw [Nat.shiftRight_eq_div_pow, (by decide : (0x1F : Nat) = 2 ^ 5 - 1),
      Nat.and_pow_two_sub_one_eq_mod]
    omega
  have f3 : N >>> 16 &&& 0x1F = rm := by
    rw [Nat.shiftRight_eq_div_pow, (by decide : (0x1F : Nat) = 2 ^ 5 - 1),
      Nat.and_pow_two_sub_one_eq_mod]
    omega
  have hpos : N &&& 0xFF200000 = 0xEB000000 := by
    rw [(by decide : (0xFF200000 : Nat) = 0xFF000000 ||| 0x200000),
      Nat.and_or_distrib_left,
      (by decide : (0xFF000000 : Nat) = (2 ^ 8 - 1) <<< 24), and_mask_block,
      (by decide : (0x200000 : Nat) = (2 ^ 1 - 1) <<< 21), and_mask_block]
    have e1 : N / 2 ^ 24 % 2 ^ 8 * 2 ^ 24 = 0xEB000000 := by omega
    have e2 : N / 2 ^ 21 % 2 ^ 1 * 2 ^ 21 = 0 := by omega
    rw [e1, e2]
    rfl
  unfold decode
  rw [if_neg (mask_ne_of_top N 0xFFE0001F 0xD4000001 0xEB htop (by decide)),
    if_neg (ne_of_top N 0xD503201F 0xEB htop (by decide)),
    if_neg (mask_ne_of_top N 0xFFFFFC1F 0xD65F0000 0xEB htop (by decide)),
    if_neg (mask_ne_of_top N 0xFF800000 0xD2800000 0xEB htop (by decide)),
    if_neg (mask_ne_of_top N 0xFF800000 0x52800000 0xEB htop (by decide)),
    if_neg (mask_ne_of_top N 0xFF800000 0x92800000 0xEB htop (by decide)),
    if_neg (mask_ne_of_top N 0xFF000000 0x91000000 0xEB htop (by decide)),
    if_neg (mask_ne_of_top N 0xFF000000 0x11000000 0xEB htop (by decide)),
    if_neg (mask_ne_of_top N 0xFF000000 0xD1000000 0xEB htop (by decide)),
    if_neg (mask_ne_of_top N 0xFF000000 0x51000000 0xEB htop (by decide)),
    if_neg (mask_ne_of_top N 0xFC000000 0x14000000 0xEB htop (by decide)),
    if_neg (mask_ne_of_top N 0xFC000000 0x94000000 0xEB htop (by decide)),
    if_neg (mask_ne_of_top N 0xFF200000 0xAA000000 0xEB htop (by decide)),
    if_neg (mask_ne_of_top N 0xFF200000 0x2A000000 0xEB htop (by decide)),
    if_neg (mask_ne_of_top N 0xFF200000 0x8B000000 0xEB htop (by decide)),
    if_neg (mask_ne_of_top N 0xFF200000 0x0B000000 0xEB htop (by decide)),
    if_neg (mask_ne_of_top N 0xFF200000 0xCB000000 0xEB htop (by decide)),
    if_neg (mask_ne_of_top N 0xFF200000 0x4B000000 0xEB htop (by decide)),
    if_pos hpos, f1, f2, f3]

theorem decode_subs_reg32 (rd rn rm : Nat)
    (h1 : rd < 32) (h2 : rn < 32) (h3 : rm < 32) :
    decode (subsWord (.reg32 rd rn rm)) = .subsr32 rd rn rm := by
  have hN : subsWord (.reg32 rd rn rm) =
      0x6B000000 + rm * 2 ^ 16 + rn * 2 ^ 5 + rd := by
    show 0x6B000000 ||| (rm <<< 16) ||| (rn <<< 5) ||| rd = _
    rw [Nat.shiftLeft_eq, Nat.shiftLeft_eq,
      or_add_disjoint 0x6B000000 (rm * 2 ^ 16) 21 (by norm_num) (by omega),
      or_add_disjoint _ (rn * 2 ^ 5) 10 (by omega) (by omega),
      or_add_disjoint _ rd 5 (by omega) (by omega)]
  rw [hN]
  set N := 0x6B000000 + rm * 2 ^ 16 + rn * 2 ^ 5 + rd with hNdef
  have htop : N >>> 24 = 0x6B := by
    rw [Nat.shiftRight_eq_div_pow]
    omega
  have f1 : N &&& 0x1F = rd := by
    rw [(by decide : (0x1F : Nat) = 2 ^ 5 - 1), Nat.and_pow_two_sub_one_eq_mod]
    omega
  have f2 : N >>> 5 &&& 0x1F = rn := by
    rw [Nat.shiftRight_eq_div_pow, (by decide : (0x1F : Nat) = 2 ^ 5 - 1),
      Nat.and_pow_two_sub_one_eq_mod]
    omega
  have f3 : N >>> 16 &&& 0x1F = rm := by
    rw [Nat.shiftRight_eq_div_pow, (by decide : (0x1F : Nat) = 2 ^ 5 - 1),
      Nat.and_pow_two_sub_one_eq_mod]
    omega
  have hpos : N &&& 0xFF200000 = 0x6B000000 := by
    rw [(by decide : (0xFF200000 : Nat) = 0xFF000000 ||| 0x200000),
      Nat.and_or_distrib_left,
      (by decide : (0xFF000000 : Nat) = (2 ^ 8 - 1) <<< 24), and_mask_block,
      (by decide : (0x200000 : Nat) = (2 ^ 1 - 1) <<< 21), and_mask_block]
    have e1 : N / 2 ^ 24 % 2 ^ 8 * 2 ^ 24 = 0x6B000000 := by omega
    have e2 : N / 2 ^ 21 % 2 ^ 1 * 2 ^ 21 = 0 := by omega
    rw [e1, e2]
    rfl
  unfold decode
  rw [if_neg (mask_ne_of_top N 0xFFE0001F 0xD4000001 0x6B htop (by decide)),
    if_neg (ne_of_top N 0xD503201F 0x6B htop (by decide)),
    if_neg (mask_ne_of_top N 0xFFFFFC1F 0xD65F0000 0x6B htop (by decide)),
    if_neg (mask_ne_of_top N 0xFF800000 0xD2800000 0x6B htop (by decide)),
    if_neg (mask_ne_of_top N 0xFF800000 0x52800000 0x6B htop (by decide)),
    if_neg (mask_ne_of_top N 0xFF800000 0x92800000 0x6B htop (by decide)),
    if_neg (mask_ne_of_top N 0xFF000000 0x91000000 0x6B htop (by decide)),
    if_neg (mask_ne_of_top N 0xFF000000 0x11000000 0x6B htop (by decide)),
    if_neg (mask_ne_of_top N 0xFF000000 0xD1000000 0x6B htop (by decide)),
    if_neg (mask_ne_of_top N 0xFF000000 0x51000000 0x6B htop (by decide)),
    if_neg (mask_ne_of_top N 0xFC000000 0x14000000 0x6B htop (by decide)),
    if_neg (mask_ne_of_top N 0xFC000000 0x94000000 0x6B htop (by decide)),
    if_neg (mask_ne_of_top N 0xFF200000 0xAA000000 0x6B htop (by decide)),
    if_neg (mask_ne_of_top N 0xFF200000 0x2A000000 0x6B htop (by decide)),
    if_neg (mask_ne_of_top N 0xFF200000 0x8B000000 0x6B htop (by decide)),
    if_neg (mask_ne_of_top N 0xFF200000 0x0B000000 0x6B htop (by decide)),
    if_neg (mask_ne_of_top N 0xFF200000 0xCB000000 0x6B htop (by decide)),
    if_neg (mask_ne_of_top N 0xFF200000 0x4B000000 0x6B htop (by decide)),
    if_neg (mask_ne_of_top N 0xFF200000 0xEB000000 0x6B htop (by decide)),
    if_pos hpos, f1, f2, f3]

theorem decode_subs_imm32 (rd rn imm12 sh : Nat)
    (h1 : rd < 32) (h2 : rn < 32) (h3 : imm12 < 4096) (h4 : sh < 2) :
    decode (subsWord (.imm32 rd rn imm12 sh)) = .subsi32 rd rn imm12 sh := by
  have hN : subsWord (.imm32 rd rn imm12 sh) =
      0x71000000 + sh * 2 ^ 22 + imm12 * 2 ^ 10 + rn * 2 ^ 5 + rd := by
    show 0x71000000 ||| (sh <<< 22) ||| (imm12 <<< 10) ||| (rn <<< 5) ||| rd = _
    rw [Nat.shiftLeft_eq, Nat.shiftLeft_eq, Nat.shiftLeft_eq,
      or_add_disjoint 0x71000000 (sh * 2 ^ 22) 23 (by norm_num) (by omega),
      or_add_disjoint _ (imm12 * 2 ^ 10) 22 (by omega) (by omega),
      or_add_disjoint _ (rn * 2 ^ 5) 10 (by omega) (by omega),
      or_add_disjoint _ rd 5 (by omega) (by omega)]
  rw [hN]
  set N := 0x71000000 + sh * 2 ^ 22 + imm12 * 2 ^ 10 + rn * 2 ^ 5 + rd with hNdef
  have htop : N >>> 24 = 0x71 := by
    rw [Nat.shiftRight_eq_div_pow]
    omega
  have f1 : N &&& 0x1F = rd := by
    rw [(by decide : (0x1F : Nat) = 2 ^ 5 - 1), Nat.and_pow_two_sub_one_eq_mod]
    omega
  have f2 : N >>> 5 &&& 0x1F = rn := by
    rw [Nat.shiftRight_eq_div_pow, (by decide : (0x1F : Nat) = 2 ^ 5 - 1),
      Nat.and_pow_two_sub_one_eq_mod]
    omega
  have f3 : N >>> 10 &&& 0xFFF = imm12 := by
    rw [Nat.shiftRight_eq_div_pow, (by decide : (0xFFF : Nat) = 2 ^ 12 - 1),
      Nat.and_pow_two_sub_one_eq_mod]
    omega
  have f4 : N >>> 22 &&& 1 = sh := by
    rw [Nat.shiftRight_eq_div_pow, (by decide : (1 : Nat) = 2 ^ 1 - 1),
      Nat.and_pow_two_sub_one_eq_mod]
    omega
  have hpos : N &&& 0xFF000000 = 0x71000000 := by
    rw [(by decide : (0xFF000000 : Nat) = (2 ^ 8 - 1) <<< 24), and_mask_block]
    omega
  unfold decode
  rw [if_neg (mask_ne_of_top N 0xFFE0001F 0xD4000001 0x71 htop (by decide)),
    if_neg (ne_of_top N 0xD503201F 0x71 htop (by decide)),
    if_neg (mask_ne_of_top N 0xFFFFFC1F 0xD65F0000 0x71 htop (by decide)),
    if_neg (mask_ne_of_top N 0xFF800000 0xD2800000 0x71 htop (by decide)),
    if_neg (mask_ne_of_top N 0xFF800000 0x52800000 0x71 htop (by decide)),
    if_neg (mask_ne_of_top N 0xFF800000 0x92800000 0x71 htop (by decide)),
    if_neg (mask_ne_of_top N 0xFF000000 0x91000000 0x71 htop (by decide)),
    if_neg (mask_ne_of_top N 0xFF000000 0x11000000 0x71 htop (by decide)),
    if_neg (mask_ne_of_top N 0xFF000000 0xD1000000 0x71 htop (by decide)),
    if_neg (mask_ne_of_top N 0xFF000000 0x51000000 0x71 htop (by decide)),
    if_neg (mask_ne_of_top N 0xFC000000 0x14000000 0x71 htop (by decide)),
    if_neg (mask_ne_of_top N 0xFC000000 0x94000000 0x71 htop (by decide)),
    if_neg (mask_ne_of_top N 0xFF200000 0xAA000000 0x71 htop (by decide)),
    if_neg (mask_ne_of_top N 0xFF200000 0x2A000000 0x71 htop (by decide)),
    if_neg (mask_ne_of_top N 0xFF200000 0x8B000000 0x71 htop (by decide)),
    if_neg (mask_ne_of_top N 0xFF200000 0x0B000000 0x71 htop (by decide)),
    if_neg (mask_ne_of_top N 0xFF200000 0xCB000000 0x71 htop (by decide)),
    if_neg (mask_ne_of_top N 0xFF200000 0x4B000000 0x71 htop (by decide)),
    if_neg (mask_ne_of_top N 0xFF200000 0xEB000000 0x71 htop (by decide)),
    if_neg (mask_ne_of_top N 0xFF200000 0x6B000000 0x71 htop (by decide)),
    if_neg (mask_ne_of_top N 0xFF000000 0xF1000000 0x71 htop (by decide)),
    if_pos hpos, f1, f2, f3, f4]

/-- C4: executing one interpreter step on the 32-bit word of any subs / cmp
form (register or immediate, 32- or 64-bit) from any state sets the flags
to: N = the sign bit of the width-wrapped subtraction result, Z = the
result is zero, C = the unsigned first operand is at least the second (no
borrow), and V = the top bit at the operation width of
(op1 XOR op2) AND (op1 XOR result). -/
theorem c4_subs_flags (s : VM) (f : SubsForm) (hv : f.valid) :
    ((execInstr s (subsWord f)).flagN = true ↔
      subsRes s f >>> (f.w - 1) &&& 1 ≠ 0) ∧
    ((execInstr s (subsWord f)).flagZ = true ↔ subsRes s f = 0) ∧
    ((execInstr s (subsWord f)).flagC = true ↔
      (subsOps s f).2 ≤ (subsOps s f).1) ∧
    ((execInstr s (subsWord f)).flagV = true ↔
      (((subsOps s f).1 ^^^ (subsOps s f).2) &&&
        ((subsOps s f).1 ^^^ subsRes s f)) >>> (f.w - 1) ≠ 0) := by
  cases f with
  | reg64 rd rn rm =>
    obtain ⟨hr, hn, hm⟩ := hv
    have hd := decode_subs_reg64 rd rn rm hr hn hm
    unfold execInstr
    rw [hd]
    exact ⟨⟨fun h => of_decide_eq_true h, fun h => decide_eq_true h⟩,
      ⟨fun h => of_decide_eq_true h, fun h => decide_eq_true h⟩,
      ⟨fun h => of_decide_eq_true h, fun h => decide_eq_true h⟩,
      ⟨fun h => of_decide_eq_true h, fun h => decide_eq_true h⟩⟩
  | reg32 rd rn rm =>
    obtain ⟨hr, hn, hm⟩ := hv
    have hd := decode_subs_reg32 rd rn rm hr hn hm
    unfold execInstr
    rw [hd]
    exact ⟨⟨fun h => of_decide_eq_true h, fun h => decide_eq_true h⟩,
      ⟨fun h => of_decide_eq_true h, fun h => decide_eq_true h⟩,
      ⟨fun h => of_decide_eq_true h, fun h => decide_eq_true h⟩,
      ⟨fun h => of_decide_eq_true h, fun h => decide_eq_true h⟩⟩
  | imm64 rd rn imm12 sh =>
    obtain ⟨hr, hn, hi, hs⟩ := hv
    have hd := decode_subs_imm64 rd rn imm12 sh hr hn hi hs
    unfold execInstr
    rw [hd]
    exact ⟨⟨fun h => of_decide_eq_true h, fun h => decide_eq_true h⟩,
      ⟨fun h => of_decide_eq_true h, fun h => decide_eq_true h⟩,
      ⟨fun h => of_decide_eq_true h, fun h => decide_eq_true h⟩,
      ⟨fun h => of_decide_eq_true h, fun h => decide_eq_true h⟩⟩
  | imm32 rd rn imm12 sh =>
    obtain ⟨hr, hn, hi, hs⟩ := hv
    have hd := decode_subs_imm32 rd rn imm12 sh hr hn hi hs
    unfold execInstr
    rw [hd]
    exact ⟨⟨fun h => of_decide_eq_true h, fun h => decide_eq_true h⟩,
      ⟨fun h => of_decide_eq_true h, fun h => decide_eq_true h⟩,
      ⟨fun h => of_decide_eq_true h, fun h => decide_eq_true h⟩,
      ⟨fun h => of_decide_eq_true h, fun h => decide_eq_true h⟩⟩

/-- Witness for C4: subs x0, x1, x2 with x1 = 5, x2 = 5 yields Z=1, N=0,
C=1, V=0, and with x1 = 0, x2 = 1 yields C=0 (borrow) and N=1. -/
theorem c4_subs_flags_witness :
    ((execInstr { vmInit [] [] [] 1 0 with regs := [0, 5, 5] ++ List.replicate 29 0 }
        (subsWord (.reg64 0 1 2))).flagZ = true ∧
     (execInstr { vmInit [] [] [] 1 0 with regs := [0, 5, 5] ++ List.replicate 29 0 }
        (subsWord (.reg64 0 1 2))).flagN = false ∧
     (execInstr { vmInit [] [] [] 1 0 with regs := [0, 5, 5] ++ List.replicate 29 0 }
        (subsWord (.reg64 0 1 2))).flagC = true ∧
     (execInstr { vmInit [] [] [] 1 0 with regs := [0, 5, 5] ++ List.replicate 29 0 }
        (subsWord (.reg64 0 1 2))).flagV = false) ∧
    ((execInstr { vmInit [] [] [] 1 0 with regs := [0, 0, 1] ++ List.replicate 29 0 }
        (subsWord (.reg64 0 1 2))).flagC = false ∧
     (execInstr { vmInit [] [] [] 1 0 with regs := [0, 0, 1] ++ List.replicate 29 0 }
        (subsWord (.reg64 0 1 2))).flagN = true) := by
  have hA := c4_subs_flags
    { vmInit [] [] [] 1 0 with regs := [0, 5, 5] ++ List.replicate 29 0 }
    (.reg64 0 1 2) (by exact ⟨by norm_num, by norm_num, by norm_num⟩)
  have hB := c4_subs_flags
    { vmInit [] [] [] 1 0 with regs := [0, 0, 1] ++ List.replicate 29 0 }
    (.reg64 0 1 2) (by exact ⟨by norm_num, by norm_num, by norm_num⟩)
  refine ⟨⟨hA.2.1.mpr (by decide), ?_, hA.2.2.1.mpr (by decide), ?_⟩,
    ?_, hB.1.mpr (by decide)⟩
  · decide
  · decide
  · decide

/-- C7: counterexample to the claim as universally stated.  This program
contains a branch whose target label (undef) is never defined, yet
generate does not complete pass 1 without setting the error flag: its
second statement (mov x0, #65536) is an encoding error, and encoding runs
during the sizing pass too, so the error flag is already set in pass 1. -/
theorem c7_undefined_label_counterexample :
    (pass1Final
      [.instr ['b'] [.lbl ['u', 'n', 'd', 'e', 'f']],
       .instr ['m', 'o', 'v'] [.reg 0 true, .imm 65536 ['6', '5', '5', '3', '6']]]).hasError
      = true ∧
    (generate
      [.instr ['b'] [.lbl ['u', 'n', 'd', 'e', 'f']],
       .instr ['m', 'o', 'v'] [.reg 0 true, .imm 65536 ['6', '5', '5', '3', '6']]]).2
      = false := ⟨rfl, rfl⟩

/-- C7 (amended): resolving a label that is not in the symbol table never
reports in the first pass (it silently yields 0) and always reports
"Undefined symbol" in the second pass; consequently a program whose only
statement is a branch to a never-defined label passes the sizing pass with
no error, and the error flag is first set during pass 2, with generate
returning false.  (The first-pass clause of the original claim holds only
when no other statement of the program errors in pass 1, as the
counterexample shows.) -/
theorem c7_undefined_label (name : List Char) :
    (∀ σ : CG, σ.isFirstPass = true → findSymR σ.symbols name = none →
      resolveLabel σ name = (σ, 0)) ∧
    (∀ σ : CG, σ.isFirstPass = false → σ.hasError = false →
      findSymR σ.symbols name = none →
      (resolveLabel σ name).1.hasError = true ∧
      (resolveLabel σ name).1.errorMsg = "Undefined symbol") ∧
    (pass1Final [.instr ['b'] [.lbl ['x']]]).hasError = false ∧
    (generate [.instr ['b'] [.lbl ['x']]]).1.hasError = true ∧
    (generate [.instr ['b'] [.lbl ['x']]]).1.errorMsg = "Undefined symbol" ∧
    (generate [.instr ['b'] [.lbl ['x']]]).2 = false := by
  refine ⟨?_, ?_, by decide, by decide, by decide, by decide⟩
  · intro σ h1 h2
    unfold resolveLabel
    rw [h2]
    simp [h1]
  · intro σ h1 h2 h3
    unfold resolveLabel
    rw [h3]
    simp [h1, cgError, h2]

/-- Witness for C7 (amended): resolving the unknown name x from the fresh
first-pass state yields 0 with no error, and from the second-pass state it
sets the error flag. -/
theorem c7_undefined_label_witness :
    resolveLabel cgInit ['x'] = (cgInit, 0) ∧
    (resolveLabel (pass2Start cgInit) ['x']).1.hasError = true := by
  have h := c7_undefined_label ['x']
  exact ⟨h.1 cgInit rfl rfl, (h.2.1 (pass2Start cgInit) rfl rfl rfl).1⟩

/- ====== Two-pass offset lemmas (C2): every emit helper advances the
output offset by a pass-independent amount when it does not error. ====== -/

/-- error() always leaves the error flag set. -/
theorem cgError_hasError_always (σ : CG) (m : String) : (cgError σ m).hasError = true := by
  unfold cgError
  split
  · next h => exact h
  · rfl

/-- error() never touches the output offset. -/
theorem cgError_codeOffset (σ : CG) (m : String) : (cgError σ m).codeOffset = σ.codeOffset := by
  unfold cgError
  split <;> rfl

/-- error() never touches the pass flag. -/
theorem cgError_isFirstPass (σ : CG) (m : String) :
    (cgError σ m).isFirstPass = σ.isFirstPass := by
  unfold cgError
  split <;> rfl

/-- An error-free emit_byte advanced the offset by one byte, and started
from an error-free state. -/
theorem emitByte_err (σ : CG) (b : Nat) (h : (emitByte σ b).hasError = false) :
    σ.hasError = false ∧ (emitByte σ b).codeOffset = σ.codeOffset + 1 := by
  unfold emitByte at h ⊢
  split_ifs at h ⊢ with h1 h2
  · exact ⟨h, rfl⟩
  · rw [cgError_hasError_always] at h
    exact absurd h (by simp)
  · exact ⟨h, rfl⟩

/-- emit_byte keeps a latched error latched. -/
theorem emitByte_latch (σ : CG) (b : Nat) (h : σ.hasError = true) :
    (emitByte σ b).hasError = true := by
  unfold emitByte
  split_ifs
  · exact h
  · exact cgError_hasError_always _ _
  · exact h

/-- emit_byte never touches the pass flag. -/
theorem emitByte_isFirstPass (σ : CG) (b : Nat) :
    (emitByte σ b).isFirstPass = σ.isFirstPass := by
  unfold emitByte
  split_ifs
  · rfl
  · exact cgError_isFirstPass _ _
  · rfl

/-- An error-free emit_half advanced the offset by two bytes. -/
theorem emitHalf_err (σ : CG) (v : Nat) (h : (emitHalf σ v).hasError = false) :
    σ.hasError = false ∧ (emitHalf σ v).codeOffset = σ.codeOffset + 2 := by
  unfold emitHalf at h ⊢
  obtain ⟨h1, e1⟩ := emitByte_err _ _ h
  obtain ⟨h2, e2⟩ := emitByte_err _ _ h1
  exact ⟨h2, by omega⟩

/-- An error-free emit_word advanced the offset by four bytes. -/
theorem emitWord_err (σ : CG) (v : Nat) (h : (emitWord σ v).hasError = false) :
    σ.hasError = false ∧ (emitWord σ v).codeOffset = σ.codeOffset + 4 := by
  unfold emitWord at h ⊢
  obtain ⟨h1, e1⟩ := emitByte_err _ _ h
  obtain ⟨h2, e2⟩ := emitByte_err _ _ h1
  obtain ⟨h3, e3⟩ := emitByte_err _ _ h2
  obtain ⟨h4, e4⟩ := emitByte_err _ _ h3
  exact ⟨h4, by omega⟩

/-- An error-free emit_quad advanced the offset by eight bytes. -/
theorem emitQuad_err (σ : CG) (v : Nat) (h : (emitQuad σ v).hasError = false) :
    σ.hasError = false ∧ (emitQuad σ v).codeOffset = σ.codeOffset + 8 := by
  unfold emitQuad at h ⊢
  obtain ⟨h1, e1⟩ := emitWord_err _ _ h
  obtain ⟨h2, e2⟩ := emitWord_err _ _ h1
  exact ⟨h2, by omega⟩

/-- An error-free .space / .skip fill advanced the offset by its count. -/
theorem emitRep_err (n : Nat) : ∀ (fill : Nat) (σ : CG),
    (emitRep n fill σ).hasError = false →
    σ.hasError = false ∧ (emitRep n fill σ).codeOffset = σ.codeOffset + n := by
  induction n with
  | zero => intro fill σ h; exact ⟨h, rfl⟩
  | succ n ih =>
    intro fill σ h
    unfold emitRep at h ⊢
    obtain ⟨h1, e1⟩ := ih _ _ h
    obtain ⟨h2, e2⟩ := emitByte_err _ _ h1
    exact ⟨h2, by omega⟩

/-- An error-free fold of a fixed-advance emitter advanced the offset by
the advance times the argument count. -/
theorem foldl_emit_err {α : Type} (f : CG → α → CG) (c : Nat)
    (hf : ∀ (σ : CG) (a : α), (f σ a).hasError = false →
      σ.hasError = false ∧ (f σ a).codeOffset = σ.codeOffset + c) :
    ∀ (l : List α) (σ : CG), (l.foldl f σ).hasError = false →
      σ.hasError = false ∧ (l.foldl f σ).codeOffset = σ.codeOffset + c * l.length := by
  intro l
  induction l with
  | nil => intro σ h; exact ⟨h, by simp⟩
  | cons a t ih =>
    intro σ h
    rw [List.foldl_cons] at h ⊢
    obtain ⟨h1, e1⟩ := ih _ h
    obtain ⟨h2, e2⟩ := hf _ _ h1
    refine ⟨h2, ?_⟩
    rw [e1, e2]
    simp [Nat.mul_succ]
    omega

/-- The padding vanishes at an aligned offset. -/
theorem padTo_zero (a off : Nat) (h : off % a = 0) : padTo a off = 0 := by
  unfold padTo
  rw [h, Nat.sub_zero, Nat.mod_self]

/-- One pad byte reduces the remaining padding by one. -/
theorem padTo_step (a off : Nat) (ha : 1 ≤ a) (h : off % a ≠ 0) :
    padTo a (off + 1) + 1 = padTo a off := by
  unfold padTo
  have hr : off % a < a := Nat.mod_lt _ (by omega)
  have hr1 : 1 ≤ off % a := by omega
  have hsplit : a * (off / a) + off % a = off := Nat.div_add_mod off a
  have h1 : (off + 1) % a = (off % a + 1) % a := by
    conv_lhs => rw [← hsplit]
    rw [Nat.add_assoc, Nat.mul_add_mod]
  rcases Nat.lt_or_ge (off % a + 1) a with hc | hc
  · rw [h1, Nat.mod_eq_of_lt hc,
      Nat.mod_eq_of_lt (show a - (off % a + 1) < a by omega),
      Nat.mod_eq_of_lt (show a - off % a < a by omega)]
    omega
  · have hc2 : off % a + 1 = a := by omega
    rw [h1, hc2, Nat.mod_self, Nat.sub_zero, Nat.mod_self,
      Nat.mod_eq_of_lt (show a - off % a < a by omega)]
    omega

/-- align_to keeps a latched error latched. -/
theorem alignGo_latch (a : Nat) : ∀ (k : Nat) (σ : CG), σ.hasError = true →
    (alignGo a k σ).hasError = true := by
  intro k
  induction k with
  | zero => intro σ h; exact h
  | succ k ih =>
    intro σ h
    unfold alignGo
    dsimp only []
    split_ifs
    · exact emitByte_latch _ _ h
    · exact ih _ (emitByte_latch _ _ h)
    · exact h

/-- With fuel above the remaining padding, an error-free align_to run
advanced the offset by exactly the padding.  (When a second-pass emit
fails to advance, the loop stops with the error latched, which the
error-free hypothesis excludes.) -/
theorem alignGo_err (a : Nat) (ha : 1 ≤ a) : ∀ (k : Nat) (σ : CG),
    padTo a σ.codeOffset < k → (alignGo a k σ).hasError = false →
    σ.hasError = false ∧
      (alignGo a k σ).codeOffset = σ.codeOffset + padTo a σ.codeOffset := by
  intro k
  induction k with
  | zero => intro σ hk h; exact absurd hk (Nat.not_lt_zero _)
  | succ k ih =>
    intro σ hk h
    unfold alignGo at h ⊢
    dsimp only [] at h ⊢
    by_cases hm : σ.codeOffset % a ≠ 0
    · rw [if_pos hm] at h ⊢
      by_cases hstuck : (emitByte σ 0).codeOffset = σ.codeOffset
      · rw [if_pos hstuck] at h ⊢
        exfalso
        unfold emitByte at hstuck h
        split_ifs at hstuck h
        · dsimp only [] at hstuck
          omega
        · rw [cgError_hasError_always] at h
          exact absurd h (by simp)
        · dsimp only [] at hstuck
          omega
      · rw [if_neg hstuck] at h ⊢
        have h2false : (emitByte σ 0).hasError = false := by
          by_contra hx
          have h2true : (emitByte σ 0).hasError = true := by
            revert hx
            cases (emitByte σ 0).hasError <;> simp
          rw [alignGo_latch a k _ h2true] at h
          exact absurd h (by simp)
        obtain ⟨hσ, he⟩ := emitByte_err _ _ h2false
        have hpad : padTo a (emitByte σ 0).codeOffset + 1 = padTo a σ.codeOffset := by
          rw [he]
          exact padTo_step a σ.codeOffset ha hm
        obtain ⟨_, hoff⟩ := ih (emitByte σ 0) (by omega) h
        refine ⟨hσ, ?_⟩
        rw [hoff]
        omega
    · rw [if_neg hm] at h ⊢
      push_neg at hm
      rw [padTo_zero a _ hm]
      exact ⟨h, rfl⟩

/-- align_to does not touch the pass flag. -/
theorem alignGo_isFirstPass (a : Nat) : ∀ (k : Nat) (σ : CG),
    (alignGo a k σ).isFirstPass = σ.isFirstPass := by
  intro k
  induction k with
  | zero => intro σ; rfl
  | succ k ih =>
    intro σ
    unfold alignGo
    dsimp only []
    split_ifs
    · exact emitByte_isFirstPass _ _
    · rw [ih, emitByte_isFirstPass]
    · rfl

/-- CodeGenerator::align_to, error-free: the offset advances by the
padding to the next multiple of the alignment. -/
theorem alignTo_err (σ : CG) (a : Nat) (ha : 1 ≤ a)
    (h : (alignTo σ a).hasError = false) :
    σ.hasError = false ∧ (alignTo σ a).codeOffset = σ.codeOffset + padTo a σ.codeOffset := by
  unfold alignTo at h ⊢
  exact alignGo_err a ha a σ (by unfold padTo; exact Nat.mod_lt _ (by omega)) h

/-- Label resolution never moves the output offset. -/
theorem resolveLabel_codeOffset (σ : CG) (s : List Char) :
    (resolveLabel σ s).1.codeOffset = σ.codeOffset := by
  unfold resolveLabel
  repeat' split
  all_goals simp [cgError_codeOffset]

/-- Label resolution never touches the pass flag. -/
theorem resolveLabel_isFirstPass (σ : CG) (s : List Char) :
    (resolveLabel σ s).1.isFirstPass = σ.isFirstPass := by
  unfold resolveLabel
  repeat' split
  all_goals simp [cgError_isFirstPass]

/-- get_immediate never moves the output offset. -/
theorem getImm_codeOffset (σ : CG) (op : Operand) :
    (getImm σ op).1.codeOffset = σ.codeOffset := by
  unfold getImm
  repeat' split
  all_goals simp [resolveLabel_codeOffset]

/-- get_immediate never touches the pass flag. -/
theorem getImm_isFirstPass (σ : CG) (op : Operand) :
    (getImm σ op).1.isFirstPass = σ.isFirstPass := by
  unfold getImm
  repeat' split
  all_goals simp [resolveLabel_isFirstPass]

/-- define_symbol never moves the output offset. -/
theorem defineSym_codeOffset (σ : CG) (q : List Char) (addr : Nat) :
    (defineSym σ q addr).codeOffset = σ.codeOffset := by
  unfold defineSym
  try dsimp only []
  repeat' split
  all_goals simp [cgError_codeOffset]

/-- define_symbol never touches the pass flag. -/
theorem defineSym_isFirstPass (σ : CG) (q : List Char) (addr : Nat) :
    (defineSym σ q addr).isFirstPass = σ.isFirstPass := by
  unfold defineSym
  try dsimp only []
  repeat' split
  all_goals simp [cgError_isFirstPass]

/-- The .global handler never moves the output offset. -/
theorem markGlobal_codeOffset (σ : CG) (q : List Char) :
    (markGlobal σ q).codeOffset = σ.codeOffset := by
  unfold markGlobal
  try dsimp only []
  repeat' split
  all_goals simp [cgError_codeOffset]

/-- The .global handler never touches the pass flag. -/
theorem markGlobal_isFirstPass (σ : CG) (q : List Char) :
    (markGlobal σ q).isFirstPass = σ.isFirstPass := by
  unfold markGlobal
  try dsimp only []
  repeat' split
  all_goals simp [cgError_isFirstPass]

/-- Instruction encoders never move the output offset or the pass flag:
they only read the state and possibly latch an error. -/
theorem encodeBranch_frame (σ : CG) (m : List Char) (ops : List Operand) :
    (encodeBranch σ m ops).1.codeOffset = σ.codeOffset ∧
    (encodeBranch σ m ops).1.isFirstPass = σ.isFirstPass := by
  unfold encodeBranch
  try dsimp only []
  constructor <;> repeat' split
  all_goals simp [cgError_codeOffset, cgError_isFirstPass, resolveLabel_codeOffset,
    resolveLabel_isFirstPass]

theorem encodeBranchCond_frame (σ : CG) (ops : List Operand) (cond : Nat) :
    (encodeBranchCond σ ops cond).1.codeOffset = σ.codeOffset ∧
    (encodeBranchCond σ ops cond).1.isFirstPass = σ.isFirstPass := by
  unfold encodeBranchCond
  try dsimp only []
  constructor <;> repeat' split
  all_goals simp [cgError_codeOffset, cgError_isFirstPass, resolveLabel_codeOffset,
    resolveLabel_isFirstPass]

theorem encodeCbz_frame (σ : CG) (ops : List Operand) (b : Bool) :
    (encodeCbz σ ops b).1.codeOffset = σ.codeOffset ∧
    (encodeCbz σ ops b).1.isFirstPass = σ.isFirstPass := by
  unfold encodeCbz
  try dsimp only []
  constructor <;> repeat' split
  all_goals simp [cgError_codeOffset, cgError_isFirstPass, resolveLabel_codeOffset,
    resolveLabel_isFirstPass]

theorem encodeMov_frame (σ : CG) (m : List Char) (ops : List Operand) :
    (encodeMov σ m ops).1.codeOffset = σ.codeOffset ∧
    (encodeMov σ m ops).1.isFirstPass = σ.isFirstPass := by
  unfold encodeMov
  try dsimp only []
  constructor <;> repeat' split
  all_goals simp [cgError_codeOffset, cgError_isFirstPass, getImm_codeOffset,
    getImm_isFirstPass]

theorem dpRegWord_frame (σ : CG) (m : List Char) (sf rd rn rm : Nat) :
    (dpRegWord σ m sf rd rn rm).1.codeOffset = σ.codeOffset ∧
    (dpRegWord σ m sf rd rn rm).1.isFirstPass = σ.isFirstPass := by
  unfold dpRegWord
  by_cases h1 : tokEq m "add" = true
  · rw [if_pos h1]; exact ⟨rfl, rfl⟩
  rw [if_neg h1]
  by_cases h2 : tokEq m "adds" = true
  · rw [if_pos h2]; exact ⟨rfl, rfl⟩
  rw [if_neg h2]
  by_cases h3 : tokEq m "sub" = true ∨ tokEq m "neg" = true
  · rw [if_pos h3]; exact ⟨rfl, rfl⟩
  rw [if_neg h3]
  by_cases h4 : tokEq m "subs" = true ∨ tokEq m "cmp" = true
  · rw [if_pos h4]; exact ⟨rfl, rfl⟩
  rw [if_neg h4]
  by_cases h5 : tokEq m "and" = true
  · rw [if_pos h5]; exact ⟨rfl, rfl⟩
  rw [if_neg h5]
  by_cases h6 : tokEq m "ands" = true ∨ tokEq m "tst" = true
  · rw [if_pos h6]; exact ⟨rfl, rfl⟩
  rw [if_neg h6]
  by_cases h7 : tokEq m "orr" = true ∨ tokEq m "mov" = true
  · rw [if_pos h7]; exact ⟨rfl, rfl⟩
  rw [if_neg h7]
  by_cases h8 : tokEq m "eor" = true
  · rw [if_pos h8]; exact ⟨rfl, rfl⟩
  rw [if_neg h8]
  by_cases h9 : tokEq m "bic" = true
  · rw [if_pos h9]; exact ⟨rfl, rfl⟩
  rw [if_neg h9]
  by_cases h10 : tokEq m "orn" = true ∨ tokEq m "mvn" = true
  · rw [if_pos h10]; exact ⟨rfl, rfl⟩
  rw [if_neg h10]
  by_cases h11 : tokEq m "mul" = true
  · rw [if_pos h11]; exact ⟨rfl, rfl⟩
  rw [if_neg h11]
  by_cases h12 : tokEq m "udiv" = true
  · rw [if_pos h12]; exact ⟨rfl, rfl⟩
  rw [if_neg h12]
  by_cases h13 : tokEq m "sdiv" = true
  · rw [if_pos h13]; exact ⟨rfl, rfl⟩
  rw [if_neg h13]
  by_cases h14 : tokEq m "lsl" = true
  · rw [if_pos h14]; exact ⟨rfl, rfl⟩
  rw [if_neg h14]
  by_cases h15 : tokEq m "lsr" = true
  · rw [if_pos h15]; exact ⟨rfl, rfl⟩
  rw [if_neg h15]
  by_cases h16 : tokEq m "asr" = true
  · rw [if_pos h16]; exact ⟨rfl, rfl⟩
  rw [if_neg h16]
  by_cases h17 : tokEq m "ror" = true
  · rw [if_pos h17]; exact ⟨rfl, rfl⟩
  rw [if_neg h17]
  exact ⟨cgError_codeOffset _ _, cgError_isFirstPass _ _⟩

theorem encodeDataProcImm_frame (σ : CG) (m : List Char) (ops : List Operand) :
    (encodeDataProcImm σ m ops).1.codeOffset = σ.codeOffset ∧
    (encodeDataProcImm σ m ops).1.isFirstPass = σ.isFirstPass := by
  unfold encodeDataProcImm
  try dsimp only []
  constructor <;> repeat' split
  all_goals first
    | rfl
    | exact cgError_codeOffset _ _
    | exact cgError_isFirstPass _ _
    | exact getImm_codeOffset _ _
    | exact getImm_isFirstPass _ _
    | exact (cgError_codeOffset _ _).trans (getImm_codeOffset _ _)
    | exact (cgError_isFirstPass _ _).trans (getImm_isFirstPass _ _)

theorem encodeDataProc_frame (σ : CG) (m : List Char) (ops : List Operand) :
    (encodeDataProc σ m ops).1.codeOffset = σ.codeOffset ∧
    (encodeDataProc σ m ops).1.isFirstPass = σ.isFirstPass := by
  unfold encodeDataProc
  try dsimp only []
  constructor <;> repeat' split
  all_goals first
    | rfl
    | exact cgError_codeOffset _ _
    | exact cgError_isFirstPass _ _
    | exact (dpRegWord_frame _ _ _ _ _ _).1
    | exact (dpRegWord_frame _ _ _ _ _ _).2
    | exact (encodeDataProcImm_frame _ _ _).1
    | exact (encodeDataProcImm_frame _ _ _).2
    | exact ((encodeDataProcImm_frame _ _ _).1).trans (getImm_codeOffset _ _)
    | exact ((encodeDataProcImm_frame _ _ _).2).trans (getImm_isFirstPass _ _)

theorem ldstMem_frame (σ : CG) (rt base : Nat) (offset : Int)
    (pre post is64 isSigned : Bool) (size opc : Nat) :
    (ldstMem σ rt base offset pre post is64 isSigned size opc).1.codeOffset =
      σ.codeOffset ∧
    (ldstMem σ rt base offset pre post is64 isSigned size opc).1.isFirstPass =
      σ.isFirstPass := by
  unfold ldstMem
  try dsimp only []
  constructor <;> repeat' split
  all_goals first
    | rfl
    | exact cgError_codeOffset _ _
    | exact cgError_isFirstPass _ _

theorem encodeLoadStore_frame (σ : CG) (m : List Char) (ops : List Operand) :
    (encodeLoadStore σ m ops).1.codeOffset = σ.codeOffset ∧
    (encodeLoadStore σ m ops).1.isFirstPass = σ.isFirstPass := by
  unfold encodeLoadStore
  try dsimp only []
  constructor <;> repeat' split
  all_goals first
    | rfl
    | exact cgError_codeOffset _ _
    | exact cgError_isFirstPass _ _
    | exact resolveLabel_codeOffset _ _
    | exact resolveLabel_isFirstPass _ _
    | exact (cgError_codeOffset _ _).trans (resolveLabel_codeOffset _ _)
    | exact (cgError_isFirstPass _ _).trans (resolveLabel_isFirstPass _ _)
    | exact (ldstMem_frame _ _ _ _ _ _ _ _ _ _).1
    | exact (ldstMem_frame _ _ _ _ _ _ _ _ _ _).2

theorem encodeLoadStorePair_frame (σ : CG) (m : List Char) (ops : List Operand) :
    (encodeLoadStorePair σ m ops).1.codeOffset = σ.codeOffset ∧
    (encodeLoadStorePair σ m ops).1.isFirstPass = σ.isFirstPass := by
  unfold encodeLoadStorePair
  try dsimp only []
  constructor <;> repeat' split
  all_goals simp [cgError_codeOffset, cgError_isFirstPass, getImm_codeOffset,
    getImm_isFirstPass]

theorem encodeSystem_frame (σ : CG) (m : List Char) (ops : List Operand) :
    (encodeSystem σ m ops).1.codeOffset = σ.codeOffset ∧
    (encodeSystem σ m ops).1.isFirstPass = σ.isFirstPass := by
  unfold encodeSystem
  by_cases h1 : tokEq m "wfi" = true
  · rw [if_pos h1]; exact ⟨rfl, rfl⟩
  rw [if_neg h1]
  by_cases h2 : tokEq m "wfe" = true
  · rw [if_pos h2]; exact ⟨rfl, rfl⟩
  rw [if_neg h2]
  by_cases h3 : tokEq m "sev" = true
  · rw [if_pos h3]; exact ⟨rfl, rfl⟩
  rw [if_neg h3]
  by_cases h4 : tokEq m "sevl" = true
  · rw [if_pos h4]; exact ⟨rfl, rfl⟩
  rw [if_neg h4]
  by_cases h5 : tokEq m "dmb" = true
  · rw [if_pos h5]; exact ⟨rfl, rfl⟩
  rw [if_neg h5]
  by_cases h6 : tokEq m "dsb" = true
  · rw [if_pos h6]; exact ⟨rfl, rfl⟩
  rw [if_neg h6]
  by_cases h7 : tokEq m "isb" = true
  · rw [if_pos h7]; exact ⟨rfl, rfl⟩
  rw [if_neg h7]
  by_cases h8 : tokEq m "svc" = true
  · rw [if_pos h8]
    rcases ops with _ | ⟨op, rest⟩
    · exact ⟨rfl, rfl⟩
    · exact ⟨getImm_codeOffset σ op, getImm_isFirstPass σ op⟩
  rw [if_neg h8]
  by_cases h9 : tokEq m "hvc" = true
  · rw [if_pos h9]
    rcases ops with _ | ⟨op, rest⟩
    · exact ⟨rfl, rfl⟩
    · exact ⟨getImm_codeOffset σ op, getImm_isFirstPass σ op⟩
  rw [if_neg h9]
  by_cases h10 : tokEq m "smc" = true
  · rw [if_pos h10]
    rcases ops with _ | ⟨op, rest⟩
    · exact ⟨rfl, rfl⟩
    · exact ⟨getImm_codeOffset σ op, getImm_isFirstPass σ op⟩
  rw [if_neg h10]
  exact ⟨cgError_codeOffset _ _, cgError_isFirstPass _ _⟩

theorem encodeInstr_frame (σ : CG) (m : List Char) (ops : List Operand) :
    (encodeInstr σ m ops).1.codeOffset = σ.codeOffset ∧
    (encodeInstr σ m ops).1.isFirstPass = σ.isFirstPass := by
  unfold encodeInstr
  by_cases h1 : tokEq m "nop" = true
  · rw [if_pos h1]; exact ⟨rfl, rfl⟩
  rw [if_neg h1]
  by_cases h2 : tokEq m "ret" = true
  · rw [if_pos h2]; exact ⟨rfl, rfl⟩
  rw [if_neg h2]
  by_cases h3 : tokEq m "br" = true
  · rw [if_pos h3]
    constructor <;> repeat' split
    all_goals first
      | rfl
      | exact cgError_codeOffset _ _
      | exact cgError_isFirstPass _ _
  rw [if_neg h3]
  by_cases h4 : tokEq m "blr" = true
  · rw [if_pos h4]
    constructor <;> repeat' split
    all_goals first
      | rfl
      | exact cgError_codeOffset _ _
      | exact cgError_isFirstPass _ _
  rw [if_neg h4]
  by_cases h5 : tokEq m "b" = true
  · rw [if_pos h5]; exact encodeBranch_frame σ m ops
  rw [if_neg h5]
  by_cases h6 : tokEq m "bl" = true
  · rw [if_pos h6]; exact encodeBranch_frame σ m ops
  rw [if_neg h6]
  rcases condBranchHit m with _ | cond
  rotate_left
  · exact encodeBranchCond_frame σ ops cond
  by_cases h7 : tokEq m "cbz" = true
  · rw [if_pos h7]; exact encodeCbz_frame σ ops false
  rw [if_neg h7]
  by_cases h8 : tokEq m "cbnz" = true
  · rw [if_pos h8]; exact encodeCbz_frame σ ops true
  rw [if_neg h8]
  by_cases h9 : tokEq m "mov" = true ∨ tokEq m "movz" = true ∨ tokEq m "movn" = true ∨ tokEq m "movk" = true
  · rw [if_pos h9]; exact encodeMov_frame σ m ops
  rw [if_neg h9]
  by_cases h10 : tokEq m "add" = true ∨
      tokEq m "adds" = true ∨
      tokEq m "sub" = true ∨
      tokEq m "subs" = true ∨
      tokEq m "and" = true ∨
      tokEq m "ands" = true ∨
      tokEq m "orr" = true ∨
      tokEq m "eor" = true ∨
      tokEq m "bic" = true ∨
      tokEq m "orn" = true ∨
      tokEq m "mvn" = true ∨
      tokEq m "neg" = true ∨
      tokEq m "cmp" = true ∨
      tokEq m "cmn" = true ∨
      tokEq m "tst" = true ∨
      tokEq m "asr" = true ∨
      tokEq m "lsl" = true ∨
      tokEq m "lsr" = true ∨
      tokEq m "ror" = true ∨
      tokEq m "mul" = true ∨
      tokEq m "udiv" = true ∨
      tokEq m "sdiv" = true
  · rw [if_pos h10]; exact encodeDataProc_frame σ m ops
  rw [if_neg h10]
  by_cases h11 : tokEq m "ldr" = true ∨
      tokEq m "ldrb" = true ∨
      tokEq m "ldrh" = true ∨
      tokEq m "ldrsb" = true ∨
      tokEq m "ldrsh" = true ∨
      tokEq m "ldrsw" = true ∨
      tokEq m "str" = true ∨
      tokEq m "strb" = true ∨
      tokEq m "strh" = true
  · rw [if_pos h11]; exact encodeLoadStore_frame σ m ops
  rw [if_neg h11]
  by_cases h12 : tokEq m "ldp" = true ∨ tokEq m "stp" = true
  · rw [if_pos h12]; exact encodeLoadStorePair_frame σ m ops
  rw [if_neg h12]
  by_cases h13 : tokEq m "wfi" = true ∨
      tokEq m "wfe" = true ∨
      tokEq m "sev" = true ∨
      tokEq m "sevl" = true ∨
      tokEq m "dmb" = true ∨
      tokEq m "dsb" = true ∨
      tokEq m "isb" = true ∨
      tokEq m "svc" = true ∨
      tokEq m "hvc" = true ∨
      tokEq m "smc" = true
  · rw [if_pos h13]; exact encodeSystem_frame σ m ops
  rw [if_neg h13]
  by_cases h14 : tokEq m "prt" = true
  · rw [if_pos h14]; exact ⟨rfl, rfl⟩
  rw [if_neg h14]
  by_cases h15 : tokEq m "prtc" = true
  · rw [if_pos h15]; exact ⟨rfl, rfl⟩
  rw [if_neg h15]
  by_cases h16 : tokEq m "prtn" = true
  · rw [if_pos h16]; exact ⟨rfl, rfl⟩
  rw [if_neg h16]
  by_cases h17 : tokEq m "inp" = true
  · rw [if_pos h17]; exact ⟨rfl, rfl⟩
  rw [if_neg h17]
  by_cases h18 : tokEq m "cls" = true
  · rw [if_pos h18]; exact ⟨rfl, rfl⟩
  rw [if_neg h18]
  by_cases h19 : tokEq m "setc" = true
  · rw [if_pos h19]; exact ⟨rfl, rfl⟩
  rw [if_neg h19]
  by_cases h20 : tokEq m "plot" = true
  · rw [if_pos h20]; exact ⟨rfl, rfl⟩
  rw [if_neg h20]
  by_cases h21 : tokEq m "line" = true
  · rw [if_pos h21]; exact ⟨rfl, rfl⟩
  rw [if_neg h21]
  by_cases h22 : tokEq m "box" = true
  · rw [if_pos h22]; exact ⟨rfl, rfl⟩
  rw [if_neg h22]
  by_cases h23 : tokEq m "reset" = true
  · rw [if_pos h23]; exact ⟨rfl, rfl⟩
  rw [if_neg h23]
  by_cases h24 : tokEq m "canvas" = true
  · rw [if_pos h24]; exact ⟨rfl, rfl⟩
  rw [if_neg h24]
  by_cases h25 : tokEq m "sleep" = true
  · rw [if_pos h25]; exact ⟨rfl, rfl⟩
  rw [if_neg h25]
  by_cases h26 : tokEq m "rnd" = true
  · rw [if_pos h26]; exact ⟨rfl, rfl⟩
  rw [if_neg h26]
  by_cases h27 : tokEq m "tick" = true
  · rw [if_pos h27]; exact ⟨rfl, rfl⟩
  rw [if_neg h27]
  by_cases h28 : tokEq m "halt" = true
  · rw [if_pos h28]; exact ⟨rfl, rfl⟩
  rw [if_neg h28]
  by_cases h29 : tokEq m "inps" = true
  · rw [if_pos h29]; exact ⟨rfl, rfl⟩
  rw [if_neg h29]
  by_cases h30 : tokEq m "prtx" = true
  · rw [if_pos h30]; exact ⟨rfl, rfl⟩
  rw [if_neg h30]
  by_cases h31 : tokEq m "strlen" = true
  · rw [if_pos h31]; exact ⟨rfl, rfl⟩
  rw [if_neg h31]
  by_cases h32 : tokEq m "memcpy" = true
  · rw [if_pos h32]; exact ⟨rfl, rfl⟩
  rw [if_neg h32]
  by_cases h33 : tokEq m "memset" = true
  · rw [if_pos h33]; exact ⟨rfl, rfl⟩
  rw [if_neg h33]
  by_cases h34 : tokEq m "abs" = true
  · rw [if_pos h34]; exact ⟨rfl, rfl⟩
  rw [if_neg h34]
  by_cases h35 : tokEq m "fcreat" = true
  · rw [if_pos h35]; exact ⟨rfl, rfl⟩
  rw [if_neg h35]
  by_cases h36 : tokEq m "fwrite" = true
  · rw [if_pos h36]; exact ⟨rfl, rfl⟩
  rw [if_neg h36]
  by_cases h37 : tokEq m "fread" = true
  · rw [if_pos h37]; exact ⟨rfl, rfl⟩
  rw [if_neg h37]
  by_cases h38 : tokEq m "fdel" = true
  · rw [if_pos h38]; exact ⟨rfl, rfl⟩
  rw [if_neg h38]
  by_cases h39 : tokEq m "fcopy" = true
  · rw [if_pos h39]; exact ⟨rfl, rfl⟩
  rw [if_neg h39]
  by_cases h40 : tokEq m "fmove" = true
  · rw [if_pos h40]; exact ⟨rfl, rfl⟩
  rw [if_neg h40]
  by_cases h41 : tokEq m "fexist" = true
  · rw [if_pos h41]; exact ⟨rfl, rfl⟩
  rw [if_neg h41]
  exact ⟨cgError_codeOffset _ _, cgError_isFirstPass _ _⟩
end EmberCasm
